import Mathlib

/-! # Configuration persistence and frame capture of the ESP32 PrusaConnect camera firmware

A shallow embedding of `Configuration` (`cfg.cpp`) and of the capture and
settings functions of `Camera` (`camera.cpp`).  The EEPROM emulation, the
logger and the board headers are external to the two source files: the EEPROM
is modelled as a byte image together with the sequence of `write` calls made
on it, logging is dropped (it never touches the image), and the constants of
the headers (`EEPROM_ADDR_*`, `FACTORY_CFG_*`, `CFG_*`) are the fields of the
parameter record `Cfg`.

Conventions: a `uint8_t`/`char` is a `Fin 256`; wider unsigned values are
naturals, truncated with `u8`/`u16` wherever the C++ code converts; an `int8_t`
is an integer, converted to and from its byte in two's complement; an Arduino
`String` is the list of its characters and `+=` of a character appends it.
Addresses are the `uint16_t` arguments of the C++ functions, passed on to the
`int` parameter of `EEPROM.read`/`EEPROM.write`; the `uint16_t` loop cursors of
`SaveString` and `LoadString` wrap modulo 65536.

The camera driver, the sensor, the flash output, the frame-buffer semaphore and
the reset input are external too.  What the camera code does to them is
recorded as a trace of `HwEvent`s; the frames the driver hands out and the
samples of the reset input are given as sequences indexed by the number of the
request.  Loops without a bound in the source take a fuel argument and return
`none` when the fuel runs out; `none` is also the result of a call that blocks for
ever on the semaphore.
-/

namespace PrusaCam

/-! ## Machine values -/

/-- A `uint8_t` / `char`. -/
abbrev Byte := Fin 256

/-- An Arduino `String`: a finite sequence of `char`. -/
abbrev ArduinoString := List Byte

/-- Conversion of an unsigned value to `uint8_t` (keeps the low eight bits). -/
def u8 (n : Nat) : Byte := ⟨n % 256, Nat.mod_lt n (by decide)⟩

/-- Conversion of an unsigned value to `uint16_t`. -/
def u16 (n : Nat) : Nat := n % 65536

/-- Conversion `int8_t → uint8_t` (two's complement). -/
def i8_to_u8 (x : Int) : Byte := u8 (x % 256).toNat

/-- Conversion `uint8_t → int8_t` (two's complement). -/
def u8_to_i8 (b : Byte) : Int := if b.val < 128 then (b.val : Int) else (b.val : Int) - 256

/-- Conversion `bool → uint8_t`. -/
def bool_to_u8 (b : Bool) : Byte := if b then 1 else 0

/-- Conversion `uint8_t → bool`. -/
def u8_to_bool (b : Byte) : Bool := decide (b.val ≠ 0)

/-- Conversion `int8_t → bool`. -/
def i8_to_bool (x : Int) : Bool := decide (x ≠ 0)

/-- The Arduino macro `highByte(w)`: `(uint8_t) ((w) >> 8)`. -/
def highByte (w : Nat) : Byte := u8 (w >>> 8)

/-- The Arduino macro `lowByte(w)`: `(uint8_t) ((w) & 0xff)`. -/
def lowByte (w : Nat) : Byte := u8 (w &&& 0xff)

/-! ## The EEPROM emulation -/

/-- The state of the `EEPROM` object: the byte image that `read` sees, and the
`write` calls made so far, oldest first. -/
structure EEPROMClass where
  data : Nat → Byte
  writes : List (Nat × Byte)

namespace EEPROMClass

/-- `EEPROM.read(address)`. -/
def read (e : EEPROMClass) (address : Nat) : Byte := e.data address

/-- `EEPROM.write(address, value)`. -/
def write (e : EEPROMClass) (address : Nat) (value : Byte) : EEPROMClass :=
  { data := fun a => if a = address then value else e.data a
    writes := e.writes ++ [(address, value)] }

/-- `EEPROM.commit()`: flushes the image; what `read` sees is unchanged. -/
def commit (e : EEPROMClass) : EEPROMClass := e

/-- The image obtained by performing a sequence of writes on an image. -/
def replay (d : Nat → Byte) : List (Nat × Byte) → Nat → Byte
  | [] => d
  | (a, v) :: ws => replay (fun x => if x = a then v else d x) ws

end EEPROMClass

/-! ## Header constants -/

/-- The constants of the board headers that `cfg.cpp` uses, as written at their
use sites: unsigned macros are naturals, `int8_t` defaults are integers,
`bool` defaults are booleans and string defaults are strings. -/
structure Cfg where
  CFG_FIRST_MCU_START_NAK : Nat
  CFG_WIFI_SETTINGS_SAVED : Nat
  CFG_WIFI_SETTINGS_NOT_SAVED : Nat
  CFG_RESET_TIME_WAIT : Nat
  CFG_RESET_LOOP_DELAY : Nat
  LogLevel_Info : Nat
  EEPROM_ADDR_FIRST_MCU_START_FLAG_START : Nat
  EEPROM_ADDR_WIFI_ACTIVE_FLAG_START : Nat
  EEPROM_ADDR_REFRESH_INTERVAL_START : Nat
  EEPROM_ADDR_TOKEN_START : Nat
  EEPROM_ADDR_TOKEN_LENGTH : Nat
  EEPROM_ADDR_FINGERPRINT_START : Nat
  EEPROM_ADDR_FINGERPRINT_LENGTH : Nat
  EEPROM_ADDR_PHOTO_QUALITY_START : Nat
  EEPROM_ADDR_FRAMESIZE_START : Nat
  EEPROM_ADDR_BRIGHTNESS_START : Nat
  EEPROM_ADDR_CONTRAST_START : Nat
  EEPROM_ADDR_SATURATION_START : Nat
  EEPROM_ADDR_HMIRROR_START : Nat
  EEPROM_ADDR_VFLIP_START : Nat
  EEPROM_ADDR_LENSC_START : Nat
  EEPROM_ADDR_EXPOSURE_CTRL_START : Nat
  EEPROM_ADDR_AWB_ENABLE_START : Nat
  EEPROM_ADDR_AWB_GAIN_ENABLE_START : Nat
  EEPROM_ADDR_AWB_MODE_ENABLE_START : Nat
  EEPROM_ADDR_BPC_ENABLE_START : Nat
  EEPROM_ADDR_WPC_ENABLE_START : Nat
  EEPROM_ADDR_RAW_GAMA_ENABLE_START : Nat
  EEPROM_ADDR_WIFI_SSID_START : Nat
  EEPROM_ADDR_WIFI_SSID_LENGTH : Nat
  EEPROM_ADDR_WIFI_PASSWORD_START : Nat
  EEPROM_ADDR_WIFI_PASSWORD_LENGTH : Nat
  EEPROM_ADDR_BASIC_AUTH_USERNAME_START : Nat
  EEPROM_ADDR_BASIC_AUTH_USERNAME_LENGTH : Nat
  EEPROM_ADDR_BASIC_AUTH_PASSWORD_START : Nat
  EEPROM_ADDR_BASIC_AUTH_PASSWORD_LENGTH : Nat
  EEPROM_ADDR_BASIC_AUTH_ENABLE_FLAG_START : Nat
  EEPROM_ADDR_CAMERA_FLASH_ENABLE_START : Nat
  EEPROM_ADDR_CAMERA_FLASH_TIME_START : Nat
  EEPROM_ADDR_MDNS_RECORD_START : Nat
  EEPROM_ADDR_MDNS_RECORD_LENGTH : Nat
  EEPROM_ADDR_AEC2_START : Nat
  EEPROM_ADDR_AE_LEVEL_START : Nat
  EEPROM_ADDR_AEC_VALUE_START : Nat
  EEPROM_ADDR_GAIN_CTRL_START : Nat
  EEPROM_ADDR_AGC_GAIN_START : Nat
  EEPROM_ADDR_LOG_LEVEL : Nat
  EEPROM_ADDR_HOSTNAME_START : Nat
  EEPROM_ADDR_HOSTNAME_LENGTH : Nat
  FACTORY_CFG_PHOTO_REFRESH_INTERVAL : Nat
  FACTORY_CFG_PHOTO_QUALITY : Nat
  FACTORY_CFG_FRAME_SIZE : Nat
  FACTORY_CFG_BRIGHTNESS : Int
  FACTORY_CFG_CONTRAST : Int
  FACTORY_CFG_SATURATION : Int
  FACTORY_CFG_H_MIRROR : Bool
  FACTORY_CFG_V_FLIP : Bool
  FACTORY_CFG_LENS_CORRECT : Bool
  FACTORY_CFG_EXPOSURE_CTRL : Bool
  FACTORY_CFG_AWB : Bool
  FACTORY_CFG_AWB_GAIN : Bool
  FACTORY_CFG_AWB_MODE : Nat
  FACTORY_CFG_BPC : Bool
  FACTORY_CFG_WPC : Bool
  FACTORY_CFG_RAW_GAMA : Bool
  FACTORY_CFG_WEB_AUTH_USERNAME : ArduinoString
  FACTORY_CFG_WEB_AUTH_PASSWORD : ArduinoString
  FACTORY_CFG_WEB_AUTH_ENABLE : Bool
  FACTORY_CFG_CAMERA_FLASH_ENABLE : Nat
  FACTORY_CFG_CAMERA_FLASH_TIME : Nat
  FACTORY_CFG_MDNS_RECORD_HOST : ArduinoString
  FACTORY_CFG_AEC2 : Bool
  FACTORY_CFG_AE_LEVEL : Int
  FACTORY_CFG_AEC_VALUE : Nat
  FACTORY_CFG_GAIN_CTRL : Bool
  FACTORY_CFG_AGC_GAIN : Nat
  FACTORY_CFG_HOSTNAME : ArduinoString

/-- What the platform supplies to `GetFingerprint`: the hardware unique ID
bytes, the MAC address text and the library function `base64::encode`. -/
structure Platform where
  UniqueID : List Byte
  WiFiMacAddress : ArduinoString
  base64_encode : ArduinoString → ArduinoString

/-! ## Primitive codecs (`cfg.cpp` lines 253-351) -/

/-- `Configuration::SaveUint8`. -/
def SaveUint8 (e : EEPROMClass) (address : Nat) (data : Nat) : EEPROMClass :=
  (e.write address (u8 data)).commit

/-- `Configuration::SaveInt8`. -/
def SaveInt8 (e : EEPROMClass) (address : Nat) (data : Int) : EEPROMClass :=
  (e.write address (i8_to_u8 data)).commit

/-- `Configuration::SaveBool`. -/
def SaveBool (e : EEPROMClass) (address : Nat) (data : Bool) : EEPROMClass :=
  (e.write address (bool_to_u8 data)).commit

/-- `Configuration::SaveUint16`: `address + 1` is computed in `int`. -/
def SaveUint16 (e : EEPROMClass) (address : Nat) (data : Nat) : EEPROMClass :=
  let hi := highByte (u16 data)
  let lo := lowByte (u16 data)
  ((e.write address hi).write (address + 1) lo).commit

/-- The body of the `for` loop of `SaveString`: `i` is a `uint16_t` cursor
into the store, the list is `data.charAt(j), data.charAt(j+1), ...`. -/
def SaveString.loop (e : EEPROMClass) (i : Nat) : ArduinoString → EEPROMClass
  | [] => e
  | c :: cs => SaveString.loop (e.write i c) (u16 (i + 1)) cs

/-- `Configuration::SaveString`. -/
def SaveString (e : EEPROMClass) (address max_length : Nat) (data : ArduinoString) :
    EEPROMClass :=
  if data.length < max_length then
    (SaveString.loop (e.write address (u8 data.length)) (u16 (address + 1)) data).commit
  else
    e

/-- `Configuration::LoadUint16`. -/
def LoadUint16 (e : EEPROMClass) (address : Nat) : Nat :=
  u16 (u16 ((e.read address).val <<< 8) ||| (e.read (address + 1)).val)

/-- The `for` loop of `LoadString`: appends `len` bytes read at the `uint16_t`
cursor `i`. -/
def LoadString.loop (e : EEPROMClass) : Nat → Nat → ArduinoString
  | _, 0 => []
  | i, n + 1 => e.read i :: LoadString.loop e (u16 (i + 1)) n

/-- `Configuration::LoadString` (the returned `tmp`; the log line is dropped). -/
def LoadString (e : EEPROMClass) (address max_length : Nat) : ArduinoString :=
  let len := (e.read address).val
  if len ≤ max_length ∧ len > 0 then
    LoadString.loop e (u16 (address + 1)) len
  else
    []

/-! ## Per-field save operations (`cfg.cpp` lines 358-693) -/

/-- `Configuration::SaveRefreshInterval`. -/
def SaveRefreshInterval (cfg : Cfg) (e : EEPROMClass) (i_interval : Nat) : EEPROMClass :=
  SaveUint8 e cfg.EEPROM_ADDR_REFRESH_INTERVAL_START i_interval

/-- `Configuration::SaveToken`. -/
def SaveToken (cfg : Cfg) (e : EEPROMClass) (i_token : ArduinoString) : EEPROMClass :=
  SaveString e cfg.EEPROM_ADDR_TOKEN_START cfg.EEPROM_ADDR_TOKEN_LENGTH i_token

/-- `Configuration::SaveFingerprint`. -/
def SaveFingerprint (cfg : Cfg) (e : EEPROMClass) (i_fingerprint : ArduinoString) : EEPROMClass :=
  SaveString e cfg.EEPROM_ADDR_FINGERPRINT_START cfg.EEPROM_ADDR_FINGERPRINT_LENGTH i_fingerprint

/-- `Configuration::SavePhotoQuality`. -/
def SavePhotoQuality (cfg : Cfg) (e : EEPROMClass) (i_data : Nat) : EEPROMClass :=
  SaveUint8 e cfg.EEPROM_ADDR_PHOTO_QUALITY_START i_data

/-- `Configuration::SaveFrameSize`. -/
def SaveFrameSize (cfg : Cfg) (e : EEPROMClass) (i_data : Nat) : EEPROMClass :=
  SaveUint8 e cfg.EEPROM_ADDR_FRAMESIZE_START i_data

/-- `Configuration::SaveBrightness`. -/
def SaveBrightness (cfg : Cfg) (e : EEPROMClass) (i_data : Int) : EEPROMClass :=
  SaveInt8 e cfg.EEPROM_ADDR_BRIGHTNESS_START i_data

/-- `Configuration::SaveContrast`. -/
def SaveContrast (cfg : Cfg) (e : EEPROMClass) (i_data : Int) : EEPROMClass :=
  SaveInt8 e cfg.EEPROM_ADDR_CONTRAST_START i_data

/-- `Configuration::SaveSaturation`. -/
def SaveSaturation (cfg : Cfg) (e : EEPROMClass) (i_data : Int) : EEPROMClass :=
  SaveInt8 e cfg.EEPROM_ADDR_SATURATION_START i_data

/-- `Configuration::SaveHmirror`. -/
def SaveHmirror (cfg : Cfg) (e : EEPROMClass) (i_data : Bool) : EEPROMClass :=
  SaveBool e cfg.EEPROM_ADDR_HMIRROR_START i_data

/-- `Configuration::SaveVflip`. -/
def SaveVflip (cfg : Cfg) (e : EEPROMClass) (i_data : Bool) : EEPROMClass :=
  SaveBool e cfg.EEPROM_ADDR_VFLIP_START i_data

/-- `Configuration::SaveLensCorrect`. -/
def SaveLensCorrect (cfg : Cfg) (e : EEPROMClass) (i_data : Bool) : EEPROMClass :=
  SaveBool e cfg.EEPROM_ADDR_LENSC_START i_data

/-- `Configuration::SaveExposureCtrl`. -/
def SaveExposureCtrl (cfg : Cfg) (e : EEPROMClass) (i_data : Bool) : EEPROMClass :=
  SaveBool e cfg.EEPROM_ADDR_EXPOSURE_CTRL_START i_data

/-- `Configuration::SaveAwb`. -/
def SaveAwb (cfg : Cfg) (e : EEPROMClass) (i_data : Bool) : EEPROMClass :=
  SaveBool e cfg.EEPROM_ADDR_AWB_ENABLE_START i_data

/-- `Configuration::SaveAwbGain`. -/
def SaveAwbGain (cfg : Cfg) (e : EEPROMClass) (i_data : Bool) : EEPROMClass :=
  SaveBool e cfg.EEPROM_ADDR_AWB_GAIN_ENABLE_START i_data

/-- `Configuration::SaveAwbMode`. -/
def SaveAwbMode (cfg : Cfg) (e : EEPROMClass) (i_data : Nat) : EEPROMClass :=
  SaveUint8 e cfg.EEPROM_ADDR_AWB_MODE_ENABLE_START i_data

/-- `Configuration::SaveBpc`. -/
def SaveBpc (cfg : Cfg) (e : EEPROMClass) (i_data : Bool) : EEPROMClass :=
  SaveBool e cfg.EEPROM_ADDR_BPC_ENABLE_START i_data

/-- `Configuration::SaveWpc`. -/
def SaveWpc (cfg : Cfg) (e : EEPROMClass) (i_data : Bool) : EEPROMClass :=
  SaveBool e cfg.EEPROM_ADDR_WPC_ENABLE_START i_data

/-- `Configuration::SaveRawGama`. -/
def SaveRawGama (cfg : Cfg) (e : EEPROMClass) (i_data : Bool) : EEPROMClass :=
  SaveBool e cfg.EEPROM_ADDR_RAW_GAMA_ENABLE_START i_data

/-- `Configuration::SaveWifiSsid`. -/
def SaveWifiSsid (cfg : Cfg) (e : EEPROMClass) (i_data : ArduinoString) : EEPROMClass :=
  SaveString e cfg.EEPROM_ADDR_WIFI_SSID_START cfg.EEPROM_ADDR_WIFI_SSID_LENGTH i_data

/-- `Configuration::SaveWifiPassword`. -/
def SaveWifiPassword (cfg : Cfg) (e : EEPROMClass) (i_data : ArduinoString) : EEPROMClass :=
  SaveString e cfg.EEPROM_ADDR_WIFI_PASSWORD_START cfg.EEPROM_ADDR_WIFI_PASSWORD_LENGTH i_data

/-- `Configuration::SaveWifiCfgFlag`. -/
def SaveWifiCfgFlag (cfg : Cfg) (e : EEPROMClass) (i_data : Nat) : EEPROMClass :=
  SaveUint8 e cfg.EEPROM_ADDR_WIFI_ACTIVE_FLAG_START i_data

/-- `Configuration::SaveBasicAuthUsername`. -/
def SaveBasicAuthUsername (cfg : Cfg) (e : EEPROMClass) (i_data : ArduinoString) : EEPROMClass :=
  SaveString e cfg.EEPROM_ADDR_BASIC_AUTH_USERNAME_START cfg.EEPROM_ADDR_BASIC_AUTH_USERNAME_LENGTH i_data

/-- `Configuration::SaveBasicAuthPassword`. -/
def SaveBasicAuthPassword (cfg : Cfg) (e : EEPROMClass) (i_data : ArduinoString) : EEPROMClass :=
  SaveString e cfg.EEPROM_ADDR_BASIC_AUTH_PASSWORD_START cfg.EEPROM_ADDR_BASIC_AUTH_PASSWORD_LENGTH i_data

/-- `Configuration::SaveBasicAuthFlag`. -/
def SaveBasicAuthFlag (cfg : Cfg) (e : EEPROMClass) (i_data : Bool) : EEPROMClass :=
  SaveBool e cfg.EEPROM_ADDR_BASIC_AUTH_ENABLE_FLAG_START i_data

/-- `Configuration::SaveCameraFlashEnable`. -/
def SaveCameraFlashEnable (cfg : Cfg) (e : EEPROMClass) (i_data : Nat) : EEPROMClass :=
  SaveUint8 e cfg.EEPROM_ADDR_CAMERA_FLASH_ENABLE_START i_data

/-- `Configuration::SaveCameraFlashTime`. -/
def SaveCameraFlashTime (cfg : Cfg) (e : EEPROMClass) (i_data : Nat) : EEPROMClass :=
  SaveUint16 e cfg.EEPROM_ADDR_CAMERA_FLASH_TIME_START i_data

/-- `Configuration::SaveMdnsRecord`. -/
def SaveMdnsRecord (cfg : Cfg) (e : EEPROMClass) (i_data : ArduinoString) : EEPROMClass :=
  SaveString e cfg.EEPROM_ADDR_MDNS_RECORD_START cfg.EEPROM_ADDR_MDNS_RECORD_LENGTH i_data

/-- `Configuration::SaveAec2`. -/
def SaveAec2 (cfg : Cfg) (e : EEPROMClass) (i_data : Bool) : EEPROMClass :=
  SaveBool e cfg.EEPROM_ADDR_AEC2_START i_data

/-- `Configuration::SaveAeLevel`: the `int8_t` argument is handed to `SaveBool`. -/
def SaveAeLevel (cfg : Cfg) (e : EEPROMClass) (i_data : Int) : EEPROMClass :=
  SaveBool e cfg.EEPROM_ADDR_AE_LEVEL_START (i8_to_bool i_data)

/-- `Configuration::SaveAecValue`. -/
def SaveAecValue (cfg : Cfg) (e : EEPROMClass) (i_data : Nat) : EEPROMClass :=
  SaveUint16 e cfg.EEPROM_ADDR_AEC_VALUE_START i_data

/-- `Configuration::SaveGainCtrl`. -/
def SaveGainCtrl (cfg : Cfg) (e : EEPROMClass) (i_data : Bool) : EEPROMClass :=
  SaveBool e cfg.EEPROM_ADDR_GAIN_CTRL_START i_data

/-- `Configuration::SaveAgcGain`. -/
def SaveAgcGain (cfg : Cfg) (e : EEPROMClass) (i_data : Nat) : EEPROMClass :=
  SaveUint8 e cfg.EEPROM_ADDR_AGC_GAIN_START i_data

/-- `Configuration::SaveLogLevel`. -/
def SaveLogLevel (cfg : Cfg) (e : EEPROMClass) (i_data : Nat) : EEPROMClass :=
  SaveUint8 e cfg.EEPROM_ADDR_LOG_LEVEL i_data

/-- `Configuration::SavePrusaConnectHostname`. -/
def SavePrusaConnectHostname (cfg : Cfg) (e : EEPROMClass) (i_data : ArduinoString) : EEPROMClass :=
  SaveString e cfg.EEPROM_ADDR_HOSTNAME_START cfg.EEPROM_ADDR_HOSTNAME_LENGTH i_data

/-! ## Per-field load operations (`cfg.cpp` lines 700-1088) -/

/-- `Configuration::LoadRefreshInterval`. -/
def LoadRefreshInterval (cfg : Cfg) (e : EEPROMClass) : Nat :=
  (e.read cfg.EEPROM_ADDR_REFRESH_INTERVAL_START).val

/-- `Configuration::LoadToken`. -/
def LoadToken (cfg : Cfg) (e : EEPROMClass) : ArduinoString :=
  LoadString e cfg.EEPROM_ADDR_TOKEN_START cfg.EEPROM_ADDR_TOKEN_LENGTH

/-- `Configuration::LoadFingerprint`. -/
def LoadFingerprint (cfg : Cfg) (e : EEPROMClass) : ArduinoString :=
  LoadString e cfg.EEPROM_ADDR_FINGERPRINT_START cfg.EEPROM_ADDR_FINGERPRINT_LENGTH

/-- `Configuration::LoadPhotoQuality`. -/
def LoadPhotoQuality (cfg : Cfg) (e : EEPROMClass) : Nat :=
  (e.read cfg.EEPROM_ADDR_PHOTO_QUALITY_START).val

/-- `Configuration::LoadFrameSize`. -/
def LoadFrameSize (cfg : Cfg) (e : EEPROMClass) : Nat :=
  (e.read cfg.EEPROM_ADDR_FRAMESIZE_START).val

/-- `Configuration::LoadBrightness`. -/
def LoadBrightness (cfg : Cfg) (e : EEPROMClass) : Int :=
  u8_to_i8 (e.read cfg.EEPROM_ADDR_BRIGHTNESS_START)

/-- `Configuration::LoadContrast`. -/
def LoadContrast (cfg : Cfg) (e : EEPROMClass) : Int :=
  u8_to_i8 (e.read cfg.EEPROM_ADDR_CONTRAST_START)

/-- `Configuration::LoadSaturation`. -/
def LoadSaturation (cfg : Cfg) (e : EEPROMClass) : Int :=
  u8_to_i8 (e.read cfg.EEPROM_ADDR_SATURATION_START)

/-- `Configuration::LoadHmirror`. -/
def LoadHmirror (cfg : Cfg) (e : EEPROMClass) : Bool :=
  u8_to_bool (e.read cfg.EEPROM_ADDR_HMIRROR_START)

/-- `Configuration::LoadVflip`. -/
def LoadVflip (cfg : Cfg) (e : EEPROMClass) : Bool :=
  u8_to_bool (e.read cfg.EEPROM_ADDR_VFLIP_START)

/-- `Configuration::LoadLensCorrect`. -/
def LoadLensCorrect (cfg : Cfg) (e : EEPROMClass) : Bool :=
  u8_to_bool (e.read cfg.EEPROM_ADDR_LENSC_START)

/-- `Configuration::LoadExposureCtrl`. -/
def LoadExposureCtrl (cfg : Cfg) (e : EEPROMClass) : Bool :=
  u8_to_bool (e.read cfg.EEPROM_ADDR_EXPOSURE_CTRL_START)

/-- `Configuration::LoadAwb`. -/
def LoadAwb (cfg : Cfg) (e : EEPROMClass) : Bool :=
  u8_to_bool (e.read cfg.EEPROM_ADDR_AWB_ENABLE_START)

/-- `Configuration::LoadAwbGain`. -/
def LoadAwbGain (cfg : Cfg) (e : EEPROMClass) : Bool :=
  u8_to_bool (e.read cfg.EEPROM_ADDR_AWB_GAIN_ENABLE_START)

/-- `Configuration::LoadAwbMode`. -/
def LoadAwbMode (cfg : Cfg) (e : EEPROMClass) : Nat :=
  (e.read cfg.EEPROM_ADDR_AWB_MODE_ENABLE_START).val

/-- `Configuration::LoadBpc`. -/
def LoadBpc (cfg : Cfg) (e : EEPROMClass) : Bool :=
  u8_to_bool (e.read cfg.EEPROM_ADDR_BPC_ENABLE_START)

/-- `Configuration::LoadWpc`. -/
def LoadWpc (cfg : Cfg) (e : EEPROMClass) : Bool :=
  u8_to_bool (e.read cfg.EEPROM_ADDR_WPC_ENABLE_START)

/-- `Configuration::LoadRawGama`. -/
def LoadRawGama (cfg : Cfg) (e : EEPROMClass) : Bool :=
  u8_to_bool (e.read cfg.EEPROM_ADDR_RAW_GAMA_ENABLE_START)

/-- `Configuration::LoadWifiSsid`. -/
def LoadWifiSsid (cfg : Cfg) (e : EEPROMClass) : ArduinoString :=
  LoadString e cfg.EEPROM_ADDR_WIFI_SSID_START cfg.EEPROM_ADDR_WIFI_SSID_LENGTH

/-- `Configuration::LoadWifiPassowrd`. -/
def LoadWifiPassowrd (cfg : Cfg) (e : EEPROMClass) : ArduinoString :=
  LoadString e cfg.EEPROM_ADDR_WIFI_PASSWORD_START cfg.EEPROM_ADDR_WIFI_PASSWORD_LENGTH

/-- `Configuration::LoadBasicAuthUsername`. -/
def LoadBasicAuthUsername (cfg : Cfg) (e : EEPROMClass) : ArduinoString :=
  LoadString e cfg.EEPROM_ADDR_BASIC_AUTH_USERNAME_START cfg.EEPROM_ADDR_BASIC_AUTH_USERNAME_LENGTH

/-- `Configuration::LoadBasicAuthPassword`. -/
def LoadBasicAuthPassword (cfg : Cfg) (e : EEPROMClass) : ArduinoString :=
  LoadString e cfg.EEPROM_ADDR_BASIC_AUTH_PASSWORD_START cfg.EEPROM_ADDR_BASIC_AUTH_PASSWORD_LENGTH

/-- `Configuration::LoadBasicAuthFlag`. -/
def LoadBasicAuthFlag (cfg : Cfg) (e : EEPROMClass) : Bool :=
  u8_to_bool (e.read cfg.EEPROM_ADDR_BASIC_AUTH_ENABLE_FLAG_START)

/-- `Configuration::LoadCameraFlashEnable`. -/
def LoadCameraFlashEnable (cfg : Cfg) (e : EEPROMClass) : Bool :=
  u8_to_bool (e.read cfg.EEPROM_ADDR_CAMERA_FLASH_ENABLE_START)

/-- `Configuration::LoadCameraFlashTime`. -/
def LoadCameraFlashTime (cfg : Cfg) (e : EEPROMClass) : Nat :=
  LoadUint16 e cfg.EEPROM_ADDR_CAMERA_FLASH_TIME_START

/-- `Configuration::LoadMdnsRecord`. -/
def LoadMdnsRecord (cfg : Cfg) (e : EEPROMClass) : ArduinoString :=
  LoadString e cfg.EEPROM_ADDR_MDNS_RECORD_START cfg.EEPROM_ADDR_MDNS_RECORD_LENGTH

/-- `Configuration::LoadAec2`. -/
def LoadAec2 (cfg : Cfg) (e : EEPROMClass) : Bool :=
  u8_to_bool (e.read cfg.EEPROM_ADDR_AEC2_START)

/-- `Configuration::LoadAeLevel`. -/
def LoadAeLevel (cfg : Cfg) (e : EEPROMClass) : Int :=
  u8_to_i8 (e.read cfg.EEPROM_ADDR_AE_LEVEL_START)

/-- `Configuration::LoadAecValue`. -/
def LoadAecValue (cfg : Cfg) (e : EEPROMClass) : Nat :=
  LoadUint16 e cfg.EEPROM_ADDR_AEC_VALUE_START

/-- `Configuration::LoadGainCtrl`. -/
def LoadGainCtrl (cfg : Cfg) (e : EEPROMClass) : Bool :=
  u8_to_bool (e.read cfg.EEPROM_ADDR_GAIN_CTRL_START)

/-- `Configuration::LoadAgcGain`. -/
def LoadAgcGain (cfg : Cfg) (e : EEPROMClass) : Nat :=
  (e.read cfg.EEPROM_ADDR_AGC_GAIN_START).val

/-- `Configuration::LoadLogLevel`. -/
def LoadLogLevel (cfg : Cfg) (e : EEPROMClass) : Nat :=
  (e.read cfg.EEPROM_ADDR_LOG_LEVEL).val

/-- `Configuration::LoadPrusaConnectHostname`. -/
def LoadPrusaConnectHostname (cfg : Cfg) (e : EEPROMClass) : ArduinoString :=
  LoadString e cfg.EEPROM_ADDR_HOSTNAME_START cfg.EEPROM_ADDR_HOSTNAME_LENGTH

/-! ## First boot, factory defaults and fingerprint (`cfg.cpp` lines 31-245) -/

/-- `Configuration::CheckFirstMcuStart`: the macro is compared with the byte
after integer promotion. -/
def CheckFirstMcuStart (cfg : Cfg) (e : EEPROMClass) : Bool :=
  let flag := e.read cfg.EEPROM_ADDR_FIRST_MCU_START_FLAG_START
  if cfg.CFG_FIRST_MCU_START_NAK = flag.val then false else true

/-- `Configuration::SaveFirstMcuStartFlag`. -/
def SaveFirstMcuStartFlag (cfg : Cfg) (e : EEPROMClass) (i_data : Nat) : EEPROMClass :=
  SaveUint8 e cfg.EEPROM_ADDR_FIRST_MCU_START_FLAG_START i_data

/-- `Configuration::CheckActifeWifiCfgFlag`. -/
def CheckActifeWifiCfgFlag (cfg : Cfg) (e : EEPROMClass) : Bool :=
  let flag := e.read cfg.EEPROM_ADDR_WIFI_ACTIVE_FLAG_START
  if cfg.CFG_WIFI_SETTINGS_SAVED = flag.val then true else false

/-- The Arduino conversion `String(uint8_t)`: the decimal digits of the value. -/
def decimalString (b : Byte) : ArduinoString :=
  (Nat.toDigits 10 b.val).map (fun c => u8 c.toNat)

/-- The text `Id` that the loop of `GetFingerprint` builds: the decimal
renderings of the unique-ID bytes, appended without a separator. -/
def fingerprintId (hw : Platform) : ArduinoString :=
  hw.UniqueID.foldl (fun Id b => Id ++ decimalString b) []

/-- The text `Id + " " + WiFiMacAddress` that `GetFingerprint` encodes. -/
def fingerprintText (hw : Platform) : ArduinoString :=
  fingerprintId hw ++ [u8 32] ++ hw.WiFiMacAddress

/-- `Configuration::GetFingerprint`. -/
def GetFingerprint (cfg : Cfg) (hw : Platform) (e : EEPROMClass) : EEPROMClass :=
  let encoded := hw.base64_encode (fingerprintText hw)
  SaveFingerprint cfg e encoded

/-- `Configuration::DefaultCfg`. -/
def DefaultCfg (cfg : Cfg) (hw : Platform) (e : EEPROMClass) : EEPROMClass :=
  let e := SaveRefreshInterval cfg e cfg.FACTORY_CFG_PHOTO_REFRESH_INTERVAL
  let e := SaveToken cfg e []
  let e := GetFingerprint cfg hw e
  let e := SavePhotoQuality cfg e cfg.FACTORY_CFG_PHOTO_QUALITY
  let e := SaveFrameSize cfg e cfg.FACTORY_CFG_FRAME_SIZE
  let e := SaveBrightness cfg e cfg.FACTORY_CFG_BRIGHTNESS
  let e := SaveContrast cfg e cfg.FACTORY_CFG_CONTRAST
  let e := SaveSaturation cfg e cfg.FACTORY_CFG_SATURATION
  let e := SaveHmirror cfg e cfg.FACTORY_CFG_H_MIRROR
  let e := SaveVflip cfg e cfg.FACTORY_CFG_V_FLIP
  let e := SaveLensCorrect cfg e cfg.FACTORY_CFG_LENS_CORRECT
  let e := SaveExposureCtrl cfg e cfg.FACTORY_CFG_EXPOSURE_CTRL
  let e := SaveAwb cfg e cfg.FACTORY_CFG_AWB
  let e := SaveAwbGain cfg e cfg.FACTORY_CFG_AWB_GAIN
  let e := SaveAwbMode cfg e cfg.FACTORY_CFG_AWB_MODE
  let e := SaveBpc cfg e cfg.FACTORY_CFG_BPC
  let e := SaveWpc cfg e cfg.FACTORY_CFG_WPC
  let e := SaveRawGama cfg e cfg.FACTORY_CFG_RAW_GAMA
  let e := SaveWifiCfgFlag cfg e cfg.CFG_WIFI_SETTINGS_NOT_SAVED
  let e := SaveWifiPassword cfg e []
  let e := SaveWifiSsid cfg e []
  let e := SaveBasicAuthUsername cfg e cfg.FACTORY_CFG_WEB_AUTH_USERNAME
  let e := SaveBasicAuthPassword cfg e cfg.FACTORY_CFG_WEB_AUTH_PASSWORD
  let e := SaveBasicAuthFlag cfg e cfg.FACTORY_CFG_WEB_AUTH_ENABLE
  let e := SaveCameraFlashEnable cfg e cfg.FACTORY_CFG_CAMERA_FLASH_ENABLE
  let e := SaveCameraFlashTime cfg e cfg.FACTORY_CFG_CAMERA_FLASH_TIME
  let e := SaveMdnsRecord cfg e cfg.FACTORY_CFG_MDNS_RECORD_HOST
  let e := SaveAec2 cfg e cfg.FACTORY_CFG_AEC2
  let e := SaveAeLevel cfg e cfg.FACTORY_CFG_AE_LEVEL
  let e := SaveAecValue cfg e cfg.FACTORY_CFG_AEC_VALUE
  let e := SaveGainCtrl cfg e cfg.FACTORY_CFG_GAIN_CTRL
  let e := SaveAgcGain cfg e cfg.FACTORY_CFG_AGC_GAIN
  let e := SaveLogLevel cfg e cfg.LogLevel_Info
  SavePrusaConnectHostname cfg e cfg.FACTORY_CFG_HOSTNAME

/-- `Configuration::Init` (its effect on the store; the log level and the pin
mode it also sets are outside the store). -/
def Init (cfg : Cfg) (hw : Platform) (e : EEPROMClass) : EEPROMClass :=
  if CheckFirstMcuStart cfg e = true then
    let e := DefaultCfg cfg hw e
    SaveFirstMcuStartFlag cfg e cfg.CFG_FIRST_MCU_START_NAK
  else
    e

/-- The `write` calls that `Init` adds to the store's sequence of writes. -/
def InitWrites (cfg : Cfg) (hw : Platform) (e : EEPROMClass) : List (Nat × Byte) :=
  (Init cfg hw e).writes.drop e.writes.length

/-! ## The field layout -/

/-- A field region of the store: start address and number of bytes. -/
abbrev Region := Nat × Nat

/-- The address `a` lies in the region. -/
def Region.mem (a : Nat) (r : Region) : Prop := r.1 ≤ a ∧ a < r.1 + r.2

/-- Two regions share no address (one ends before the other starts). -/
def Region.disjoint (r s : Region) : Prop := r.1 + r.2 ≤ s.1 ∨ s.1 + s.2 ≤ r.1

instance (r s : Region) : Decidable (Region.disjoint r s) := by
  unfold Region.disjoint; infer_instance

/-- The regions that the calls of `DefaultCfg` store to, in call order: one
byte for a `bool`/`uint8_t`/`int8_t` field, two for a `uint16_t` field, the
`*_LENGTH` capacity for a string field. -/
def defaultRegions (cfg : Cfg) : List Region :=
  [ (cfg.EEPROM_ADDR_REFRESH_INTERVAL_START, 1),
    (cfg.EEPROM_ADDR_TOKEN_START, cfg.EEPROM_ADDR_TOKEN_LENGTH),
    (cfg.EEPROM_ADDR_FINGERPRINT_START, cfg.EEPROM_ADDR_FINGERPRINT_LENGTH),
    (cfg.EEPROM_ADDR_PHOTO_QUALITY_START, 1),
    (cfg.EEPROM_ADDR_FRAMESIZE_START, 1),
    (cfg.EEPROM_ADDR_BRIGHTNESS_START, 1),
    (cfg.EEPROM_ADDR_CONTRAST_START, 1),
    (cfg.EEPROM_ADDR_SATURATION_START, 1),
    (cfg.EEPROM_ADDR_HMIRROR_START, 1),
    (cfg.EEPROM_ADDR_VFLIP_START, 1),
    (cfg.EEPROM_ADDR_LENSC_START, 1),
    (cfg.EEPROM_ADDR_EXPOSURE_CTRL_START, 1),
    (cfg.EEPROM_ADDR_AWB_ENABLE_START, 1),
    (cfg.EEPROM_ADDR_AWB_GAIN_ENABLE_START, 1),
    (cfg.EEPROM_ADDR_AWB_MODE_ENABLE_START, 1),
    (cfg.EEPROM_ADDR_BPC_ENABLE_START, 1),
    (cfg.EEPROM_ADDR_WPC_ENABLE_START, 1),
    (cfg.EEPROM_ADDR_RAW_GAMA_ENABLE_START, 1),
    (cfg.EEPROM_ADDR_WIFI_ACTIVE_FLAG_START, 1),
    (cfg.EEPROM_ADDR_WIFI_PASSWORD_START, cfg.EEPROM_ADDR_WIFI_PASSWORD_LENGTH),
    (cfg.EEPROM_ADDR_WIFI_SSID_START, cfg.EEPROM_ADDR_WIFI_SSID_LENGTH),
    (cfg.EEPROM_ADDR_BASIC_AUTH_USERNAME_START, cfg.EEPROM_ADDR_BASIC_AUTH_USERNAME_LENGTH),
    (cfg.EEPROM_ADDR_BASIC_AUTH_PASSWORD_START, cfg.EEPROM_ADDR_BASIC_AUTH_PASSWORD_LENGTH),
    (cfg.EEPROM_ADDR_BASIC_AUTH_ENABLE_FLAG_START, 1),
    (cfg.EEPROM_ADDR_CAMERA_FLASH_ENABLE_START, 1),
    (cfg.EEPROM_ADDR_CAMERA_FLASH_TIME_START, 2),
    (cfg.EEPROM_ADDR_MDNS_RECORD_START, cfg.EEPROM_ADDR_MDNS_RECORD_LENGTH),
    (cfg.EEPROM_ADDR_AEC2_START, 1),
    (cfg.EEPROM_ADDR_AE_LEVEL_START, 1),
    (cfg.EEPROM_ADDR_AEC_VALUE_START, 2),
    (cfg.EEPROM_ADDR_GAIN_CTRL_START, 1),
    (cfg.EEPROM_ADDR_AGC_GAIN_START, 1),
    (cfg.EEPROM_ADDR_LOG_LEVEL, 1),
    (cfg.EEPROM_ADDR_HOSTNAME_START, cfg.EEPROM_ADDR_HOSTNAME_LENGTH) ]

/-- Every field region of the store: the first-boot sentinel and the regions
of `defaultRegions`. -/
def layoutRegions (cfg : Cfg) : List Region :=
  (cfg.EEPROM_ADDR_FIRST_MCU_START_FLAG_START, 1) :: defaultRegions cfg

/-- The layout invariant of the specification: field regions do not overlap,
and every region lies inside the `uint16_t` address range. -/
def Cfg.LayoutOk (cfg : Cfg) : Prop :=
  (layoutRegions cfg).Pairwise Region.disjoint ∧
  ∀ r ∈ layoutRegions cfg, r.1 + r.2 ≤ 65536

/-- The factory defaults are values that their fields can hold: unsigned
defaults fit their `uint8_t`/`uint16_t` parameter, signed defaults fit `int8_t`,
string defaults are shorter than their capacity, and the two WiFi flag values
are distinct bytes. -/
def Cfg.FactoryOk (cfg : Cfg) : Prop :=
  cfg.FACTORY_CFG_PHOTO_REFRESH_INTERVAL < 256 ∧
  cfg.FACTORY_CFG_PHOTO_QUALITY < 256 ∧
  cfg.FACTORY_CFG_FRAME_SIZE < 256 ∧
  (-128 ≤ cfg.FACTORY_CFG_BRIGHTNESS ∧ cfg.FACTORY_CFG_BRIGHTNESS ≤ 127) ∧
  (-128 ≤ cfg.FACTORY_CFG_CONTRAST ∧ cfg.FACTORY_CFG_CONTRAST ≤ 127) ∧
  (-128 ≤ cfg.FACTORY_CFG_SATURATION ∧ cfg.FACTORY_CFG_SATURATION ≤ 127) ∧
  cfg.FACTORY_CFG_AWB_MODE < 256 ∧
  cfg.FACTORY_CFG_CAMERA_FLASH_ENABLE < 256 ∧
  cfg.FACTORY_CFG_CAMERA_FLASH_TIME < 65536 ∧
  cfg.FACTORY_CFG_AEC_VALUE < 65536 ∧
  cfg.FACTORY_CFG_AGC_GAIN < 256 ∧
  cfg.LogLevel_Info < 256 ∧
  (-128 ≤ cfg.FACTORY_CFG_AE_LEVEL ∧ cfg.FACTORY_CFG_AE_LEVEL ≤ 127) ∧
  (cfg.CFG_WIFI_SETTINGS_NOT_SAVED < 256 ∧
    cfg.CFG_WIFI_SETTINGS_NOT_SAVED ≠ cfg.CFG_WIFI_SETTINGS_SAVED) ∧
  (cfg.FACTORY_CFG_WEB_AUTH_USERNAME.length < cfg.EEPROM_ADDR_BASIC_AUTH_USERNAME_LENGTH ∧
    cfg.FACTORY_CFG_WEB_AUTH_USERNAME.length ≤ 255) ∧
  (cfg.FACTORY_CFG_WEB_AUTH_PASSWORD.length < cfg.EEPROM_ADDR_BASIC_AUTH_PASSWORD_LENGTH ∧
    cfg.FACTORY_CFG_WEB_AUTH_PASSWORD.length ≤ 255) ∧
  (cfg.FACTORY_CFG_MDNS_RECORD_HOST.length < cfg.EEPROM_ADDR_MDNS_RECORD_LENGTH ∧
    cfg.FACTORY_CFG_MDNS_RECORD_HOST.length ≤ 255) ∧
  (cfg.FACTORY_CFG_HOSTNAME.length < cfg.EEPROM_ADDR_HOSTNAME_LENGTH ∧
    cfg.FACTORY_CFG_HOSTNAME.length ≤ 255)

instance (cfg : Cfg) : Decidable cfg.LayoutOk := by
  unfold Cfg.LayoutOk; infer_instance

instance (cfg : Cfg) : Decidable cfg.FactoryOk := by
  unfold Cfg.FactoryOk; infer_instance

/-- A store operation together with the region it stores to. -/
abbrev Step := Region × (EEPROMClass → EEPROMClass)

/-- Runs store operations one after the other. -/
def runSteps (steps : List Step) (e : EEPROMClass) : EEPROMClass :=
  steps.foldl (fun e s => s.2 e) e

/-- The calls of `DefaultCfg`, in order, each with the region of its field. -/
def defaultSteps (cfg : Cfg) (hw : Platform) : List Step :=
  [ ((cfg.EEPROM_ADDR_REFRESH_INTERVAL_START, 1), fun e => SaveRefreshInterval cfg e cfg.FACTORY_CFG_PHOTO_REFRESH_INTERVAL),
    ((cfg.EEPROM_ADDR_TOKEN_START, cfg.EEPROM_ADDR_TOKEN_LENGTH), fun e => SaveToken cfg e []),
    ((cfg.EEPROM_ADDR_FINGERPRINT_START, cfg.EEPROM_ADDR_FINGERPRINT_LENGTH), fun e => GetFingerprint cfg hw e),
    ((cfg.EEPROM_ADDR_PHOTO_QUALITY_START, 1), fun e => SavePhotoQuality cfg e cfg.FACTORY_CFG_PHOTO_QUALITY),
    ((cfg.EEPROM_ADDR_FRAMESIZE_START, 1), fun e => SaveFrameSize cfg e cfg.FACTORY_CFG_FRAME_SIZE),
    ((cfg.EEPROM_ADDR_BRIGHTNESS_START, 1), fun e => SaveBrightness cfg e cfg.FACTORY_CFG_BRIGHTNESS),
    ((cfg.EEPROM_ADDR_CONTRAST_START, 1), fun e => SaveContrast cfg e cfg.FACTORY_CFG_CONTRAST),
    ((cfg.EEPROM_ADDR_SATURATION_START, 1), fun e => SaveSaturation cfg e cfg.FACTORY_CFG_SATURATION),
    ((cfg.EEPROM_ADDR_HMIRROR_START, 1), fun e => SaveHmirror cfg e cfg.FACTORY_CFG_H_MIRROR),
    ((cfg.EEPROM_ADDR_VFLIP_START, 1), fun e => SaveVflip cfg e cfg.FACTORY_CFG_V_FLIP),
    ((cfg.EEPROM_ADDR_LENSC_START, 1), fun e => SaveLensCorrect cfg e cfg.FACTORY_CFG_LENS_CORRECT),
    ((cfg.EEPROM_ADDR_EXPOSURE_CTRL_START, 1), fun e => SaveExposureCtrl cfg e cfg.FACTORY_CFG_EXPOSURE_CTRL),
    ((cfg.EEPROM_ADDR_AWB_ENABLE_START, 1), fun e => SaveAwb cfg e cfg.FACTORY_CFG_AWB),
    ((cfg.EEPROM_ADDR_AWB_GAIN_ENABLE_START, 1), fun e => SaveAwbGain cfg e cfg.FACTORY_CFG_AWB_GAIN),
    ((cfg.EEPROM_ADDR_AWB_MODE_ENABLE_START, 1), fun e => SaveAwbMode cfg e cfg.FACTORY_CFG_AWB_MODE),
    ((cfg.EEPROM_ADDR_BPC_ENABLE_START, 1), fun e => SaveBpc cfg e cfg.FACTORY_CFG_BPC),
    ((cfg.EEPROM_ADDR_WPC_ENABLE_START, 1), fun e => SaveWpc cfg e cfg.FACTORY_CFG_WPC),
    ((cfg.EEPROM_ADDR_RAW_GAMA_ENABLE_START, 1), fun e => SaveRawGama cfg e cfg.FACTORY_CFG_RAW_GAMA),
    ((cfg.EEPROM_ADDR_WIFI_ACTIVE_FLAG_START, 1), fun e => SaveWifiCfgFlag cfg e cfg.CFG_WIFI_SETTINGS_NOT_SAVED),
    ((cfg.EEPROM_ADDR_WIFI_PASSWORD_START, cfg.EEPROM_ADDR_WIFI_PASSWORD_LENGTH), fun e => SaveWifiPassword cfg e []),
    ((cfg.EEPROM_ADDR_WIFI_SSID_START, cfg.EEPROM_ADDR_WIFI_SSID_LENGTH), fun e => SaveWifiSsid cfg e []),
    ((cfg.EEPROM_ADDR_BASIC_AUTH_USERNAME_START, cfg.EEPROM_ADDR_BASIC_AUTH_USERNAME_LENGTH), fun e => SaveBasicAuthUsername cfg e cfg.FACTORY_CFG_WEB_AUTH_USERNAME),
    ((cfg.EEPROM_ADDR_BASIC_AUTH_PASSWORD_START, cfg.EEPROM_ADDR_BASIC_AUTH_PASSWORD_LENGTH), fun e => SaveBasicAuthPassword cfg e cfg.FACTORY_CFG_WEB_AUTH_PASSWORD),
    ((cfg.EEPROM_ADDR_BASIC_AUTH_ENABLE_FLAG_START, 1), fun e => SaveBasicAuthFlag cfg e cfg.FACTORY_CFG_WEB_AUTH_ENABLE),
    ((cfg.EEPROM_ADDR_CAMERA_FLASH_ENABLE_START, 1), fun e => SaveCameraFlashEnable cfg e cfg.FACTORY_CFG_CAMERA_FLASH_ENABLE),
    ((cfg.EEPROM_ADDR_CAMERA_FLASH_TIME_START, 2), fun e => SaveCameraFlashTime cfg e cfg.FACTORY_CFG_CAMERA_FLASH_TIME),
    ((cfg.EEPROM_ADDR_MDNS_RECORD_START, cfg.EEPROM_ADDR_MDNS_RECORD_LENGTH), fun e => SaveMdnsRecord cfg e cfg.FACTORY_CFG_MDNS_RECORD_HOST),
    ((cfg.EEPROM_ADDR_AEC2_START, 1), fun e => SaveAec2 cfg e cfg.FACTORY_CFG_AEC2),
    ((cfg.EEPROM_ADDR_AE_LEVEL_START, 1), fun e => SaveAeLevel cfg e cfg.FACTORY_CFG_AE_LEVEL),
    ((cfg.EEPROM_ADDR_AEC_VALUE_START, 2), fun e => SaveAecValue cfg e cfg.FACTORY_CFG_AEC_VALUE),
    ((cfg.EEPROM_ADDR_GAIN_CTRL_START, 1), fun e => SaveGainCtrl cfg e cfg.FACTORY_CFG_GAIN_CTRL),
    ((cfg.EEPROM_ADDR_AGC_GAIN_START, 1), fun e => SaveAgcGain cfg e cfg.FACTORY_CFG_AGC_GAIN),
    ((cfg.EEPROM_ADDR_LOG_LEVEL, 1), fun e => SaveLogLevel cfg e cfg.LogLevel_Info),
    ((cfg.EEPROM_ADDR_HOSTNAME_START, cfg.EEPROM_ADDR_HOSTNAME_LENGTH), fun e => SavePrusaConnectHostname cfg e cfg.FACTORY_CFG_HOSTNAME) ]

/-- The store after a sequence of writes: the image is replayed and the writes
are appended to the write sequence. -/
def EEPROMClass.perform (e : EEPROMClass) (ws : List (Nat × Byte)) : EEPROMClass :=
  { data := EEPROMClass.replay e.data ws, writes := e.writes ++ ws }

/-- The operation performs one fixed sequence of writes, all of them at
addresses of the region. -/
def WritesWithin (op : EEPROMClass → EEPROMClass) (r : Region) : Prop :=
  ∃ ws : List (Nat × Byte), (∀ e, op e = e.perform ws) ∧ ∀ w ∈ ws, Region.mem w.1 r

/-! ## Factory reset by the reset input (`cfg.cpp` lines 189-225) -/

/-- The `for` loop of `CheckResetCfg`.  `pin k` is what the `k`-th call of
`digitalRead(CFG_RESET_PIN)` returns (`true` is `HIGH`), `k` counts the reads
made so far, `i` is the `uint8_t` loop counter, `status` is `ResetPinStatus`.
The result is the value of `i` when the loop is left and the number of reads
made; `none` when the fuel runs out before the loop is left. -/
def CheckResetCfg.poll (N : Nat) (pin : Nat → Bool) : Nat → Nat → Nat → Bool → Option (Nat × Nat)
  | 0, _, _, _ => none
  | fuel + 1, i, k, status =>
    if i < N then
      if status = true then some (i, k)
      else CheckResetCfg.poll N pin fuel ((u8 (i + 1)).val) (k + 1) (pin k)
    else some (i, k)

/-- The `while (digitalRead(CFG_RESET_PIN) == LOW)` loop of `CheckResetCfg`
(the LED blinking in its body is outside the store): the number of reads made
when the loop is left, `none` when the fuel runs out first. -/
def CheckResetCfg.waitRelease (pin : Nat → Bool) : Nat → Nat → Option Nat
  | 0, _ => none
  | fuel + 1, k =>
    if pin k = false then CheckResetCfg.waitRelease pin fuel (k + 1) else some (k + 1)

/-- `Configuration::CheckResetCfg`: the store it leaves and whether
`ESP.restart()` was called; `none` when the call has not returned within the
fuel.  The quotient `CFG_RESET_TIME_WAIT / CFG_RESET_LOOP_DELAY` is the C++
integer quotient of two header constants. -/
def CheckResetCfg (cfg : Cfg) (hw : Platform) (pin : Nat → Bool) (fuel : Nat)
    (e : EEPROMClass) : Option (EEPROMClass × Bool) :=
  match CheckResetCfg.poll (cfg.CFG_RESET_TIME_WAIT / cfg.CFG_RESET_LOOP_DELAY) pin fuel 0 1
      (pin 0) with
  | none => none
  | some (i, k) =>
    if i = cfg.CFG_RESET_TIME_WAIT / cfg.CFG_RESET_LOOP_DELAY then
      match CheckResetCfg.waitRelease pin fuel k with
      | none => none
      | some _ => some (DefaultCfg cfg hw e, true)
    else
      some (e, false)

/-! ## The camera (`camera.cpp`) -/

/-- The `framesize_t` values that `camera.cpp` uses. -/
inductive framesize_t where
  | FRAMESIZE_QVGA
  | FRAMESIZE_CIF
  | FRAMESIZE_VGA
  | FRAMESIZE_SVGA
  | FRAMESIZE_XGA
  | FRAMESIZE_SXGA
  | FRAMESIZE_UXGA
  deriving DecidableEq, Repr

/-- A frame descriptor `camera_fb_t` as the code uses it: the bytes of the
buffer, the logical length `len` and the dimensions.  Reading `buf[15]` of a
buffer with fewer than sixteen bytes is modelled as reading 0. -/
structure camera_fb_t where
  buf : List Byte
  len : Nat
  width : Nat
  height : Nat
  deriving DecidableEq, Repr

/-- The value `(uint8_t)FrameBuffer->buf[15]` that `CapturePhoto` reads into
its local `ControlFlag`. -/
def ControlFlag (f : camera_fb_t) : Byte := f.buf.getD 15 0

/-- The parameters that `ApplyCameraCfg` sets on the sensor. -/
inductive SensorParam where
  | brightness | contrast | saturation | special_effect | whitebal | awb_gain | wb_mode
  | exposure_ctrl | aec2 | ae_level | aec_value | gain_ctrl | agc_gain | gainceiling
  | bpc | wpc | raw_gma | lenc | hmirror | vflip | dcw | colorbar
  deriving DecidableEq, Repr

/-- What the camera code does to its external collaborators, in order of
occurrence: the frame-buffer semaphore, the flash PWM output, the frame pool of
the camera driver, the two error log lines of the capture paths, and the
driver and sensor calls of a reconfiguration. -/
inductive HwEvent where
  | semaphoreTake
  | semaphoreGive
  | flashOn
  | flashOff
  | fbGet (fb : Option camera_fb_t)
  | fbReturn (fb : Option camera_fb_t)
  | logNoBuffer
  | logCorrupt (flag : Byte)
  | cameraDeinit
  | cameraInit (frame_size : framesize_t) (jpeg_quality : Nat)
  | restart
  | sensorSet (p : SensorParam) (v : Int)
  deriving DecidableEq, Repr

/-- The members of `Camera` that the modelled functions use, followed by the
state of the external collaborators: whether the frame-buffer semaphore is
taken, whether the flash output is on, how many frames have been requested from
the driver, how many acquired buffers have not been returned, and the events
so far.  The floating-point average `StreamAverageFps` is left out. -/
structure Camera where
  StreamOnOff : Bool
  FrameBuffer : Option camera_fb_t
  CameraFlashEnable : Bool
  CameraFlashTime : Nat
  PhotoQuality : Nat
  FrameSize : Nat
  TFrameSize : framesize_t
  brightness : Int
  contrast : Int
  saturation : Int
  awb : Bool
  awb_gain : Bool
  wb_mode : Nat
  aec2 : Bool
  ae_level : Int
  aec_value : Nat
  gain_ctrl : Bool
  agc_gain : Nat
  bpc : Bool
  wpc : Bool
  raw_gama : Bool
  hmirror : Bool
  vflip : Bool
  lensc : Bool
  exposure_ctrl : Bool
  StreamAverageSize : Nat
  locked : Bool
  flash : Bool
  requested : Nat
  outstanding : Nat
  trace : List HwEvent
  deriving DecidableEq

/-- The frames the camera driver hands out: `hw k` is the result of the `k`-th
call of `esp_camera_fb_get()`, `none` being the null pointer. -/
abbrev FrameSupply := Nat → Option camera_fb_t

/-- Appends an event to the trace. -/
def Camera.emit (c : Camera) (ev : HwEvent) : Camera :=
  { c with trace := c.trace ++ [ev] }

/-- `xSemaphoreTake(frameBufferSemaphore, portMAX_DELAY)`: blocks for ever
(`none`) while the semaphore is taken, takes it otherwise. -/
def xSemaphoreTake (c : Camera) : Option Camera :=
  if c.locked = true then none else some ({ c with locked := true }.emit .semaphoreTake)

/-- `xSemaphoreGive(frameBufferSemaphore)`. -/
def xSemaphoreGive (c : Camera) : Camera :=
  { c with locked := false }.emit .semaphoreGive

/-- `ledcWrite(FLASH_PWM_CHANNEL, FLASH_ON_STATUS)` for `true`,
`ledcWrite(FLASH_PWM_CHANNEL, FLASH_OFF_STATUS)` for `false`. -/
def ledcWrite (c : Camera) (duty : Bool) : Camera :=
  { c with flash := duty }.emit (if duty then .flashOn else .flashOff)

/-- `esp_camera_fb_get()`: the next frame of the supply. -/
def esp_camera_fb_get (hw : FrameSupply) (c : Camera) : Camera × Option camera_fb_t :=
  let r := hw c.requested
  ({ c with requested := c.requested + 1
            outstanding := c.outstanding + (if r.isSome then 1 else 0) }.emit (.fbGet r), r)

/-- `esp_camera_fb_return(fb)`: gives a buffer back to the pool (a null pointer
is ignored by the driver). -/
def esp_camera_fb_return (c : Camera) (fb : Option camera_fb_t) : Camera :=
  { c with outstanding := c.outstanding - (if fb.isSome then 1 else 0) }.emit (.fbReturn fb)

/-- `Camera::TransformFrameSizeDataType`. -/
def TransformFrameSizeDataType (i_data : Nat) : framesize_t :=
  match i_data with
  | 0 => .FRAMESIZE_QVGA
  | 1 => .FRAMESIZE_CIF
  | 2 => .FRAMESIZE_VGA
  | 3 => .FRAMESIZE_SVGA
  | 4 => .FRAMESIZE_XGA
  | 5 => .FRAMESIZE_SXGA
  | 6 => .FRAMESIZE_UXGA
  | _ => .FRAMESIZE_QVGA

/-- `Camera::LoadCameraCfgFromEeprom`. -/
def LoadCameraCfgFromEeprom (cfg : Cfg) (e : EEPROMClass) (c : Camera) : Camera :=
  { c with
    PhotoQuality := LoadPhotoQuality cfg e
    FrameSize := LoadFrameSize cfg e
    TFrameSize := TransformFrameSizeDataType (LoadFrameSize cfg e)
    brightness := LoadBrightness cfg e
    contrast := LoadContrast cfg e
    saturation := LoadSaturation cfg e
    awb := LoadAwb cfg e
    awb_gain := LoadAwbGain cfg e
    wb_mode := LoadAwbMode cfg e
    aec2 := LoadAec2 cfg e
    ae_level := LoadAeLevel cfg e
    aec_value := LoadAecValue cfg e
    gain_ctrl := LoadGainCtrl cfg e
    agc_gain := LoadAgcGain cfg e
    bpc := LoadBpc cfg e
    wpc := LoadWpc cfg e
    raw_gama := LoadRawGama cfg e
    hmirror := LoadHmirror cfg e
    vflip := LoadVflip cfg e
    lensc := LoadLensCorrect cfg e
    exposure_ctrl := LoadExposureCtrl cfg e
    CameraFlashEnable := LoadCameraFlashEnable cfg e
    CameraFlashTime := LoadCameraFlashTime cfg e }

/-- The value a `bool` argument has as the `int` parameter of a sensor setter. -/
def boolInt (b : Bool) : Int := if b then 1 else 0

/-- The sensor calls of `Camera::ApplyCameraCfg`, in order. -/
def ApplyCameraCfg.calls (c : Camera) : List HwEvent :=
  [ .sensorSet .brightness c.brightness,
    .sensorSet .contrast c.contrast,
    .sensorSet .saturation c.saturation,
    .sensorSet .special_effect 0,
    .sensorSet .whitebal (boolInt c.awb),
    .sensorSet .awb_gain (boolInt c.awb_gain),
    .sensorSet .wb_mode c.wb_mode,
    .sensorSet .exposure_ctrl (boolInt c.exposure_ctrl),
    .sensorSet .aec2 (boolInt c.aec2),
    .sensorSet .ae_level c.ae_level,
    .sensorSet .aec_value c.aec_value,
    .sensorSet .gain_ctrl (boolInt c.gain_ctrl),
    .sensorSet .agc_gain c.agc_gain,
    .sensorSet .gainceiling 0,
    .sensorSet .bpc (boolInt c.bpc),
    .sensorSet .wpc (boolInt c.wpc),
    .sensorSet .raw_gma (boolInt c.raw_gama),
    .sensorSet .lenc (boolInt c.lensc),
    .sensorSet .hmirror (boolInt c.hmirror),
    .sensorSet .vflip (boolInt c.vflip),
    .sensorSet .dcw 1,
    .sensorSet .colorbar 0 ]

/-- `Camera::ApplyCameraCfg`. -/
def ApplyCameraCfg (c : Camera) : Camera :=
  { c with trace := c.trace ++ ApplyCameraCfg.calls c }

/-- `Camera::InitCameraModule`: the driver is initialised with the frame size
and JPEG quality of the working copy (the pin assignments are header constants);
`initOk` says whether `esp_camera_init` returned `ESP_OK`.  The second
component is `true` when the function returned, `false` when it called
`ESP.restart()`, which does not return. -/
def InitCameraModule (initOk : Bool) (c : Camera) : Camera × Bool :=
  let c := c.emit (.cameraInit c.TFrameSize c.PhotoQuality)
  if initOk then (c, true) else (c.emit .restart, false)

/-- `Camera::ReinitCameraModule`. -/
def ReinitCameraModule (initOk : Bool) (c : Camera) : Camera × Bool :=
  let c := c.emit .cameraDeinit
  match InitCameraModule initOk c with
  | (c, true) => (ApplyCameraCfg c, true)
  | (c, false) => (c, false)

/-- `Camera::SetPhotoQuality`: the store and the camera afterwards, and whether
the call returned (`false`: the device restarted). -/
def SetPhotoQuality (cfg : Cfg) (initOk : Bool) (e : EEPROMClass) (c : Camera) (i_data : Nat) :
    EEPROMClass × Camera × Bool :=
  let e := SavePhotoQuality cfg e i_data
  let c := { c with PhotoQuality := i_data }
  let r := ReinitCameraModule initOk c
  (e, r.1, r.2)

/-- The `do ... while` loop of `CapturePhoto`.  The Boolean is `true` when the
loop was left through its condition and `false` when the function returned from
inside the loop; `none` when the fuel runs out first. -/
def CapturePhoto.loop (hw : FrameSupply) : Nat → Camera → Option (Camera × Bool)
  | 0, _ => none
  | fuel + 1, c =>
    let (c, fb) := esp_camera_fb_get hw c
    let c := { c with FrameBuffer := fb }
    match fb with
    | none => some (c.emit .logNoBuffer, false)
    | some f =>
      let flag := ControlFlag f
      let f := if flag ≠ 0 then { f with len := 0 } else f
      let c := if flag ≠ 0 then c.emit (.logCorrupt flag) else c
      let c := { c with FrameBuffer := some f }
      let c := esp_camera_fb_return c c.FrameBuffer
      if ¬ (f.len > 100) then CapturePhoto.loop hw fuel c else some (c, true)

/-- `Camera::CapturePhoto` (the delays around the flash are not modelled);
`none` when the call does not return within the fuel. -/
def CapturePhoto (hw : FrameSupply) (fuel : Nat) (c : Camera) : Option Camera :=
  if c.StreamOnOff = false then
    match xSemaphoreTake c with
    | none => none
    | some c =>
      let c := if c.CameraFlashEnable = true then ledcWrite c true else c
      let (c, fb) := esp_camera_fb_get hw c
      let c := { c with FrameBuffer := fb }
      let c := esp_camera_fb_return c c.FrameBuffer
      match CapturePhoto.loop hw fuel c with
      | none => none
      | some (c, false) => some c
      | some (c, true) =>
        let c := if c.CameraFlashEnable = true then ledcWrite c false else c
        some (xSemaphoreGive c)
  else
    some c

/-- The `do ... while` loop of `CaptureStream`: the frame `*FrameBuffer` when
the loop was left through its condition, `none` in the second component when
the function returned from inside the loop. -/
def CaptureStream.loop (hw : FrameSupply) : Nat → Camera → Option (Camera × Option camera_fb_t)
  | 0, _ => none
  | fuel + 1, c =>
    let (c, fb) := esp_camera_fb_get hw c
    let c := { c with FrameBuffer := fb }
    match fb with
    | none => some (c.emit .logNoBuffer, none)
    | some f => if ¬ (f.len > 100) then CaptureStream.loop hw fuel c else some (c, some f)

/-- `Camera::CaptureStream`.  `i_buf` is the content of the caller's descriptor
before the call and the second component of the result is its content after
it: `*i_buf = *FrameBuffer` overwrites it, while `i_buf = NULL` only changes
the by-value pointer parameter and leaves the caller's descriptor as it was. -/
def CaptureStream (hw : FrameSupply) (fuel : Nat) (c : Camera) (i_buf : camera_fb_t) :
    Option (Camera × camera_fb_t) :=
  match xSemaphoreTake c with
  | none => none
  | some c =>
    match CaptureStream.loop hw fuel c with
    | none => none
    | some (c, none) => some (c, i_buf)
    | some (c, some f) => some (xSemaphoreGive c, f)

/-- `Camera::CaptureReturnFrameBuffer`. -/
def CaptureReturnFrameBuffer (c : Camera) : Camera :=
  esp_camera_fb_return c c.FrameBuffer

/-- `Camera::SetStreamStatus`. -/
def SetStreamStatus (c : Camera) (i_status : Bool) : Camera :=
  { c with StreamOnOff := i_status }

/-- `Camera::GetStreamStatus`. -/
def GetStreamStatus (c : Camera) : Bool := c.StreamOnOff

/-- `Camera::StreamSetFrameSize`: the sum is computed in `int` and the result
is stored in the `uint16_t` member. -/
def StreamSetFrameSize (c : Camera) (i_data : Nat) : Camera :=
  { c with StreamAverageSize := u16 ((c.StreamAverageSize + u16 i_data) / 2) }

/-- `Camera::StreamGetFrameAverageSize`. -/
def StreamGetFrameAverageSize (c : Camera) : Nat := c.StreamAverageSize

/-- `Camera::StreamClearFrameData`. -/
def StreamClearFrameData (c : Camera) : Camera :=
  { c with StreamAverageSize := 0 }

/-- The frame descriptor after the corruption check of the `CapturePhoto` loop:
`len` is zeroed when byte 15 is non-zero. -/
def CapturePhoto.checked (f : camera_fb_t) : camera_fb_t :=
  if ControlFlag f ≠ 0 then { f with len := 0 } else f

/-- The events of one pass of the `CapturePhoto` loop on a frame the driver
supplied: the request, the error line when byte 15 is non-zero, the return. -/
def CapturePhoto.passEvents (f : camera_fb_t) : List HwEvent :=
  [HwEvent.fbGet (some f)] ++
    (if ControlFlag f ≠ 0 then [HwEvent.logCorrupt (ControlFlag f)] else []) ++
    [HwEvent.fbReturn (some (CapturePhoto.checked f))]

/-- The camera after one pass of the `CapturePhoto` loop on a supplied frame. -/
def CapturePhoto.afterPass (c : Camera) (f : camera_fb_t) : Camera :=
  { c with
    FrameBuffer := some (CapturePhoto.checked f)
    requested := c.requested + 1
    trace := c.trace ++ CapturePhoto.passEvents f }

/-- The events a call added to the trace. -/
def newEvents (c c' : Camera) : List HwEvent := c'.trace.drop c.trace.length

/-! ## Frame size (`camera.cpp` lines 498-503 and 754-830) -/

/-- `Camera::SetFrameSize`: the store and the camera afterwards, and whether
the call returned (`false`: the device restarted). -/
def SetFrameSize (cfg : Cfg) (initOk : Bool) (e : EEPROMClass) (c : Camera) (i_data : Nat) :
    EEPROMClass × Camera × Bool :=
  let e := SaveFrameSize cfg e i_data
  let c := { c with FrameSize := i_data }
  let c := { c with TFrameSize := TransformFrameSizeDataType i_data }
  let r := ReinitCameraModule initOk c
  (e, r.1, r.2)

/-- `Camera::GetFrameSizeWidth`. -/
def GetFrameSizeWidth (c : Camera) : Nat :=
  match c.FrameSize with
  | 0 => 320
  | 1 => 352
  | 2 => 640
  | 3 => 800
  | 4 => 1024
  | 5 => 1280
  | 6 => 1600
  | _ => 320

/-- `Camera::GetFrameSizeHeight`. -/
def GetFrameSizeHeight (c : Camera) : Nat :=
  match c.FrameSize with
  | 0 => 240
  | 1 => 288
  | 2 => 480
  | 3 => 600
  | 4 => 768
  | 5 => 1024
  | 6 => 1200
  | _ => 240

/-- The resolution of each frame size as documented in the comment blocks of
`camera.cpp` (lines 79-87, 744-750 and 790-796): width and height. -/
def framesize_t.resolution : framesize_t → Nat × Nat
  | .FRAMESIZE_QVGA => (320, 240)
  | .FRAMESIZE_CIF => (352, 288)
  | .FRAMESIZE_VGA => (640, 480)
  | .FRAMESIZE_SVGA => (800, 600)
  | .FRAMESIZE_XGA => (1024, 768)
  | .FRAMESIZE_SXGA => (1280, 1024)
  | .FRAMESIZE_UXGA => (1600, 1200)

/-! ## Reading a decimal text back -/

/-- The number a text of decimal digits denotes (the inverse of
`decimalString` on bytes). -/
def decimalValue (s : ArduinoString) : Nat :=
  s.foldl (fun acc ch => 10 * acc + (ch.val - 48)) 0

/-! ## A sample configuration -/

/-- A header configuration with a gap-free layout, used to instantiate the
theorems below. -/
def sampleCfg : Cfg :=
  { CFG_FIRST_MCU_START_NAK := 0x0A
    CFG_WIFI_SETTINGS_SAVED := 0x0A
    CFG_WIFI_SETTINGS_NOT_SAVED := 0xFF
    CFG_RESET_TIME_WAIT := 10000
    CFG_RESET_LOOP_DELAY := 100
    LogLevel_Info := 2
    EEPROM_ADDR_FIRST_MCU_START_FLAG_START := 0
    EEPROM_ADDR_REFRESH_INTERVAL_START := 1
    EEPROM_ADDR_TOKEN_START := 2
    EEPROM_ADDR_TOKEN_LENGTH := 40
    EEPROM_ADDR_FINGERPRINT_START := 42
    EEPROM_ADDR_FINGERPRINT_LENGTH := 80
    EEPROM_ADDR_PHOTO_QUALITY_START := 122
    EEPROM_ADDR_FRAMESIZE_START := 123
    EEPROM_ADDR_BRIGHTNESS_START := 124
    EEPROM_ADDR_CONTRAST_START := 125
    EEPROM_ADDR_SATURATION_START := 126
    EEPROM_ADDR_HMIRROR_START := 127
    EEPROM_ADDR_VFLIP_START := 128
    EEPROM_ADDR_LENSC_START := 129
    EEPROM_ADDR_EXPOSURE_CTRL_START := 130
    EEPROM_ADDR_AWB_ENABLE_START := 131
    EEPROM_ADDR_AWB_GAIN_ENABLE_START := 132
    EEPROM_ADDR_AWB_MODE_ENABLE_START := 133
    EEPROM_ADDR_BPC_ENABLE_START := 134
    EEPROM_ADDR_WPC_ENABLE_START := 135
    EEPROM_ADDR_RAW_GAMA_ENABLE_START := 136
    EEPROM_ADDR_WIFI_ACTIVE_FLAG_START := 137
    EEPROM_ADDR_WIFI_SSID_START := 138
    EEPROM_ADDR_WIFI_SSID_LENGTH := 33
    EEPROM_ADDR_WIFI_PASSWORD_START := 171
    EEPROM_ADDR_WIFI_PASSWORD_LENGTH := 64
    EEPROM_ADDR_BASIC_AUTH_USERNAME_START := 235
    EEPROM_ADDR_BASIC_AUTH_USERNAME_LENGTH := 20
    EEPROM_ADDR_BASIC_AUTH_PASSWORD_START := 255
    EEPROM_ADDR_BASIC_AUTH_PASSWORD_LENGTH := 20
    EEPROM_ADDR_BASIC_AUTH_ENABLE_FLAG_START := 275
    EEPROM_ADDR_CAMERA_FLASH_ENABLE_START := 276
    EEPROM_ADDR_CAMERA_FLASH_TIME_START := 277
    EEPROM_ADDR_MDNS_RECORD_START := 279
    EEPROM_ADDR_MDNS_RECORD_LENGTH := 40
    EEPROM_ADDR_AEC2_START := 319
    EEPROM_ADDR_AE_LEVEL_START := 320
    EEPROM_ADDR_AEC_VALUE_START := 321
    EEPROM_ADDR_GAIN_CTRL_START := 323
    EEPROM_ADDR_AGC_GAIN_START := 324
    EEPROM_ADDR_LOG_LEVEL := 325
    EEPROM_ADDR_HOSTNAME_START := 326
    EEPROM_ADDR_HOSTNAME_LENGTH := 40
    FACTORY_CFG_PHOTO_REFRESH_INTERVAL := 30
    FACTORY_CFG_PHOTO_QUALITY := 10
    FACTORY_CFG_FRAME_SIZE := 0
    FACTORY_CFG_BRIGHTNESS := 0
    FACTORY_CFG_CONTRAST := 0
    FACTORY_CFG_SATURATION := 0
    FACTORY_CFG_H_MIRROR := false
    FACTORY_CFG_V_FLIP := false
    FACTORY_CFG_LENS_CORRECT := true
    FACTORY_CFG_EXPOSURE_CTRL := true
    FACTORY_CFG_AWB := true
    FACTORY_CFG_AWB_GAIN := true
    FACTORY_CFG_AWB_MODE := 0
    FACTORY_CFG_BPC := true
    FACTORY_CFG_WPC := true
    FACTORY_CFG_RAW_GAMA := true
    FACTORY_CFG_WEB_AUTH_USERNAME := [97, 100, 109, 105, 110]
    FACTORY_CFG_WEB_AUTH_PASSWORD := [97, 100, 109, 105, 110]
    FACTORY_CFG_WEB_AUTH_ENABLE := false
    FACTORY_CFG_CAMERA_FLASH_ENABLE := 0
    FACTORY_CFG_CAMERA_FLASH_TIME := 200
    FACTORY_CFG_MDNS_RECORD_HOST := [99, 97, 109]
    FACTORY_CFG_AEC2 := false
    FACTORY_CFG_AE_LEVEL := 0
    FACTORY_CFG_AEC_VALUE := 300
    FACTORY_CFG_GAIN_CTRL := true
    FACTORY_CFG_AGC_GAIN := 0
    FACTORY_CFG_HOSTNAME := [104, 111, 115, 116] }

/-- A platform with a four-byte unique ID, a short MAC text and the identity
in place of the base64 encoder. -/
def samplePlatform : Platform :=
  { UniqueID := [1, 23, 4, 200]
    WiFiMacAddress := [65, 66, 58, 67, 68]
    base64_encode := fun t => t }

/-- A store whose every byte is `0xFF` (erased flash) and that has seen no write. -/
def blankStore : EEPROMClass := ⟨fun _ => 255, []⟩

/-- A camera right after construction and `LoadCameraCfgFromEeprom` on a
store holding the sample defaults: streaming off, semaphore free, flash off,
no frame requested yet. -/
def sampleCamera : Camera :=
  { StreamOnOff := false
    FrameBuffer := none
    CameraFlashEnable := false
    CameraFlashTime := 200
    PhotoQuality := 10
    FrameSize := 0
    TFrameSize := .FRAMESIZE_QVGA
    brightness := 0
    contrast := 0
    saturation := 0
    awb := true
    awb_gain := true
    wb_mode := 0
    aec2 := false
    ae_level := 0
    aec_value := 300
    gain_ctrl := true
    agc_gain := 0
    bpc := true
    wpc := true
    raw_gama := true
    hmirror := false
    vflip := false
    lensc := true
    exposure_ctrl := true
    StreamAverageSize := 0
    locked := false
    flash := false
    requested := 0
    outstanding := 0
    trace := [] }

/-- A frame with a JPEG-like header (byte 15 is zero) and length 2000. -/
def goodFrame : camera_fb_t :=
  { buf := [0xFF, 0xD8, 0xFF, 0xE0, 0, 16, 74, 70, 73, 70, 0, 1, 1, 0, 0, 0, 0, 1]
    len := 2000, width := 320, height := 240 }

/-- A frame of length 2000 whose byte 15 is non-zero. -/
def corruptFrame : camera_fb_t :=
  { buf := [0xFF, 0xD8, 0xFF, 0xE0, 0, 16, 74, 70, 73, 70, 0, 1, 1, 0, 0, 0xFF, 0, 1]
    len := 2000, width := 320, height := 240 }

/-- A frame whose byte 15 is zero and whose length is only 50. -/
def shortFrame : camera_fb_t :=
  { buf := [0xFF, 0xD8, 0xFF, 0xE0, 0, 16, 74, 70, 73, 70, 0, 1, 1, 0, 0, 0, 0, 1]
    len := 50, width := 320, height := 240 }

/-- The frame supply that hands out the frames of a list and then no buffer. -/
def supplyOf (l : List camera_fb_t) : FrameSupply := fun k => l.get? k

/-- A frame of logical length 10 in a buffer whose byte 15 is `0xFF`. -/
def tinyFrame : camera_fb_t :=
  { buf := [0xFF, 0xD8, 0xFF, 0xE0, 0, 16, 74, 70, 73, 70, 0, 1, 1, 0, 0, 0xFF, 0, 1]
    len := 10, width := 320, height := 240 }

/-- A supply for a photo: a warm-up frame, a corrupt frame, a short frame, a
good frame, then no buffer. -/
def photoSupply : FrameSupply := supplyOf [goodFrame, corruptFrame, shortFrame, goodFrame]

/-- The camera after `CapturePhoto` on `photoSupply` from `sampleCamera`. -/
def photoTaken : Camera :=
  { sampleCamera with
    FrameBuffer := some goodFrame
    requested := 4
    trace := [.semaphoreTake, .fbGet (some goodFrame), .fbReturn (some goodFrame),
      .fbGet (some corruptFrame), .logCorrupt 255, .fbReturn (some { corruptFrame with len := 0 }),
      .fbGet (some shortFrame), .fbReturn (some shortFrame),
      .fbGet (some goodFrame), .fbReturn (some goodFrame), .semaphoreGive] }

/-! ## Basic facts about the store and the conversions -/

@[simp] theorem read_write_same (e : EEPROMClass) (a : Nat) (v : Byte) :
    (e.write a v).read a = v := by
  simp [EEPROMClass.read, EEPROMClass.write]

theorem read_write_other (e : EEPROMClass) (a b : Nat) (v : Byte) (h : b ≠ a) :
    (e.write a v).read b = e.read b := by
  simp [EEPROMClass.read, EEPROMClass.write, h]

@[simp] theorem commit_eq (e : EEPROMClass) : e.commit = e := rfl

theorem u8_val_of_lt (n : Nat) (h : n < 256) : (u8 n).val = n := by
  simp [u8, Nat.mod_eq_of_lt h]

theorem highByte_val (x : Nat) (hx : x < 65536) : (highByte (u16 x)).val = x / 256 := by
  have h : x >>> 8 = x / 256 := by
    rw [Nat.shiftRight_eq_div_pow]
  simp only [highByte, u16, u8, Nat.mod_eq_of_lt hx, h]
  omega

theorem lowByte_val (x : Nat) : (lowByte (u16 x)).val = x % 256 := by
  have h : ∀ y : Nat, y &&& 0xff = y % 256 := fun y => Nat.and_pow_two_sub_one_eq_mod y 8
  simp only [lowByte, u16, u8, h]
  omega

theorem combine_bytes (hi lo : Nat) (hhi : hi < 256) (hlo : lo < 256) :
    u16 (u16 (hi <<< 8) ||| lo) = 256 * hi + lo := by
  have h1 : hi <<< 8 = 256 * hi := by
    rw [Nat.shiftLeft_eq]; omega
  have h2 : u16 (256 * hi) = 256 * hi := by
    unfold u16; omega
  have h3 : 256 * hi ||| lo = 256 * hi + lo :=
    (Nat.mul_add_lt_is_or (i := 8) (by simpa using hlo) hi).symm
  rw [h1, h2, h3]
  unfold u16; omega

theorem u8_to_i8_i8_to_u8 (x : Int) (h1 : -128 ≤ x) (h2 : x ≤ 127) :
    u8_to_i8 (i8_to_u8 x) = x := by
  unfold u8_to_i8 i8_to_u8 u8
  simp only
  split <;> omega

/-- Bytes away from the cursor positions of the `SaveString` loop keep their value. -/
theorem SaveString_loop_read_other (cs : ArduinoString) :
    ∀ (e : EEPROMClass) (i a : Nat), i < 65536 →
      (∀ k, k < cs.length → (i + k) % 65536 ≠ a) →
      (SaveString.loop e i cs).read a = e.read a := by
  induction cs with
  | nil => intro e i a _ _; rfl
  | cons c cs ih =>
    intro e i a hi h
    simp only [SaveString.loop]
    rw [ih (e.write i c) (u16 (i + 1)) a (by unfold u16; omega)]
    · apply read_write_other
      have := h 0 (by simp)
      omega
    · intro k hk
      have := h (k + 1) (by simpa using hk)
      unfold u16
      omega

/-- The `LoadString` loop reads back what the `SaveString` loop wrote. -/
theorem LoadString_loop_SaveString_loop (cs : ArduinoString) :
    ∀ (e : EEPROMClass) (i : Nat), i < 65536 → cs.length ≤ 65536 →
      LoadString.loop (SaveString.loop e i cs) i cs.length = cs := by
  induction cs with
  | nil => intro e i _ _; rfl
  | cons c cs ih =>
    intro e i hi hlen
    simp only [List.length_cons] at hlen
    simp only [SaveString.loop, List.length_cons, LoadString.loop]
    rw [ih (e.write i c) (u16 (i + 1)) (by unfold u16; omega) (by omega)]
    congr 1
    rw [SaveString_loop_read_other cs _ _ i (by unfold u16; omega)]
    · simp
    · intro k hk
      unfold u16
      omega

/-- The length byte that an accepted `SaveString` leaves at the address. -/
theorem SaveString_read_length (e : EEPROMClass) (address max_length : Nat)
    (s : ArduinoString) (hlt : s.length < max_length) (h255 : s.length ≤ 255) :
    ((SaveString e address max_length s).read address).val = s.length := by
  have hi : u16 (address + 1) < 65536 := by unfold u16; omega
  simp only [SaveString, if_pos hlt, commit_eq]
  rw [SaveString_loop_read_other s _ _ address hi]
  · rw [read_write_same]
    exact u8_val_of_lt _ (by omega)
  · intro k hk
    unfold u16
    omega

/-- Loading after an accepted `SaveString` returns the saved string. -/
theorem LoadString_SaveString_of_lt (e : EEPROMClass) (address max_length : Nat)
    (s : ArduinoString) (hlt : s.length < max_length) (h255 : s.length ≤ 255) :
    LoadString (SaveString e address max_length s) address max_length = s := by
  have hi : u16 (address + 1) < 65536 := by unfold u16; omega
  have hlen := SaveString_read_length e address max_length s hlt h255
  unfold LoadString
  simp only [hlen]
  cases s with
  | nil => simp
  | cons c cs =>
    rw [if_pos ⟨by omega, by simp⟩]
    simp only [SaveString, if_pos hlt, commit_eq]
    exact LoadString_loop_SaveString_loop (c :: cs) _ _ hi (by omega)

/-- Loading after `SaveUint16` returns the saved 16-bit value, stored big-endian. -/
theorem LoadUint16_SaveUint16 (e : EEPROMClass) (a x : Nat) (hx : x < 65536) :
    ((SaveUint16 e a x).read a).val = x / 256 ∧
    ((SaveUint16 e a x).read (a + 1)).val = x % 256 ∧
    LoadUint16 (SaveUint16 e a x) a = x := by
  have hhi : ((SaveUint16 e a x).read a).val = x / 256 := by
    simp only [SaveUint16, commit_eq]
    rw [read_write_other _ _ _ _ (by omega), read_write_same]
    exact highByte_val x hx
  have hlo : ((SaveUint16 e a x).read (a + 1)).val = x % 256 := by
    simp only [SaveUint16, commit_eq, read_write_same]
    exact lowByte_val x
  refine ⟨hhi, hlo, ?_⟩
  unfold LoadUint16
  rw [combine_bytes _ _ (Fin.is_lt _) (Fin.is_lt _), hhi, hlo]
  omega

/-! ## Round trips and rejections of the primitive codecs -/

/-- C1: a string shorter than the capacity and of at most 255 characters, saved
with `SaveString` and loaded with `LoadString` at the same address and capacity,
comes back unchanged, whatever the store held before. -/
theorem SaveString_LoadString (e : EEPROMClass) (address max_length : Nat)
    (s : ArduinoString) (hlt : s.length < max_length) (h255 : s.length ≤ 255) :
    LoadString (SaveString e address max_length s) address max_length = s :=
  LoadString_SaveString_of_lt e address max_length s hlt h255

/-- C1 at a concrete store: the three-character string `abc` in a field of
capacity 4 that held other bytes. -/
theorem SaveString_LoadString_witness :
    (([97, 98, 99] : ArduinoString).length < 4 ∧ ([97, 98, 99] : ArduinoString).length ≤ 255) ∧
    LoadString (SaveString ⟨fun _ => 7, []⟩ 10 4 [97, 98, 99]) 10 4 = [97, 98, 99] :=
  ⟨by decide, SaveString_LoadString ⟨fun _ => 7, []⟩ 10 4 [97, 98, 99] (by decide) (by decide)⟩

/-- C2: a string whose length reaches the capacity is rejected by `SaveString`:
the store (image and write sequence) is left as it was, so `LoadString` returns
what it returned before the call. -/
theorem SaveString_reject (e : EEPROMClass) (address max_length : Nat)
    (s : ArduinoString) (hge : max_length ≤ s.length) :
    SaveString e address max_length s = e ∧
    (∀ a, (SaveString e address max_length s).read a = e.read a) ∧
    LoadString (SaveString e address max_length s) address max_length =
      LoadString e address max_length := by
  have h : SaveString e address max_length s = e := by
    unfold SaveString
    rw [if_neg (by omega)]
  rw [h]
  exact ⟨rfl, fun _ => rfl, rfl⟩

/-- C2 at a concrete store: a four-character string offered to a field of
capacity 4 that holds `hi`. -/
theorem SaveString_reject_witness :
    4 ≤ ([97, 98, 99, 100] : ArduinoString).length ∧
    LoadString (SaveString (SaveString ⟨fun _ => 0, []⟩ 10 4 [104, 105]) 10 4
      [97, 98, 99, 100]) 10 4 = LoadString (SaveString ⟨fun _ => 0, []⟩ 10 4 [104, 105]) 10 4 :=
  ⟨by decide,
   (SaveString_reject (SaveString ⟨fun _ => 0, []⟩ 10 4 [104, 105]) 10 4 [97, 98, 99, 100]
      (by decide)).2.2⟩

/-- C3: when the length byte stored at the address is 0 or exceeds the capacity,
`LoadString` returns the empty string. -/
theorem LoadString_bad_length (e : EEPROMClass) (address max_length : Nat)
    (h : (e.read address).val = 0 ∨ max_length < (e.read address).val) :
    LoadString e address max_length = [] := by
  unfold LoadString
  simp only
  rw [if_neg]
  omega

/-- C3 at a concrete store: every byte is 200 and the capacity is 32. -/
theorem LoadString_bad_length_witness :
    ((EEPROMClass.read ⟨fun _ => 200, []⟩ 5).val = 0 ∨
      32 < (EEPROMClass.read ⟨fun _ => 200, []⟩ 5).val) ∧
    LoadString ⟨fun _ => 200, []⟩ 5 32 = [] :=
  ⟨Or.inr (by decide), LoadString_bad_length ⟨fun _ => 200, []⟩ 5 32 (Or.inr (by decide))⟩

/-- C4: `SaveUint16` stores a 16-bit value big-endian (high byte at the address,
low byte at the next one), `LoadUint16` reads it back, and so does
`LoadCameraFlashTime` after `SaveCameraFlashTime`. -/
theorem SaveUint16_LoadUint16 (e : EEPROMClass) (a x : Nat) (hx : x < 65536) :
    ((SaveUint16 e a x).read a).val = x / 256 ∧
    ((SaveUint16 e a x).read (a + 1)).val = x % 256 ∧
    LoadUint16 (SaveUint16 e a x) a = x ∧
    ∀ cfg : Cfg, LoadCameraFlashTime cfg (SaveCameraFlashTime cfg e x) = x := by
  have h := LoadUint16_SaveUint16 e a x hx
  exact ⟨h.1, h.2.1, h.2.2, fun cfg => (LoadUint16_SaveUint16 e _ x hx).2.2⟩

/-- C4 at the largest 16-bit value. -/
theorem SaveUint16_LoadUint16_witness :
    65535 < 65536 ∧ LoadUint16 (SaveUint16 ⟨fun _ => 0, []⟩ 3 65535) 3 = 65535 :=
  ⟨by decide, (SaveUint16_LoadUint16 ⟨fun _ => 0, []⟩ 3 65535 (by decide)).2.2.1⟩

/-- C5: every `int8_t` value saved as brightness, contrast or saturation is
loaded back unchanged, negative values included. -/
theorem SaveInt8_fields_roundtrip (cfg : Cfg) (e : EEPROMClass) (x : Int)
    (hlo : -128 ≤ x) (hhi : x ≤ 127) :
    LoadBrightness cfg (SaveBrightness cfg e x) = x ∧
    LoadContrast cfg (SaveContrast cfg e x) = x ∧
    LoadSaturation cfg (SaveSaturation cfg e x) = x := by
  simp only [LoadBrightness, SaveBrightness, LoadContrast, SaveContrast, LoadSaturation,
    SaveSaturation, SaveInt8, commit_eq, read_write_same]
  exact ⟨u8_to_i8_i8_to_u8 x hlo hhi, u8_to_i8_i8_to_u8 x hlo hhi, u8_to_i8_i8_to_u8 x hlo hhi⟩

/-- C5 at the most negative value. -/
theorem SaveInt8_fields_roundtrip_witness :
    ((-128 : Int) ≤ -128 ∧ (-128 : Int) ≤ 127) ∧
    LoadBrightness sampleCfg (SaveBrightness sampleCfg blankStore (-128)) = -128 :=
  ⟨by decide, (SaveInt8_fields_roundtrip sampleCfg blankStore (-128) (by decide) (by decide)).1⟩

/-- C6 (what the code does): `SaveAeLevel` hands its `int8_t` level to `SaveBool`,
so the byte stored is 0 for level 0 and 1 for every other level; `LoadAeLevel`
then returns 1 for the levels -2, -1 and 2 instead of the level saved. -/
theorem SaveAeLevel_LoadAeLevel (cfg : Cfg) (e : EEPROMClass) (x : Int) :
    LoadAeLevel cfg (SaveAeLevel cfg e x) = (if x = 0 then 0 else 1) ∧
    LoadAeLevel cfg (SaveAeLevel cfg e 2) = 1 ∧
    LoadAeLevel cfg (SaveAeLevel cfg e (-2)) ≠ -2 := by
  have h : ∀ y : Int, LoadAeLevel cfg (SaveAeLevel cfg e y) = (if y = 0 then 0 else 1) := by
    intro y
    simp only [LoadAeLevel, SaveAeLevel, SaveBool, commit_eq, read_write_same, i8_to_bool,
      bool_to_u8]
    by_cases hy : y = 0
    · simp [hy, u8_to_i8]
    · simp [hy, u8_to_i8]
  refine ⟨h x, ?_, ?_⟩
  · rw [h]; decide
  · rw [h]; decide

/-! ## First boot -/

/-- C7: `CheckFirstMcuStart` is true exactly when the sentinel byte differs from
`CFG_FIRST_MCU_START_NAK`, and it is false on the store that `Init` leaves
behind, whatever the store held before (the sentinel value being a byte). -/
theorem CheckFirstMcuStart_after_Init (cfg : Cfg) (hw : Platform)
    (hnak : cfg.CFG_FIRST_MCU_START_NAK < 256) :
    (∀ e, CheckFirstMcuStart cfg e = true ↔
      (e.read cfg.EEPROM_ADDR_FIRST_MCU_START_FLAG_START).val ≠ cfg.CFG_FIRST_MCU_START_NAK) ∧
    ∀ e, CheckFirstMcuStart cfg (Init cfg hw e) = false := by
  constructor
  · intro e
    unfold CheckFirstMcuStart
    simp only
    split <;> simp_all [eq_comm]
  · intro e
    unfold Init
    split
    · simp only [SaveFirstMcuStartFlag, SaveUint8, commit_eq, CheckFirstMcuStart,
        read_write_same, u8_val_of_lt _ hnak, if_true]
    · simp_all

/-- C7 at the sample configuration, starting from an erased store. -/
theorem CheckFirstMcuStart_after_Init_witness :
    sampleCfg.CFG_FIRST_MCU_START_NAK < 256 ∧
    CheckFirstMcuStart sampleCfg (Init sampleCfg samplePlatform blankStore) = false :=
  ⟨by decide, (CheckFirstMcuStart_after_Init sampleCfg samplePlatform (by decide)).2 blankStore⟩

/-- C9: on a store whose sentinel already holds `CFG_FIRST_MCU_START_NAK`, `Init`
performs no write: the store (image and write sequence) after `Init` is the store
before it, and running `Init` again changes nothing either. -/
theorem Init_initialized_store (cfg : Cfg) (hw : Platform) (e : EEPROMClass)
    (h : (e.read cfg.EEPROM_ADDR_FIRST_MCU_START_FLAG_START).val = cfg.CFG_FIRST_MCU_START_NAK) :
    Init cfg hw e = e ∧ InitWrites cfg hw e = [] ∧
    (∀ a, (Init cfg hw e).read a = e.read a) ∧
    Init cfg hw (Init cfg hw e) = Init cfg hw e := by
  have hc : CheckFirstMcuStart cfg e = false := by
    simp [CheckFirstMcuStart, h]
  have hi : Init cfg hw e = e := by
    simp [Init, hc]
  refine ⟨hi, ?_, ?_, ?_⟩
  · simp [InitWrites, hi]
  · intro a; rw [hi]
  · rw [hi, hi]

/-- C9 at a store whose every byte is the sentinel value. -/
theorem Init_initialized_store_witness :
    (EEPROMClass.read ⟨fun _ => 10, []⟩
      sampleCfg.EEPROM_ADDR_FIRST_MCU_START_FLAG_START).val = sampleCfg.CFG_FIRST_MCU_START_NAK ∧
    InitWrites sampleCfg samplePlatform ⟨fun _ => 10, []⟩ = [] :=
  ⟨by decide, (Init_initialized_store sampleCfg samplePlatform ⟨fun _ => 10, []⟩ (by decide)).2.1⟩

/-! ## Operations as write sequences -/

theorem replay_append (ws₁ : List (Nat × Byte)) :
    ∀ (d : Nat → Byte) (ws₂ : List (Nat × Byte)),
      EEPROMClass.replay d (ws₁ ++ ws₂) = EEPROMClass.replay (EEPROMClass.replay d ws₁) ws₂ := by
  induction ws₁ with
  | nil => intro d ws₂; rfl
  | cons w ws ih =>
    intro d ws₂
    obtain ⟨a, v⟩ := w
    simp only [List.cons_append, EEPROMClass.replay]
    exact ih _ _

theorem replay_of_not_written (ws : List (Nat × Byte)) :
    ∀ (d : Nat → Byte) (a : Nat), (∀ w ∈ ws, w.1 ≠ a) → EEPROMClass.replay d ws a = d a := by
  induction ws with
  | nil => intro d a _; rfl
  | cons w ws ih =>
    intro d a h
    obtain ⟨b, v⟩ := w
    simp only [EEPROMClass.replay]
    rw [ih _ a (fun w hw => h w (List.mem_cons_of_mem _ hw))]
    have hb : b ≠ a := h (b, v) (List.mem_cons_self _ _)
    simp [Ne.symm hb]

@[simp] theorem perform_nil (e : EEPROMClass) : e.perform [] = e := by
  simp [EEPROMClass.perform, EEPROMClass.replay]

theorem perform_perform (e : EEPROMClass) (ws₁ ws₂ : List (Nat × Byte)) :
    (e.perform ws₁).perform ws₂ = e.perform (ws₁ ++ ws₂) := by
  simp [EEPROMClass.perform, replay_append]

theorem write_eq_perform (e : EEPROMClass) (a : Nat) (v : Byte) :
    e.write a v = e.perform [(a, v)] := rfl

theorem read_perform_of_not_written (e : EEPROMClass) (ws : List (Nat × Byte)) (a : Nat)
    (h : ∀ w ∈ ws, w.1 ≠ a) : (e.perform ws).read a = e.read a := by
  simp only [EEPROMClass.read, EEPROMClass.perform]
  exact replay_of_not_written ws _ a h

/-- The `SaveString` loop is a fixed write sequence at the cursor positions. -/
theorem SaveString_loop_eq_perform (cs : ArduinoString) :
    ∀ i : Nat, i < 65536 → ∃ ws : List (Nat × Byte),
      (∀ e, SaveString.loop e i cs = e.perform ws) ∧
      ∀ w ∈ ws, ∃ k, k < cs.length ∧ w.1 = (i + k) % 65536 := by
  induction cs with
  | nil =>
    intro i _
    exact ⟨[], fun e => by simp [SaveString.loop], by simp⟩
  | cons c cs ih =>
    intro i hi
    obtain ⟨ws, hws, hmem⟩ := ih (u16 (i + 1)) (by unfold u16; omega)
    refine ⟨(i, c) :: ws, ?_, ?_⟩
    · intro e
      simp only [SaveString.loop]
      rw [hws, write_eq_perform, perform_perform]
      rfl
    · intro w hw
      rcases List.mem_cons.mp hw with rfl | hw
      · exact ⟨0, by simp, by simp; omega⟩
      · obtain ⟨k, hk, hk'⟩ := hmem w hw
        refine ⟨k + 1, by simpa using hk, ?_⟩
        rw [hk']
        unfold u16
        omega

theorem WritesWithin_SaveUint8 (a x : Nat) : WritesWithin (fun e => SaveUint8 e a x) (a, 1) :=
  ⟨[(a, u8 x)], fun _ => rfl, by simp [Region.mem]⟩

theorem WritesWithin_SaveInt8 (a : Nat) (x : Int) :
    WritesWithin (fun e => SaveInt8 e a x) (a, 1) :=
  ⟨[(a, i8_to_u8 x)], fun _ => rfl, by simp [Region.mem]⟩

theorem WritesWithin_SaveBool (a : Nat) (x : Bool) :
    WritesWithin (fun e => SaveBool e a x) (a, 1) :=
  ⟨[(a, bool_to_u8 x)], fun _ => rfl, by simp [Region.mem]⟩

theorem WritesWithin_SaveUint16 (a x : Nat) : WritesWithin (fun e => SaveUint16 e a x) (a, 2) :=
  ⟨[(a, highByte (u16 x)), (a + 1, lowByte (u16 x))],
    fun e => by
      simp only [SaveUint16, commit_eq, write_eq_perform, perform_perform, List.singleton_append],
    by simp [Region.mem]⟩

theorem WritesWithin_SaveString (a m : Nat) (s : ArduinoString) (hb : a + m ≤ 65536) :
    WritesWithin (fun e => SaveString e a m s) (a, m) := by
  by_cases hlt : s.length < m
  · obtain ⟨ws, hws, hmem⟩ := SaveString_loop_eq_perform s (u16 (a + 1)) (by unfold u16; omega)
    refine ⟨(a, u8 s.length) :: ws, ?_, ?_⟩
    · intro e
      simp only [SaveString, if_pos hlt, commit_eq]
      rw [hws, write_eq_perform, perform_perform]
      rfl
    · intro w hw
      rcases List.mem_cons.mp hw with rfl | hw
      · simp only [Region.mem]; omega
      · obtain ⟨k, hk, hk'⟩ := hmem w hw
        simp only [Region.mem]
        rw [hk']
        unfold u16
        omega
  · exact ⟨[], fun e => by simp [SaveString, hlt], by simp⟩

/-- A run of operations that each write within their region is one write
sequence, each write of which lies in the region of one of the operations. -/
theorem runSteps_eq_perform (steps : List Step) :
    (∀ t ∈ steps, WritesWithin t.2 t.1) →
    ∃ ws : List (Nat × Byte), (∀ e, runSteps steps e = e.perform ws) ∧
      ∀ w ∈ ws, ∃ t ∈ steps, Region.mem w.1 t.1 := by
  induction steps with
  | nil =>
    intro _
    exact ⟨[], fun e => by simp [runSteps], by simp⟩
  | cons t steps ih =>
    intro h
    obtain ⟨ws, hws, hmem⟩ := ih (fun u hu => h u (List.mem_cons_of_mem _ hu))
    obtain ⟨w₀, hw₀, hmem₀⟩ := h t (List.mem_cons_self _ _)
    refine ⟨w₀ ++ ws, ?_, ?_⟩
    · intro e
      have := hws (t.2 e)
      simp only [runSteps, List.foldl_cons] at this ⊢
      rw [this, hw₀, perform_perform]
    · intro w hw
      rcases List.mem_append.mp hw with hw | hw
      · exact ⟨t, List.mem_cons_self _ _, hmem₀ w hw⟩
      · obtain ⟨u, hu, hu'⟩ := hmem w hw
        exact ⟨u, List.mem_cons_of_mem _ hu, hu'⟩

theorem not_mem_of_disjoint (r s : Region) (a : Nat) (hd : Region.disjoint r s)
    (ha : Region.mem a r) : ¬ Region.mem a s := by
  unfold Region.disjoint at hd
  unfold Region.mem at *
  omega

/-- A byte of the region of one step is not changed by the later steps of a run
whose regions are pairwise disjoint. -/
theorem read_after_steps (steps pre post : List Step) (s : Step)
    (hsplit : steps = pre ++ s :: post)
    (hall : ∀ t ∈ steps, WritesWithin t.2 t.1)
    (hpw : (steps.map Prod.fst).Pairwise Region.disjoint)
    (e : EEPROMClass) (a : Nat) (ha : Region.mem a s.1) :
    (runSteps steps e).read a = (s.2 (runSteps pre e)).read a := by
  subst hsplit
  have hrun : runSteps (pre ++ s :: post) e = runSteps post (s.2 (runSteps pre e)) := by
    simp [runSteps, List.foldl_append]
  obtain ⟨ws, hws, hmem⟩ := runSteps_eq_perform post
    (fun t ht => hall t (List.mem_append_right _ (List.mem_cons_of_mem _ ht)))
  rw [hrun, hws]
  apply read_perform_of_not_written
  intro w hw hwa
  obtain ⟨t, ht, hin⟩ := hmem w hw
  rw [List.map_append, List.map_cons, List.pairwise_append] at hpw
  have hst : Region.disjoint s.1 t.1 :=
    (List.pairwise_cons.mp hpw.2.1).1 t.1 (List.mem_map_of_mem _ ht)
  rw [hwa] at hin
  exact not_mem_of_disjoint _ _ a hst ha hin

/-! ## The factory-default run -/

theorem defaultSteps_regions (cfg : Cfg) (hw : Platform) :
    (defaultSteps cfg hw).map Prod.fst = defaultRegions cfg := rfl

theorem DefaultCfg_eq_runSteps (cfg : Cfg) (hw : Platform) (e : EEPROMClass) :
    DefaultCfg cfg hw e = runSteps (defaultSteps cfg hw) e := rfl

/-- Under the layout invariant every call of `DefaultCfg` writes within the
region of its field. -/
theorem defaultSteps_within (cfg : Cfg) (hw : Platform) (hlay : cfg.LayoutOk) :
    ∀ t ∈ defaultSteps cfg hw, WritesWithin t.2 t.1 := by
  have hb : ∀ r ∈ defaultRegions cfg, r.1 + r.2 ≤ 65536 :=
    fun r hr => hlay.2 r (List.mem_cons_of_mem _ hr)
  simp only [defaultSteps, List.forall_mem_cons, List.not_mem_nil, false_implies, implies_true,
    and_true]
  refine ⟨?_, ?_, ?_, ?_, ?_, ?_, ?_, ?_, ?_, ?_, ?_, ?_, ?_, ?_, ?_, ?_, ?_, ?_, ?_, ?_, ?_, ?_, ?_, ?_, ?_, ?_, ?_, ?_, ?_, ?_, ?_, ?_, ?_, ?_⟩
  all_goals first
    | exact WritesWithin_SaveUint8 _ _
    | exact WritesWithin_SaveInt8 _ _
    | exact WritesWithin_SaveBool _ _
    | exact WritesWithin_SaveUint16 _ _
    | exact WritesWithin_SaveString _ _ _ (hb (_, _) (by simp [defaultRegions]))

theorem defaultRegions_pairwise (cfg : Cfg) (hlay : cfg.LayoutOk) :
    (defaultRegions cfg).Pairwise Region.disjoint :=
  (List.pairwise_cons.mp hlay.1).2

/-- Under the layout invariant `DefaultCfg` is one write sequence that never
writes the first-boot sentinel. -/
theorem DefaultCfg_eq_perform (cfg : Cfg) (hw : Platform) (hlay : cfg.LayoutOk) :
    ∃ ws : List (Nat × Byte), (∀ e, DefaultCfg cfg hw e = e.perform ws) ∧
      ∀ w ∈ ws, w.1 ≠ cfg.EEPROM_ADDR_FIRST_MCU_START_FLAG_START := by
  obtain ⟨ws, hws, hmem⟩ := runSteps_eq_perform (defaultSteps cfg hw)
    (defaultSteps_within cfg hw hlay)
  refine ⟨ws, hws, ?_⟩
  intro w hwmem hEq
  obtain ⟨t, ht, hin⟩ := hmem w hwmem
  have ht' : t.1 ∈ defaultRegions cfg := by
    rw [← defaultSteps_regions cfg hw]
    exact List.mem_map_of_mem _ ht
  have hd : Region.disjoint (cfg.EEPROM_ADDR_FIRST_MCU_START_FLAG_START, 1) t.1 :=
    (List.pairwise_cons.mp hlay.1).1 t.1 ht'
  rw [hEq] at hin
  exact not_mem_of_disjoint _ _ _ hd (by simp [Region.mem]) hin

/-- C8: on first boot, under the layout invariant, the writes of `Init` are the
writes of `DefaultCfg` (factory defaults and fingerprint) followed by the write
of the sentinel, which is therefore the last one; the store after `Init` is the
result of these writes, and after any proper prefix of them
`CheckFirstMcuStart` still returns true. -/
theorem Init_sentinel_written_last (cfg : Cfg) (hw : Platform) (e : EEPROMClass)
    (hlay : cfg.LayoutOk) (hfirst : CheckFirstMcuStart cfg e = true) :
    InitWrites cfg hw e = (DefaultCfg cfg hw e).writes.drop e.writes.length ++
      [(cfg.EEPROM_ADDR_FIRST_MCU_START_FLAG_START, u8 cfg.CFG_FIRST_MCU_START_NAK)] ∧
    Init cfg hw e = e.perform (InitWrites cfg hw e) ∧
    ∀ p, p <+: InitWrites cfg hw e → p ≠ InitWrites cfg hw e →
      CheckFirstMcuStart cfg (e.perform p) = true := by
  obtain ⟨ws, hws, hmem⟩ := DefaultCfg_eq_perform cfg hw hlay
  have hinit : Init cfg hw e = e.perform (ws ++
      [(cfg.EEPROM_ADDR_FIRST_MCU_START_FLAG_START, u8 cfg.CFG_FIRST_MCU_START_NAK)]) := by
    simp only [Init, hfirst, if_true, SaveFirstMcuStartFlag, SaveUint8, commit_eq, hws,
      write_eq_perform, perform_perform]
  have hdrop : (DefaultCfg cfg hw e).writes.drop e.writes.length = ws := by
    rw [hws]
    exact List.drop_left _ _
  have hW : InitWrites cfg hw e = ws ++
      [(cfg.EEPROM_ADDR_FIRST_MCU_START_FLAG_START, u8 cfg.CFG_FIRST_MCU_START_NAK)] := by
    unfold InitWrites
    rw [hinit]
    exact List.drop_left _ _
  refine ⟨by rw [hW, hdrop], by rw [hW, hinit], ?_⟩
  intro p hp hne
  rw [hW] at hp hne
  have hpre : p <+: ws := by
    rcases List.prefix_concat_iff.mp (by simpa using hp) with h | h
    · exact absurd (by simpa using h) hne
    · exact h
  have hread : (e.perform p).read cfg.EEPROM_ADDR_FIRST_MCU_START_FLAG_START =
      e.read cfg.EEPROM_ADDR_FIRST_MCU_START_FLAG_START :=
    read_perform_of_not_written e p _ (fun w hw => hmem w (hpre.subset hw))
  unfold CheckFirstMcuStart at hfirst ⊢
  rw [hread]
  exact hfirst

/-- C8 at the sample configuration, starting from an erased store. -/
theorem Init_sentinel_written_last_witness :
    (sampleCfg.LayoutOk ∧ CheckFirstMcuStart sampleCfg blankStore = true) ∧
    ∀ p, p <+: InitWrites sampleCfg samplePlatform blankStore →
      p ≠ InitWrites sampleCfg samplePlatform blankStore →
      CheckFirstMcuStart sampleCfg (blankStore.perform p) = true :=
  ⟨⟨by decide, by decide⟩,
   (Init_sentinel_written_last sampleCfg samplePlatform blankStore (by decide) (by decide)).2.2⟩

/-! ## Reading the fields back after `DefaultCfg` -/

theorem u8_to_bool_bool_to_u8 (b : Bool) : u8_to_bool (bool_to_u8 b) = b := by
  cases b <;> rfl

theorem u8_to_bool_u8 (v : Nat) (h : v < 256) : u8_to_bool (u8 v) = decide (v ≠ 0) := by
  simp [u8_to_bool, u8, Nat.mod_eq_of_lt h]

theorem LoadUint16_congr (e₁ e₂ : EEPROMClass) (a : Nat) (h0 : e₁.read a = e₂.read a)
    (h1 : e₁.read (a + 1) = e₂.read (a + 1)) : LoadUint16 e₁ a = LoadUint16 e₂ a := by
  unfold LoadUint16
  rw [h0, h1]

theorem LoadString_loop_congr (e₁ e₂ : EEPROMClass) :
    ∀ (n i : Nat), i < 65536 →
      (∀ k, k < n → e₁.read ((i + k) % 65536) = e₂.read ((i + k) % 65536)) →
      LoadString.loop e₁ i n = LoadString.loop e₂ i n := by
  intro n
  induction n with
  | zero => intro i _ _; rfl
  | succ n ih =>
    intro i hi h
    simp only [LoadString.loop]
    have h0 := h 0 (by omega)
    simp only [Nat.add_zero, Nat.mod_eq_of_lt hi] at h0
    rw [h0, ih (u16 (i + 1)) (by unfold u16; omega)]
    intro k hk
    have := h (k + 1) (by omega)
    have e : (u16 (i + 1) + k) % 65536 = (i + (k + 1)) % 65536 := by unfold u16; omega
    rw [e]
    exact this

/-- `LoadString` only depends on the bytes of the field region when the stored
length is below the capacity. -/
theorem LoadString_congr (e₁ e₂ : EEPROMClass) (addr m : Nat) (hb : addr + m ≤ 65536)
    (hlen : (e₂.read addr).val < m)
    (h : ∀ a, Region.mem a (addr, m) → e₁.read a = e₂.read a) :
    LoadString e₁ addr m = LoadString e₂ addr m := by
  have h0 : e₁.read addr = e₂.read addr := h addr (by simp only [Region.mem]; omega)
  unfold LoadString
  simp only [h0]
  split
  · apply LoadString_loop_congr _ _ _ _ (by unfold u16; omega)
    intro k hk
    apply h
    simp only [Region.mem]
    unfold u16
    omega
  · rfl

/-- A store that agrees on the field region with the store right after a
`SaveString` of a fitting (or empty) string loads that string. -/
theorem LoadString_of_agree (e₁ e' : EEPROMClass) (addr m : Nat) (s : ArduinoString)
    (hb : addr + m ≤ 65536) (hfit : s.length < m ∨ s = []) (h255 : s.length ≤ 255)
    (h : ∀ a, Region.mem a (addr, m) → e₁.read a = (SaveString e' addr m s).read a) :
    LoadString e₁ addr m = s := by
  by_cases hlt : s.length < m
  · rw [LoadString_congr e₁ (SaveString e' addr m s) addr m hb
      (by rw [SaveString_read_length e' addr m s hlt h255]; exact hlt) h]
    exact LoadString_SaveString_of_lt e' addr m s hlt h255
  · have hs : s = [] := by
      rcases hfit with h' | h'
      · exact absurd h' hlt
      · exact h'
    subst hs
    have hm : m = 0 := by simpa using hlt
    subst hm
    unfold LoadString
    simp only
    rw [if_neg (by omega)]

/-- A byte of a field region after `DefaultCfg` is the byte that the call for
that field left there. -/
theorem DefaultCfg_read (cfg : Cfg) (hw : Platform) (e : EEPROMClass) (hlay : cfg.LayoutOk)
    (pre post : List Step) (s : Step) (hsplit : defaultSteps cfg hw = pre ++ s :: post)
    (a : Nat) (ha : Region.mem a s.1) :
    (DefaultCfg cfg hw e).read a = (s.2 (runSteps pre e)).read a :=
  read_after_steps (defaultSteps cfg hw) pre post s hsplit (defaultSteps_within cfg hw hlay)
    (by rw [defaultSteps_regions]; exact defaultRegions_pairwise cfg hlay) e a ha

theorem DefaultCfg_LoadRefreshInterval (cfg : Cfg) (hw : Platform) (e : EEPROMClass)
    (hlay : cfg.LayoutOk) (hf : cfg.FactoryOk) :
    LoadRefreshInterval cfg (DefaultCfg cfg hw e) = cfg.FACTORY_CFG_PHOTO_REFRESH_INTERVAL := by
  obtain ⟨hRI, hPQ, hFS, hBR, hCO, hSA, hAWBM, hCFE, hCFT, hAEC, hAGC, hLOG, hAE, hWIFI, hUSER, hPASS, hMDNS, hHOST⟩ := hf
  have hrd := DefaultCfg_read cfg hw e hlay ((defaultSteps cfg hw).take 0)
    ((defaultSteps cfg hw).drop 1)
    ((cfg.EEPROM_ADDR_REFRESH_INTERVAL_START, 1), fun e => SaveRefreshInterval cfg e cfg.FACTORY_CFG_PHOTO_REFRESH_INTERVAL) rfl
  have h := hrd cfg.EEPROM_ADDR_REFRESH_INTERVAL_START (by simp [Region.mem])
  unfold LoadRefreshInterval
  simp only [h, SaveRefreshInterval, SaveUint8, commit_eq, read_write_same]
  exact u8_val_of_lt _ hRI

theorem DefaultCfg_LoadToken (cfg : Cfg) (hw : Platform) (e : EEPROMClass)
    (hlay : cfg.LayoutOk) (hf : cfg.FactoryOk) :
    LoadToken cfg (DefaultCfg cfg hw e) = [] := by
  obtain ⟨hRI, hPQ, hFS, hBR, hCO, hSA, hAWBM, hCFE, hCFT, hAEC, hAGC, hLOG, hAE, hWIFI, hUSER, hPASS, hMDNS, hHOST⟩ := hf
  have hrd := DefaultCfg_read cfg hw e hlay ((defaultSteps cfg hw).take 1)
    ((defaultSteps cfg hw).drop 2)
    ((cfg.EEPROM_ADDR_TOKEN_START, cfg.EEPROM_ADDR_TOKEN_LENGTH), fun e => SaveToken cfg e []) rfl
  have hb : cfg.EEPROM_ADDR_TOKEN_START + cfg.EEPROM_ADDR_TOKEN_LENGTH ≤ 65536 :=
    hlay.2 (cfg.EEPROM_ADDR_TOKEN_START, cfg.EEPROM_ADDR_TOKEN_LENGTH) (by simp [layoutRegions, defaultRegions])
  unfold LoadToken
  exact LoadString_of_agree _ _ _ _ [] hb (Or.inr rfl) (by simp) hrd

theorem DefaultCfg_LoadPhotoQuality (cfg : Cfg) (hw : Platform) (e : EEPROMClass)
    (hlay : cfg.LayoutOk) (hf : cfg.FactoryOk) :
    LoadPhotoQuality cfg (DefaultCfg cfg hw e) = cfg.FACTORY_CFG_PHOTO_QUALITY := by
  obtain ⟨hRI, hPQ, hFS, hBR, hCO, hSA, hAWBM, hCFE, hCFT, hAEC, hAGC, hLOG, hAE, hWIFI, hUSER, hPASS, hMDNS, hHOST⟩ := hf
  have hrd := DefaultCfg_read cfg hw e hlay ((defaultSteps cfg hw).take 3)
    ((defaultSteps cfg hw).drop 4)
    ((cfg.EEPROM_ADDR_PHOTO_QUALITY_START, 1), fun e => SavePhotoQuality cfg e cfg.FACTORY_CFG_PHOTO_QUALITY) rfl
  have h := hrd cfg.EEPROM_ADDR_PHOTO_QUALITY_START (by simp [Region.mem])
  unfold LoadPhotoQuality
  simp only [h, SavePhotoQuality, SaveUint8, commit_eq, read_write_same]
  exact u8_val_of_lt _ hPQ

theorem DefaultCfg_LoadFrameSize (cfg : Cfg) (hw : Platform) (e : EEPROMClass)
    (hlay : cfg.LayoutOk) (hf : cfg.FactoryOk) :
    LoadFrameSize cfg (DefaultCfg cfg hw e) = cfg.FACTORY_CFG_FRAME_SIZE := by
  obtain ⟨hRI, hPQ, hFS, hBR, hCO, hSA, hAWBM, hCFE, hCFT, hAEC, hAGC, hLOG, hAE, hWIFI, hUSER, hPASS, hMDNS, hHOST⟩ := hf
  have hrd := DefaultCfg_read cfg hw e hlay ((defaultSteps cfg hw).take 4)
    ((defaultSteps cfg hw).drop 5)
    ((cfg.EEPROM_ADDR_FRAMESIZE_START, 1), fun e => SaveFrameSize cfg e cfg.FACTORY_CFG_FRAME_SIZE) rfl
  have h := hrd cfg.EEPROM_ADDR_FRAMESIZE_START (by simp [Region.mem])
  unfold LoadFrameSize
  simp only [h, SaveFrameSize, SaveUint8, commit_eq, read_write_same]
  exact u8_val_of_lt _ hFS

theorem DefaultCfg_LoadBrightness (cfg : Cfg) (hw : Platform) (e : EEPROMClass)
    (hlay : cfg.LayoutOk) (hf : cfg.FactoryOk) :
    LoadBrightness cfg (DefaultCfg cfg hw e) = cfg.FACTORY_CFG_BRIGHTNESS := by
  obtain ⟨hRI, hPQ, hFS, hBR, hCO, hSA, hAWBM, hCFE, hCFT, hAEC, hAGC, hLOG, hAE, hWIFI, hUSER, hPASS, hMDNS, hHOST⟩ := hf
  have hrd := DefaultCfg_read cfg hw e hlay ((defaultSteps cfg hw).take 5)
    ((defaultSteps cfg hw).drop 6)
    ((cfg.EEPROM_ADDR_BRIGHTNESS_START, 1), fun e => SaveBrightness cfg e cfg.FACTORY_CFG_BRIGHTNESS) rfl
  have h := hrd cfg.EEPROM_ADDR_BRIGHTNESS_START (by simp [Region.mem])
  unfold LoadBrightness
  simp only [h, SaveBrightness, SaveInt8, commit_eq, read_write_same]
  exact u8_to_i8_i8_to_u8 _ hBR.1 hBR.2

theorem DefaultCfg_LoadContrast (cfg : Cfg) (hw : Platform) (e : EEPROMClass)
    (hlay : cfg.LayoutOk) (hf : cfg.FactoryOk) :
    LoadContrast cfg (DefaultCfg cfg hw e) = cfg.FACTORY_CFG_CONTRAST := by
  obtain ⟨hRI, hPQ, hFS, hBR, hCO, hSA, hAWBM, hCFE, hCFT, hAEC, hAGC, hLOG, hAE, hWIFI, hUSER, hPASS, hMDNS, hHOST⟩ := hf
  have hrd := DefaultCfg_read cfg hw e hlay ((defaultSteps cfg hw).take 6)
    ((defaultSteps cfg hw).drop 7)
    ((cfg.EEPROM_ADDR_CONTRAST_START, 1), fun e => SaveContrast cfg e cfg.FACTORY_CFG_CONTRAST) rfl
  have h := hrd cfg.EEPROM_ADDR_CONTRAST_START (by simp [Region.mem])
  unfold LoadContrast
  simp only [h, SaveContrast, SaveInt8, commit_eq, read_write_same]
  exact u8_to_i8_i8_to_u8 _ hCO.1 hCO.2

theorem DefaultCfg_LoadSaturation (cfg : Cfg) (hw : Platform) (e : EEPROMClass)
    (hlay : cfg.LayoutOk) (hf : cfg.FactoryOk) :
    LoadSaturation cfg (DefaultCfg cfg hw e) = cfg.FACTORY_CFG_SATURATION := by
  obtain ⟨hRI, hPQ, hFS, hBR, hCO, hSA, hAWBM, hCFE, hCFT, hAEC, hAGC, hLOG, hAE, hWIFI, hUSER, hPASS, hMDNS, hHOST⟩ := hf
  have hrd := DefaultCfg_read cfg hw e hlay ((defaultSteps cfg hw).take 7)
    ((defaultSteps cfg hw).drop 8)
    ((cfg.EEPROM_ADDR_SATURATION_START, 1), fun e => SaveSaturation cfg e cfg.FACTORY_CFG_SATURATION) rfl
  have h := hrd cfg.EEPROM_ADDR_SATURATION_START (by simp [Region.mem])
  unfold LoadSaturation
  simp only [h, SaveSaturation, SaveInt8, commit_eq, read_write_same]
  exact u8_to_i8_i8_to_u8 _ hSA.1 hSA.2

theorem DefaultCfg_LoadHmirror (cfg : Cfg) (hw : Platform) (e : EEPROMClass)
    (hlay : cfg.LayoutOk) (hf : cfg.FactoryOk) :
    LoadHmirror cfg (DefaultCfg cfg hw e) = cfg.FACTORY_CFG_H_MIRROR := by
  obtain ⟨hRI, hPQ, hFS, hBR, hCO, hSA, hAWBM, hCFE, hCFT, hAEC, hAGC, hLOG, hAE, hWIFI, hUSER, hPASS, hMDNS, hHOST⟩ := hf
  have hrd := DefaultCfg_read cfg hw e hlay ((defaultSteps cfg hw).take 8)
    ((defaultSteps cfg hw).drop 9)
    ((cfg.EEPROM_ADDR_HMIRROR_START, 1), fun e => SaveHmirror cfg e cfg.FACTORY_CFG_H_MIRROR) rfl
  have h := hrd cfg.EEPROM_ADDR_HMIRROR_START (by simp [Region.mem])
  unfold LoadHmirror
  simp only [h, SaveHmirror, SaveBool, commit_eq, read_write_same]
  exact u8_to_bool_bool_to_u8 _

theorem DefaultCfg_LoadVflip (cfg : Cfg) (hw : Platform) (e : EEPROMClass)
    (hlay : cfg.LayoutOk) (hf : cfg.FactoryOk) :
    LoadVflip cfg (DefaultCfg cfg hw e) = cfg.FACTORY_CFG_V_FLIP := by
  obtain ⟨hRI, hPQ, hFS, hBR, hCO, hSA, hAWBM, hCFE, hCFT, hAEC, hAGC, hLOG, hAE, hWIFI, hUSER, hPASS, hMDNS, hHOST⟩ := hf
  have hrd := DefaultCfg_read cfg hw e hlay ((defaultSteps cfg hw).take 9)
    ((defaultSteps cfg hw).drop 10)
    ((cfg.EEPROM_ADDR_VFLIP_START, 1), fun e => SaveVflip cfg e cfg.FACTORY_CFG_V_FLIP) rfl
  have h := hrd cfg.EEPROM_ADDR_VFLIP_START (by simp [Region.mem])
  unfold LoadVflip
  simp only [h, SaveVflip, SaveBool, commit_eq, read_write_same]
  exact u8_to_bool_bool_to_u8 _

theorem DefaultCfg_LoadLensCorrect (cfg : Cfg) (hw : Platform) (e : EEPROMClass)
    (hlay : cfg.LayoutOk) (hf : cfg.FactoryOk) :
    LoadLensCorrect cfg (DefaultCfg cfg hw e) = cfg.FACTORY_CFG_LENS_CORRECT := by
  obtain ⟨hRI, hPQ, hFS, hBR, hCO, hSA, hAWBM, hCFE, hCFT, hAEC, hAGC, hLOG, hAE, hWIFI, hUSER, hPASS, hMDNS, hHOST⟩ := hf
  have hrd := DefaultCfg_read cfg hw e hlay ((defaultSteps cfg hw).take 10)
    ((defaultSteps cfg hw).drop 11)
    ((cfg.EEPROM_ADDR_LENSC_START, 1), fun e => SaveLensCorrect cfg e cfg.FACTORY_CFG_LENS_CORRECT) rfl
  have h := hrd cfg.EEPROM_ADDR_LENSC_START (by simp [Region.mem])
  unfold LoadLensCorrect
  simp only [h, SaveLensCorrect, SaveBool, commit_eq, read_write_same]
  exact u8_to_bool_bool_to_u8 _

theorem DefaultCfg_LoadExposureCtrl (cfg : Cfg) (hw : Platform) (e : EEPROMClass)
    (hlay : cfg.LayoutOk) (hf : cfg.FactoryOk) :
    LoadExposureCtrl cfg (DefaultCfg cfg hw e) = cfg.FACTORY_CFG_EXPOSURE_CTRL := by
  obtain ⟨hRI, hPQ, hFS, hBR, hCO, hSA, hAWBM, hCFE, hCFT, hAEC, hAGC, hLOG, hAE, hWIFI, hUSER, hPASS, hMDNS, hHOST⟩ := hf
  have hrd := DefaultCfg_read cfg hw e hlay ((defaultSteps cfg hw).take 11)
    ((defaultSteps cfg hw).drop 12)
    ((cfg.EEPROM_ADDR_EXPOSURE_CTRL_START, 1), fun e => SaveExposureCtrl cfg e cfg.FACTORY_CFG_EXPOSURE_CTRL) rfl
  have h := hrd cfg.EEPROM_ADDR_EXPOSURE_CTRL_START (by simp [Region.mem])
  unfold LoadExposureCtrl
  simp only [h, SaveExposureCtrl, SaveBool, commit_eq, read_write_same]
  exact u8_to_bool_bool_to_u8 _

theorem DefaultCfg_LoadAwb (cfg : Cfg) (hw : Platform) (e : EEPROMClass)
    (hlay : cfg.LayoutOk) (hf : cfg.FactoryOk) :
    LoadAwb cfg (DefaultCfg cfg hw e) = cfg.FACTORY_CFG_AWB := by
  obtain ⟨hRI, hPQ, hFS, hBR, hCO, hSA, hAWBM, hCFE, hCFT, hAEC, hAGC, hLOG, hAE, hWIFI, hUSER, hPASS, hMDNS, hHOST⟩ := hf
  have hrd := DefaultCfg_read cfg hw e hlay ((defaultSteps cfg hw).take 12)
    ((defaultSteps cfg hw).drop 13)
    ((cfg.EEPROM_ADDR_AWB_ENABLE_START, 1), fun e => SaveAwb cfg e cfg.FACTORY_CFG_AWB) rfl
  have h := hrd cfg.EEPROM_ADDR_AWB_ENABLE_START (by simp [Region.mem])
  unfold LoadAwb
  simp only [h, SaveAwb, SaveBool, commit_eq, read_write_same]
  exact u8_to_bool_bool_to_u8 _

theorem DefaultCfg_LoadAwbGain (cfg : Cfg) (hw : Platform) (e : EEPROMClass)
    (hlay : cfg.LayoutOk) (hf : cfg.FactoryOk) :
    LoadAwbGain cfg (DefaultCfg cfg hw e) = cfg.FACTORY_CFG_AWB_GAIN := by
  obtain ⟨hRI, hPQ, hFS, hBR, hCO, hSA, hAWBM, hCFE, hCFT, hAEC, hAGC, hLOG, hAE, hWIFI, hUSER, hPASS, hMDNS, hHOST⟩ := hf
  have hrd := DefaultCfg_read cfg hw e hlay ((defaultSteps cfg hw).take 13)
    ((defaultSteps cfg hw).drop 14)
    ((cfg.EEPROM_ADDR_AWB_GAIN_ENABLE_START, 1), fun e => SaveAwbGain cfg e cfg.FACTORY_CFG_AWB_GAIN) rfl
  have h := hrd cfg.EEPROM_ADDR_AWB_GAIN_ENABLE_START (by simp [Region.mem])
  unfold LoadAwbGain
  simp only [h, SaveAwbGain, SaveBool, commit_eq, read_write_same]
  exact u8_to_bool_bool_to_u8 _

theorem DefaultCfg_LoadAwbMode (cfg : Cfg) (hw : Platform) (e : EEPROMClass)
    (hlay : cfg.LayoutOk) (hf : cfg.FactoryOk) :
    LoadAwbMode cfg (DefaultCfg cfg hw e) = cfg.FACTORY_CFG_AWB_MODE := by
  obtain ⟨hRI, hPQ, hFS, hBR, hCO, hSA, hAWBM, hCFE, hCFT, hAEC, hAGC, hLOG, hAE, hWIFI, hUSER, hPASS, hMDNS, hHOST⟩ := hf
  have hrd := DefaultCfg_read cfg hw e hlay ((defaultSteps cfg hw).take 14)
    ((defaultSteps cfg hw).drop 15)
    ((cfg.EEPROM_ADDR_AWB_MODE_ENABLE_START, 1), fun e => SaveAwbMode cfg e cfg.FACTORY_CFG_AWB_MODE) rfl
  have h := hrd cfg.EEPROM_ADDR_AWB_MODE_ENABLE_START (by simp [Region.mem])
  unfold LoadAwbMode
  simp only [h, SaveAwbMode, SaveUint8, commit_eq, read_write_same]
  exact u8_val_of_lt _ hAWBM

theorem DefaultCfg_LoadBpc (cfg : Cfg) (hw : Platform) (e : EEPROMClass)
    (hlay : cfg.LayoutOk) (hf : cfg.FactoryOk) :
    LoadBpc cfg (DefaultCfg cfg hw e) = cfg.FACTORY_CFG_BPC := by
  obtain ⟨hRI, hPQ, hFS, hBR, hCO, hSA, hAWBM, hCFE, hCFT, hAEC, hAGC, hLOG, hAE, hWIFI, hUSER, hPASS, hMDNS, hHOST⟩ := hf
  have hrd := DefaultCfg_read cfg hw e hlay ((defaultSteps cfg hw).take 15)
    ((defaultSteps cfg hw).drop 16)
    ((cfg.EEPROM_ADDR_BPC_ENABLE_START, 1), fun e => SaveBpc cfg e cfg.FACTORY_CFG_BPC) rfl
  have h := hrd cfg.EEPROM_ADDR_BPC_ENABLE_START (by simp [Region.mem])
  unfold LoadBpc
  simp only [h, SaveBpc, SaveBool, commit_eq, read_write_same]
  exact u8_to_bool_bool_to_u8 _

theorem DefaultCfg_LoadWpc (cfg : Cfg) (hw : Platform) (e : EEPROMClass)
    (hlay : cfg.LayoutOk) (hf : cfg.FactoryOk) :
    LoadWpc cfg (DefaultCfg cfg hw e) = cfg.FACTORY_CFG_WPC := by
  obtain ⟨hRI, hPQ, hFS, hBR, hCO, hSA, hAWBM, hCFE, hCFT, hAEC, hAGC, hLOG, hAE, hWIFI, hUSER, hPASS, hMDNS, hHOST⟩ := hf
  have hrd := DefaultCfg_read cfg hw e hlay ((defaultSteps cfg hw).take 16)
    ((defaultSteps cfg hw).drop 17)
    ((cfg.EEPROM_ADDR_WPC_ENABLE_START, 1), fun e => SaveWpc cfg e cfg.FACTORY_CFG_WPC) rfl
  have h := hrd cfg.EEPROM_ADDR_WPC_ENABLE_START (by simp [Region.mem])
  unfold LoadWpc
  simp only [h, SaveWpc, SaveBool, commit_eq, read_write_same]
  exact u8_to_bool_bool_to_u8 _

theorem DefaultCfg_LoadRawGama (cfg : Cfg) (hw : Platform) (e : EEPROMClass)
    (hlay : cfg.LayoutOk) (hf : cfg.FactoryOk) :
    LoadRawGama cfg (DefaultCfg cfg hw e) = cfg.FACTORY_CFG_RAW_GAMA := by
  obtain ⟨hRI, hPQ, hFS, hBR, hCO, hSA, hAWBM, hCFE, hCFT, hAEC, hAGC, hLOG, hAE, hWIFI, hUSER, hPASS, hMDNS, hHOST⟩ := hf
  have hrd := DefaultCfg_read cfg hw e hlay ((defaultSteps cfg hw).take 17)
    ((defaultSteps cfg hw).drop 18)
    ((cfg.EEPROM_ADDR_RAW_GAMA_ENABLE_START, 1), fun e => SaveRawGama cfg e cfg.FACTORY_CFG_RAW_GAMA) rfl
  have h := hrd cfg.EEPROM_ADDR_RAW_GAMA_ENABLE_START (by simp [Region.mem])
  unfold LoadRawGama
  simp only [h, SaveRawGama, SaveBool, commit_eq, read_write_same]
  exact u8_to_bool_bool_to_u8 _

theorem DefaultCfg_CheckActifeWifiCfgFlag (cfg : Cfg) (hw : Platform) (e : EEPROMClass)
    (hlay : cfg.LayoutOk) (hf : cfg.FactoryOk) :
    CheckActifeWifiCfgFlag cfg (DefaultCfg cfg hw e) = false := by
  obtain ⟨hRI, hPQ, hFS, hBR, hCO, hSA, hAWBM, hCFE, hCFT, hAEC, hAGC, hLOG, hAE, hWIFI, hUSER, hPASS, hMDNS, hHOST⟩ := hf
  have hrd := DefaultCfg_read cfg hw e hlay ((defaultSteps cfg hw).take 18)
    ((defaultSteps cfg hw).drop 19)
    ((cfg.EEPROM_ADDR_WIFI_ACTIVE_FLAG_START, 1), fun e => SaveWifiCfgFlag cfg e cfg.CFG_WIFI_SETTINGS_NOT_SAVED) rfl
  have h := hrd cfg.EEPROM_ADDR_WIFI_ACTIVE_FLAG_START (by simp [Region.mem])
  unfold CheckActifeWifiCfgFlag
  simp only [h, SaveWifiCfgFlag, SaveUint8, commit_eq, read_write_same, u8_val_of_lt _ hWIFI.1]
  rw [if_neg (Ne.symm hWIFI.2)]

theorem DefaultCfg_LoadWifiPassowrd (cfg : Cfg) (hw : Platform) (e : EEPROMClass)
    (hlay : cfg.LayoutOk) (hf : cfg.FactoryOk) :
    LoadWifiPassowrd cfg (DefaultCfg cfg hw e) = [] := by
  obtain ⟨hRI, hPQ, hFS, hBR, hCO, hSA, hAWBM, hCFE, hCFT, hAEC, hAGC, hLOG, hAE, hWIFI, hUSER, hPASS, hMDNS, hHOST⟩ := hf
  have hrd := DefaultCfg_read cfg hw e hlay ((defaultSteps cfg hw).take 19)
    ((defaultSteps cfg hw).drop 20)
    ((cfg.EEPROM_ADDR_WIFI_PASSWORD_START, cfg.EEPROM_ADDR_WIFI_PASSWORD_LENGTH), fun e => SaveWifiPassword cfg e []) rfl
  have hb : cfg.EEPROM_ADDR_WIFI_PASSWORD_START + cfg.EEPROM_ADDR_WIFI_PASSWORD_LENGTH ≤ 65536 :=
    hlay.2 (cfg.EEPROM_ADDR_WIFI_PASSWORD_START, cfg.EEPROM_ADDR_WIFI_PASSWORD_LENGTH) (by simp [layoutRegions, defaultRegions])
  unfold LoadWifiPassowrd
  exact LoadString_of_agree _ _ _ _ [] hb (Or.inr rfl) (by simp) hrd

theorem DefaultCfg_LoadWifiSsid (cfg : Cfg) (hw : Platform) (e : EEPROMClass)
    (hlay : cfg.LayoutOk) (hf : cfg.FactoryOk) :
    LoadWifiSsid cfg (DefaultCfg cfg hw e) = [] := by
  obtain ⟨hRI, hPQ, hFS, hBR, hCO, hSA, hAWBM, hCFE, hCFT, hAEC, hAGC, hLOG, hAE, hWIFI, hUSER, hPASS, hMDNS, hHOST⟩ := hf
  have hrd := DefaultCfg_read cfg hw e hlay ((defaultSteps cfg hw).take 20)
    ((defaultSteps cfg hw).drop 21)
    ((cfg.EEPROM_ADDR_WIFI_SSID_START, cfg.EEPROM_ADDR_WIFI_SSID_LENGTH), fun e => SaveWifiSsid cfg e []) rfl
  have hb : cfg.EEPROM_ADDR_WIFI_SSID_START + cfg.EEPROM_ADDR_WIFI_SSID_LENGTH ≤ 65536 :=
    hlay.2 (cfg.EEPROM_ADDR_WIFI_SSID_START, cfg.EEPROM_ADDR_WIFI_SSID_LENGTH) (by simp [layoutRegions, defaultRegions])
  unfold LoadWifiSsid
  exact LoadString_of_agree _ _ _ _ [] hb (Or.inr rfl) (by simp) hrd

theorem DefaultCfg_LoadBasicAuthUsername (cfg : Cfg) (hw : Platform) (e : EEPROMClass)
    (hlay : cfg.LayoutOk) (hf : cfg.FactoryOk) :
    LoadBasicAuthUsername cfg (DefaultCfg cfg hw e) = cfg.FACTORY_CFG_WEB_AUTH_USERNAME := by
  obtain ⟨hRI, hPQ, hFS, hBR, hCO, hSA, hAWBM, hCFE, hCFT, hAEC, hAGC, hLOG, hAE, hWIFI, hUSER, hPASS, hMDNS, hHOST⟩ := hf
  have hrd := DefaultCfg_read cfg hw e hlay ((defaultSteps cfg hw).take 21)
    ((defaultSteps cfg hw).drop 22)
    ((cfg.EEPROM_ADDR_BASIC_AUTH_USERNAME_START, cfg.EEPROM_ADDR_BASIC_AUTH_USERNAME_LENGTH), fun e => SaveBasicAuthUsername cfg e cfg.FACTORY_CFG_WEB_AUTH_USERNAME) rfl
  have hb : cfg.EEPROM_ADDR_BASIC_AUTH_USERNAME_START + cfg.EEPROM_ADDR_BASIC_AUTH_USERNAME_LENGTH ≤ 65536 :=
    hlay.2 (cfg.EEPROM_ADDR_BASIC_AUTH_USERNAME_START, cfg.EEPROM_ADDR_BASIC_AUTH_USERNAME_LENGTH) (by simp [layoutRegions, defaultRegions])
  unfold LoadBasicAuthUsername
  exact LoadString_of_agree _ _ _ _ _ hb (Or.inl hUSER.1) hUSER.2 hrd

theorem DefaultCfg_LoadBasicAuthPassword (cfg : Cfg) (hw : Platform) (e : EEPROMClass)
    (hlay : cfg.LayoutOk) (hf : cfg.FactoryOk) :
    LoadBasicAuthPassword cfg (DefaultCfg cfg hw e) = cfg.FACTORY_CFG_WEB_AUTH_PASSWORD := by
  obtain ⟨hRI, hPQ, hFS, hBR, hCO, hSA, hAWBM, hCFE, hCFT, hAEC, hAGC, hLOG, hAE, hWIFI, hUSER, hPASS, hMDNS, hHOST⟩ := hf
  have hrd := DefaultCfg_read cfg hw e hlay ((defaultSteps cfg hw).take 22)
    ((defaultSteps cfg hw).drop 23)
    ((cfg.EEPROM_ADDR_BASIC_AUTH_PASSWORD_START, cfg.EEPROM_ADDR_BASIC_AUTH_PASSWORD_LENGTH), fun e => SaveBasicAuthPassword cfg e cfg.FACTORY_CFG_WEB_AUTH_PASSWORD) rfl
  have hb : cfg.EEPROM_ADDR_BASIC_AUTH_PASSWORD_START + cfg.EEPROM_ADDR_BASIC_AUTH_PASSWORD_LENGTH ≤ 65536 :=
    hlay.2 (cfg.EEPROM_ADDR_BASIC_AUTH_PASSWORD_START, cfg.EEPROM_ADDR_BASIC_AUTH_PASSWORD_LENGTH) (by simp [layoutRegions, defaultRegions])
  unfold LoadBasicAuthPassword
  exact LoadString_of_agree _ _ _ _ _ hb (Or.inl hPASS.1) hPASS.2 hrd

theorem DefaultCfg_LoadBasicAuthFlag (cfg : Cfg) (hw : Platform) (e : EEPROMClass)
    (hlay : cfg.LayoutOk) (hf : cfg.FactoryOk) :
    LoadBasicAuthFlag cfg (DefaultCfg cfg hw e) = cfg.FACTORY_CFG_WEB_AUTH_ENABLE := by
  obtain ⟨hRI, hPQ, hFS, hBR, hCO, hSA, hAWBM, hCFE, hCFT, hAEC, hAGC, hLOG, hAE, hWIFI, hUSER, hPASS, hMDNS, hHOST⟩ := hf
  have hrd := DefaultCfg_read cfg hw e hlay ((defaultSteps cfg hw).take 23)
    ((defaultSteps cfg hw).drop 24)
    ((cfg.EEPROM_ADDR_BASIC_AUTH_ENABLE_FLAG_START, 1), fun e => SaveBasicAuthFlag cfg e cfg.FACTORY_CFG_WEB_AUTH_ENABLE) rfl
  have h := hrd cfg.EEPROM_ADDR_BASIC_AUTH_ENABLE_FLAG_START (by simp [Region.mem])
  unfold LoadBasicAuthFlag
  simp only [h, SaveBasicAuthFlag, SaveBool, commit_eq, read_write_same]
  exact u8_to_bool_bool_to_u8 _

theorem DefaultCfg_LoadCameraFlashEnable (cfg : Cfg) (hw : Platform) (e : EEPROMClass)
    (hlay : cfg.LayoutOk) (hf : cfg.FactoryOk) :
    LoadCameraFlashEnable cfg (DefaultCfg cfg hw e) = decide (cfg.FACTORY_CFG_CAMERA_FLASH_ENABLE ≠ 0) := by
  obtain ⟨hRI, hPQ, hFS, hBR, hCO, hSA, hAWBM, hCFE, hCFT, hAEC, hAGC, hLOG, hAE, hWIFI, hUSER, hPASS, hMDNS, hHOST⟩ := hf
  have hrd := DefaultCfg_read cfg hw e hlay ((defaultSteps cfg hw).take 24)
    ((defaultSteps cfg hw).drop 25)
    ((cfg.EEPROM_ADDR_CAMERA_FLASH_ENABLE_START, 1), fun e => SaveCameraFlashEnable cfg e cfg.FACTORY_CFG_CAMERA_FLASH_ENABLE) rfl
  have h := hrd cfg.EEPROM_ADDR_CAMERA_FLASH_ENABLE_START (by simp [Region.mem])
  unfold LoadCameraFlashEnable
  simp only [h, SaveCameraFlashEnable, SaveUint8, commit_eq, read_write_same]
  exact u8_to_bool_u8 _ hCFE

theorem DefaultCfg_LoadCameraFlashTime (cfg : Cfg) (hw : Platform) (e : EEPROMClass)
    (hlay : cfg.LayoutOk) (hf : cfg.FactoryOk) :
    LoadCameraFlashTime cfg (DefaultCfg cfg hw e) = cfg.FACTORY_CFG_CAMERA_FLASH_TIME := by
  obtain ⟨hRI, hPQ, hFS, hBR, hCO, hSA, hAWBM, hCFE, hCFT, hAEC, hAGC, hLOG, hAE, hWIFI, hUSER, hPASS, hMDNS, hHOST⟩ := hf
  have hrd := DefaultCfg_read cfg hw e hlay ((defaultSteps cfg hw).take 25)
    ((defaultSteps cfg hw).drop 26)
    ((cfg.EEPROM_ADDR_CAMERA_FLASH_TIME_START, 2), fun e => SaveCameraFlashTime cfg e cfg.FACTORY_CFG_CAMERA_FLASH_TIME) rfl
  have h0 := hrd cfg.EEPROM_ADDR_CAMERA_FLASH_TIME_START (by simp [Region.mem])
  have h1 := hrd (cfg.EEPROM_ADDR_CAMERA_FLASH_TIME_START + 1) (by simp [Region.mem])
  unfold LoadCameraFlashTime
  rw [LoadUint16_congr _ _ _ h0 h1]
  exact (LoadUint16_SaveUint16 _ _ _ hCFT).2.2

theorem DefaultCfg_LoadMdnsRecord (cfg : Cfg) (hw : Platform) (e : EEPROMClass)
    (hlay : cfg.LayoutOk) (hf : cfg.FactoryOk) :
    LoadMdnsRecord cfg (DefaultCfg cfg hw e) = cfg.FACTORY_CFG_MDNS_RECORD_HOST := by
  obtain ⟨hRI, hPQ, hFS, hBR, hCO, hSA, hAWBM, hCFE, hCFT, hAEC, hAGC, hLOG, hAE, hWIFI, hUSER, hPASS, hMDNS, hHOST⟩ := hf
  have hrd := DefaultCfg_read cfg hw e hlay ((defaultSteps cfg hw).take 26)
    ((defaultSteps cfg hw).drop 27)
    ((cfg.EEPROM_ADDR_MDNS_RECORD_START, cfg.EEPROM_ADDR_MDNS_RECORD_LENGTH), fun e => SaveMdnsRecord cfg e cfg.FACTORY_CFG_MDNS_RECORD_HOST) rfl
  have hb : cfg.EEPROM_ADDR_MDNS_RECORD_START + cfg.EEPROM_ADDR_MDNS_RECORD_LENGTH ≤ 65536 :=
    hlay.2 (cfg.EEPROM_ADDR_MDNS_RECORD_START, cfg.EEPROM_ADDR_MDNS_RECORD_LENGTH) (by simp [layoutRegions, defaultRegions])
  unfold LoadMdnsRecord
  exact LoadString_of_agree _ _ _ _ _ hb (Or.inl hMDNS.1) hMDNS.2 hrd

theorem DefaultCfg_LoadAec2 (cfg : Cfg) (hw : Platform) (e : EEPROMClass)
    (hlay : cfg.LayoutOk) (hf : cfg.FactoryOk) :
    LoadAec2 cfg (DefaultCfg cfg hw e) = cfg.FACTORY_CFG_AEC2 := by
  obtain ⟨hRI, hPQ, hFS, hBR, hCO, hSA, hAWBM, hCFE, hCFT, hAEC, hAGC, hLOG, hAE, hWIFI, hUSER, hPASS, hMDNS, hHOST⟩ := hf
  have hrd := DefaultCfg_read cfg hw e hlay ((defaultSteps cfg hw).take 27)
    ((defaultSteps cfg hw).drop 28)
    ((cfg.EEPROM_ADDR_AEC2_START, 1), fun e => SaveAec2 cfg e cfg.FACTORY_CFG_AEC2) rfl
  have h := hrd cfg.EEPROM_ADDR_AEC2_START (by simp [Region.mem])
  unfold LoadAec2
  simp only [h, SaveAec2, SaveBool, commit_eq, read_write_same]
  exact u8_to_bool_bool_to_u8 _

theorem DefaultCfg_LoadAeLevel (cfg : Cfg) (hw : Platform) (e : EEPROMClass)
    (hlay : cfg.LayoutOk) (hf : cfg.FactoryOk) :
    LoadAeLevel cfg (DefaultCfg cfg hw e) = (if cfg.FACTORY_CFG_AE_LEVEL = 0 then 0 else 1) := by
  obtain ⟨hRI, hPQ, hFS, hBR, hCO, hSA, hAWBM, hCFE, hCFT, hAEC, hAGC, hLOG, hAE, hWIFI, hUSER, hPASS, hMDNS, hHOST⟩ := hf
  have hrd := DefaultCfg_read cfg hw e hlay ((defaultSteps cfg hw).take 28)
    ((defaultSteps cfg hw).drop 29)
    ((cfg.EEPROM_ADDR_AE_LEVEL_START, 1), fun e => SaveAeLevel cfg e cfg.FACTORY_CFG_AE_LEVEL) rfl
  have h := hrd cfg.EEPROM_ADDR_AE_LEVEL_START (by simp [Region.mem])
  unfold LoadAeLevel
  simp only [h, SaveAeLevel, SaveBool, commit_eq, read_write_same, i8_to_bool, bool_to_u8]
  by_cases hz : cfg.FACTORY_CFG_AE_LEVEL = 0
  · simp [hz, u8_to_i8]
  · simp [hz, u8_to_i8]

theorem DefaultCfg_LoadAecValue (cfg : Cfg) (hw : Platform) (e : EEPROMClass)
    (hlay : cfg.LayoutOk) (hf : cfg.FactoryOk) :
    LoadAecValue cfg (DefaultCfg cfg hw e) = cfg.FACTORY_CFG_AEC_VALUE := by
  obtain ⟨hRI, hPQ, hFS, hBR, hCO, hSA, hAWBM, hCFE, hCFT, hAEC, hAGC, hLOG, hAE, hWIFI, hUSER, hPASS, hMDNS, hHOST⟩ := hf
  have hrd := DefaultCfg_read cfg hw e hlay ((defaultSteps cfg hw).take 29)
    ((defaultSteps cfg hw).drop 30)
    ((cfg.EEPROM_ADDR_AEC_VALUE_START, 2), fun e => SaveAecValue cfg e cfg.FACTORY_CFG_AEC_VALUE) rfl
  have h0 := hrd cfg.EEPROM_ADDR_AEC_VALUE_START (by simp [Region.mem])
  have h1 := hrd (cfg.EEPROM_ADDR_AEC_VALUE_START + 1) (by simp [Region.mem])
  unfold LoadAecValue
  rw [LoadUint16_congr _ _ _ h0 h1]
  exact (LoadUint16_SaveUint16 _ _ _ hAEC).2.2

theorem DefaultCfg_LoadGainCtrl (cfg : Cfg) (hw : Platform) (e : EEPROMClass)
    (hlay : cfg.LayoutOk) (hf : cfg.FactoryOk) :
    LoadGainCtrl cfg (DefaultCfg cfg hw e) = cfg.FACTORY_CFG_GAIN_CTRL := by
  obtain ⟨hRI, hPQ, hFS, hBR, hCO, hSA, hAWBM, hCFE, hCFT, hAEC, hAGC, hLOG, hAE, hWIFI, hUSER, hPASS, hMDNS, hHOST⟩ := hf
  have hrd := DefaultCfg_read cfg hw e hlay ((defaultSteps cfg hw).take 30)
    ((defaultSteps cfg hw).drop 31)
    ((cfg.EEPROM_ADDR_GAIN_CTRL_START, 1), fun e => SaveGainCtrl cfg e cfg.FACTORY_CFG_GAIN_CTRL) rfl
  have h := hrd cfg.EEPROM_ADDR_GAIN_CTRL_START (by simp [Region.mem])
  unfold LoadGainCtrl
  simp only [h, SaveGainCtrl, SaveBool, commit_eq, read_write_same]
  exact u8_to_bool_bool_to_u8 _

theorem DefaultCfg_LoadAgcGain (cfg : Cfg) (hw : Platform) (e : EEPROMClass)
    (hlay : cfg.LayoutOk) (hf : cfg.FactoryOk) :
    LoadAgcGain cfg (DefaultCfg cfg hw e) = cfg.FACTORY_CFG_AGC_GAIN := by
  obtain ⟨hRI, hPQ, hFS, hBR, hCO, hSA, hAWBM, hCFE, hCFT, hAEC, hAGC, hLOG, hAE, hWIFI, hUSER, hPASS, hMDNS, hHOST⟩ := hf
  have hrd := DefaultCfg_read cfg hw e hlay ((defaultSteps cfg hw).take 31)
    ((defaultSteps cfg hw).drop 32)
    ((cfg.EEPROM_ADDR_AGC_GAIN_START, 1), fun e => SaveAgcGain cfg e cfg.FACTORY_CFG_AGC_GAIN) rfl
  have h := hrd cfg.EEPROM_ADDR_AGC_GAIN_START (by simp [Region.mem])
  unfold LoadAgcGain
  simp only [h, SaveAgcGain, SaveUint8, commit_eq, read_write_same]
  exact u8_val_of_lt _ hAGC

theorem DefaultCfg_LoadLogLevel (cfg : Cfg) (hw : Platform) (e : EEPROMClass)
    (hlay : cfg.LayoutOk) (hf : cfg.FactoryOk) :
    LoadLogLevel cfg (DefaultCfg cfg hw e) = cfg.LogLevel_Info := by
  obtain ⟨hRI, hPQ, hFS, hBR, hCO, hSA, hAWBM, hCFE, hCFT, hAEC, hAGC, hLOG, hAE, hWIFI, hUSER, hPASS, hMDNS, hHOST⟩ := hf
  have hrd := DefaultCfg_read cfg hw e hlay ((defaultSteps cfg hw).take 32)
    ((defaultSteps cfg hw).drop 33)
    ((cfg.EEPROM_ADDR_LOG_LEVEL, 1), fun e => SaveLogLevel cfg e cfg.LogLevel_Info) rfl
  have h := hrd cfg.EEPROM_ADDR_LOG_LEVEL (by simp [Region.mem])
  unfold LoadLogLevel
  simp only [h, SaveLogLevel, SaveUint8, commit_eq, read_write_same]
  exact u8_val_of_lt _ hLOG

theorem DefaultCfg_LoadPrusaConnectHostname (cfg : Cfg) (hw : Platform) (e : EEPROMClass)
    (hlay : cfg.LayoutOk) (hf : cfg.FactoryOk) :
    LoadPrusaConnectHostname cfg (DefaultCfg cfg hw e) = cfg.FACTORY_CFG_HOSTNAME := by
  obtain ⟨hRI, hPQ, hFS, hBR, hCO, hSA, hAWBM, hCFE, hCFT, hAEC, hAGC, hLOG, hAE, hWIFI, hUSER, hPASS, hMDNS, hHOST⟩ := hf
  have hrd := DefaultCfg_read cfg hw e hlay ((defaultSteps cfg hw).take 33)
    ((defaultSteps cfg hw).drop 34)
    ((cfg.EEPROM_ADDR_HOSTNAME_START, cfg.EEPROM_ADDR_HOSTNAME_LENGTH), fun e => SavePrusaConnectHostname cfg e cfg.FACTORY_CFG_HOSTNAME) rfl
  have hb : cfg.EEPROM_ADDR_HOSTNAME_START + cfg.EEPROM_ADDR_HOSTNAME_LENGTH ≤ 65536 :=
    hlay.2 (cfg.EEPROM_ADDR_HOSTNAME_START, cfg.EEPROM_ADDR_HOSTNAME_LENGTH) (by simp [layoutRegions, defaultRegions])
  unfold LoadPrusaConnectHostname
  exact LoadString_of_agree _ _ _ _ _ hb (Or.inl hHOST.1) hHOST.2 hrd

/-- What every field loads after `DefaultCfg`, from any prior store, when the
header constants satisfy the layout invariant and the factory defaults are
values their fields can hold: each field other than the automatic-exposure
level loads the factory default that `DefaultCfg` passed to its save function,
the token and the WiFi credentials load as the empty string,
`CheckActifeWifiCfgFlag` is false, and the automatic-exposure level loads 0 for
the default 0 and 1 for every other default. -/
theorem DefaultCfg_loads (cfg : Cfg) (hw : Platform) (e : EEPROMClass)
    (hlay : cfg.LayoutOk) (hf : cfg.FactoryOk) :
    LoadRefreshInterval cfg (DefaultCfg cfg hw e) = cfg.FACTORY_CFG_PHOTO_REFRESH_INTERVAL ∧
    LoadToken cfg (DefaultCfg cfg hw e) = [] ∧
    LoadPhotoQuality cfg (DefaultCfg cfg hw e) = cfg.FACTORY_CFG_PHOTO_QUALITY ∧
    LoadFrameSize cfg (DefaultCfg cfg hw e) = cfg.FACTORY_CFG_FRAME_SIZE ∧
    LoadBrightness cfg (DefaultCfg cfg hw e) = cfg.FACTORY_CFG_BRIGHTNESS ∧
    LoadContrast cfg (DefaultCfg cfg hw e) = cfg.FACTORY_CFG_CONTRAST ∧
    LoadSaturation cfg (DefaultCfg cfg hw e) = cfg.FACTORY_CFG_SATURATION ∧
    LoadHmirror cfg (DefaultCfg cfg hw e) = cfg.FACTORY_CFG_H_MIRROR ∧
    LoadVflip cfg (DefaultCfg cfg hw e) = cfg.FACTORY_CFG_V_FLIP ∧
    LoadLensCorrect cfg (DefaultCfg cfg hw e) = cfg.FACTORY_CFG_LENS_CORRECT ∧
    LoadExposureCtrl cfg (DefaultCfg cfg hw e) = cfg.FACTORY_CFG_EXPOSURE_CTRL ∧
    LoadAwb cfg (DefaultCfg cfg hw e) = cfg.FACTORY_CFG_AWB ∧
    LoadAwbGain cfg (DefaultCfg cfg hw e) = cfg.FACTORY_CFG_AWB_GAIN ∧
    LoadAwbMode cfg (DefaultCfg cfg hw e) = cfg.FACTORY_CFG_AWB_MODE ∧
    LoadBpc cfg (DefaultCfg cfg hw e) = cfg.FACTORY_CFG_BPC ∧
    LoadWpc cfg (DefaultCfg cfg hw e) = cfg.FACTORY_CFG_WPC ∧
    LoadRawGama cfg (DefaultCfg cfg hw e) = cfg.FACTORY_CFG_RAW_GAMA ∧
    CheckActifeWifiCfgFlag cfg (DefaultCfg cfg hw e) = false ∧
    LoadWifiPassowrd cfg (DefaultCfg cfg hw e) = [] ∧
    LoadWifiSsid cfg (DefaultCfg cfg hw e) = [] ∧
    LoadBasicAuthUsername cfg (DefaultCfg cfg hw e) = cfg.FACTORY_CFG_WEB_AUTH_USERNAME ∧
    LoadBasicAuthPassword cfg (DefaultCfg cfg hw e) = cfg.FACTORY_CFG_WEB_AUTH_PASSWORD ∧
    LoadBasicAuthFlag cfg (DefaultCfg cfg hw e) = cfg.FACTORY_CFG_WEB_AUTH_ENABLE ∧
    LoadCameraFlashEnable cfg (DefaultCfg cfg hw e) = decide (cfg.FACTORY_CFG_CAMERA_FLASH_ENABLE ≠ 0) ∧
    LoadCameraFlashTime cfg (DefaultCfg cfg hw e) = cfg.FACTORY_CFG_CAMERA_FLASH_TIME ∧
    LoadMdnsRecord cfg (DefaultCfg cfg hw e) = cfg.FACTORY_CFG_MDNS_RECORD_HOST ∧
    LoadAec2 cfg (DefaultCfg cfg hw e) = cfg.FACTORY_CFG_AEC2 ∧
    LoadAeLevel cfg (DefaultCfg cfg hw e) = (if cfg.FACTORY_CFG_AE_LEVEL = 0 then 0 else 1) ∧
    LoadAecValue cfg (DefaultCfg cfg hw e) = cfg.FACTORY_CFG_AEC_VALUE ∧
    LoadGainCtrl cfg (DefaultCfg cfg hw e) = cfg.FACTORY_CFG_GAIN_CTRL ∧
    LoadAgcGain cfg (DefaultCfg cfg hw e) = cfg.FACTORY_CFG_AGC_GAIN ∧
    LoadLogLevel cfg (DefaultCfg cfg hw e) = cfg.LogLevel_Info ∧
    LoadPrusaConnectHostname cfg (DefaultCfg cfg hw e) = cfg.FACTORY_CFG_HOSTNAME :=
  ⟨DefaultCfg_LoadRefreshInterval cfg hw e hlay hf,
    DefaultCfg_LoadToken cfg hw e hlay hf,
    DefaultCfg_LoadPhotoQuality cfg hw e hlay hf,
    DefaultCfg_LoadFrameSize cfg hw e hlay hf,
    DefaultCfg_LoadBrightness cfg hw e hlay hf,
    DefaultCfg_LoadContrast cfg hw e hlay hf,
    DefaultCfg_LoadSaturation cfg hw e hlay hf,
    DefaultCfg_LoadHmirror cfg hw e hlay hf,
    DefaultCfg_LoadVflip cfg hw e hlay hf,
    DefaultCfg_LoadLensCorrect cfg hw e hlay hf,
    DefaultCfg_LoadExposureCtrl cfg hw e hlay hf,
    DefaultCfg_LoadAwb cfg hw e hlay hf,
    DefaultCfg_LoadAwbGain cfg hw e hlay hf,
    DefaultCfg_LoadAwbMode cfg hw e hlay hf,
    DefaultCfg_LoadBpc cfg hw e hlay hf,
    DefaultCfg_LoadWpc cfg hw e hlay hf,
    DefaultCfg_LoadRawGama cfg hw e hlay hf,
    DefaultCfg_CheckActifeWifiCfgFlag cfg hw e hlay hf,
    DefaultCfg_LoadWifiPassowrd cfg hw e hlay hf,
    DefaultCfg_LoadWifiSsid cfg hw e hlay hf,
    DefaultCfg_LoadBasicAuthUsername cfg hw e hlay hf,
    DefaultCfg_LoadBasicAuthPassword cfg hw e hlay hf,
    DefaultCfg_LoadBasicAuthFlag cfg hw e hlay hf,
    DefaultCfg_LoadCameraFlashEnable cfg hw e hlay hf,
    DefaultCfg_LoadCameraFlashTime cfg hw e hlay hf,
    DefaultCfg_LoadMdnsRecord cfg hw e hlay hf,
    DefaultCfg_LoadAec2 cfg hw e hlay hf,
    DefaultCfg_LoadAeLevel cfg hw e hlay hf,
    DefaultCfg_LoadAecValue cfg hw e hlay hf,
    DefaultCfg_LoadGainCtrl cfg hw e hlay hf,
    DefaultCfg_LoadAgcGain cfg hw e hlay hf,
    DefaultCfg_LoadLogLevel cfg hw e hlay hf,
    DefaultCfg_LoadPrusaConnectHostname cfg hw e hlay hf⟩

/-- The polling loop stops below `N` as soon as a sample reads `HIGH`. -/
theorem poll_break (N : Nat) (pin : Nat → Bool) (hN : N < 256) :
    ∀ (d i fuel : Nat), i + d < N → pin (i + d) = true → d < fuel →
      ∃ i' k', CheckResetCfg.poll N pin fuel i (i + 1) (pin i) = some (i', k') ∧ i' < N := by
  intro d
  induction d with
  | zero =>
    intro i fuel hi hp hf
    obtain ⟨f, rfl⟩ : ∃ f, fuel = f + 1 := ⟨fuel - 1, by omega⟩
    simp only [Nat.add_zero] at hi hp
    exact ⟨i, i + 1, by simp [CheckResetCfg.poll, hi, hp], hi⟩
  | succ d ih =>
    intro i fuel hi hp hf
    obtain ⟨f, rfl⟩ : ∃ f, fuel = f + 1 := ⟨fuel - 1, by omega⟩
    by_cases hpi : pin i = true
    · exact ⟨i, i + 1, by simp [CheckResetCfg.poll, hpi, show i < N by omega], by omega⟩
    · have hu : (u8 (i + 1)).val = i + 1 := u8_val_of_lt _ (by omega)
      obtain ⟨i', k', h, hlt⟩ := ih (i + 1) f (by omega) (by rw [← hp]; congr 1; omega) (by omega)
      refine ⟨i', k', ?_, hlt⟩
      simp only [CheckResetCfg.poll, show i < N by omega, if_true, hpi, if_false, hu]
      exact h

/-- When every sample below `N` reads `LOW` the polling loop, once it ends,
ends with the counter at `N` after `N + 1` reads. -/
theorem poll_low (N : Nat) (pin : Nat → Bool) (hN : N < 256)
    (hlow : ∀ k, k < N → pin k = false) :
    ∀ (fuel i : Nat), i ≤ N →
      (CheckResetCfg.poll N pin fuel i (i + 1) (pin i) = none ∧ fuel ≤ N - i) ∨
      CheckResetCfg.poll N pin fuel i (i + 1) (pin i) = some (N, N + 1) := by
  intro fuel
  induction fuel with
  | zero => intro i _; exact Or.inl ⟨rfl, by omega⟩
  | succ f ih =>
    intro i hi
    by_cases hlt : i < N
    · have hu : (u8 (i + 1)).val = i + 1 := u8_val_of_lt _ (by omega)
      have hp : pin i = false := hlow i hlt
      have hstep : CheckResetCfg.poll N pin (f + 1) i (i + 1) (pin i) =
          CheckResetCfg.poll N pin f (i + 1) (i + 1 + 1) (pin (i + 1)) := by
        simp [CheckResetCfg.poll, hlt, hp, hu]
      rw [hstep]
      rcases ih (i + 1) (by omega) with ⟨h, hle⟩ | h
      · exact Or.inl ⟨h, by omega⟩
      · exact Or.inr h
    · have hEq : i = N := by omega
      subst hEq
      exact Or.inr (by simp [CheckResetCfg.poll])

/-- The release loop ends once a sample reads `HIGH`. -/
theorem waitRelease_some (pin : Nat → Bool) :
    ∀ (d k fuel : Nat), pin (k + d) = true → d < fuel →
      ∃ r, CheckResetCfg.waitRelease pin fuel k = some r := by
  intro d
  induction d with
  | zero =>
    intro k fuel hp hf
    obtain ⟨f, rfl⟩ : ∃ f, fuel = f + 1 := ⟨fuel - 1, by omega⟩
    simp only [Nat.add_zero] at hp
    exact ⟨k + 1, by simp [CheckResetCfg.waitRelease, hp]⟩
  | succ d ih =>
    intro k fuel hp hf
    obtain ⟨f, rfl⟩ : ∃ f, fuel = f + 1 := ⟨fuel - 1, by omega⟩
    by_cases hpk : pin k = true
    · exact ⟨k + 1, by simp [CheckResetCfg.waitRelease, hpk]⟩
    · obtain ⟨r, h⟩ := ih (k + 1) f (by rw [← hp]; congr 1; omega) (by omega)
      refine ⟨r, ?_⟩
      simp only [CheckResetCfg.waitRelease]
      simp only [Bool.not_eq_true] at hpk
      rw [if_pos hpk]
      exact h

/-- The release loop never ends while every sample reads `LOW`. -/
theorem waitRelease_none (pin : Nat → Bool) :
    ∀ (fuel k : Nat), (∀ j, k ≤ j → pin j = false) →
      CheckResetCfg.waitRelease pin fuel k = none := by
  intro fuel
  induction fuel with
  | zero => intro k _; rfl
  | succ f ih =>
    intro k h
    simp only [CheckResetCfg.waitRelease]
    rw [if_pos (h k (Nat.le_refl k))]
    exact ih (k + 1) (fun j hj => h j (by omega))

/-- A `HIGH` sample inside the window: `CheckResetCfg` returns the store as it
was. -/
theorem CheckResetCfg_released_early (cfg : Cfg) (hw : Platform) (pin : Nat → Bool)
    (e : EEPROMClass) (hN : cfg.CFG_RESET_TIME_WAIT / cfg.CFG_RESET_LOOP_DELAY < 256)
    (k : Nat) (hk : k < cfg.CFG_RESET_TIME_WAIT / cfg.CFG_RESET_LOOP_DELAY)
    (hp : pin k = true) (fuel : Nat)
    (hf : cfg.CFG_RESET_TIME_WAIT / cfg.CFG_RESET_LOOP_DELAY < fuel) :
    CheckResetCfg cfg hw pin fuel e = some (e, false) := by
  obtain ⟨i', k', h, hlt⟩ := poll_break _ pin hN k 0 fuel (by omega) (by simpa using hp)
    (by omega)
  simp only [Nat.zero_add] at h
  simp only [CheckResetCfg, h]
  rw [if_neg (by omega)]

/-- `LOW` at every sample of the window and `HIGH` at a later read:
`CheckResetCfg` applies `DefaultCfg` and restarts. -/
theorem CheckResetCfg_held_then_released (cfg : Cfg) (hw : Platform) (pin : Nat → Bool)
    (e : EEPROMClass) (hN : cfg.CFG_RESET_TIME_WAIT / cfg.CFG_RESET_LOOP_DELAY < 256)
    (hlow : ∀ k, k < cfg.CFG_RESET_TIME_WAIT / cfg.CFG_RESET_LOOP_DELAY → pin k = false)
    (m : Nat) (hm : cfg.CFG_RESET_TIME_WAIT / cfg.CFG_RESET_LOOP_DELAY + 1 ≤ m)
    (hp : pin m = true) (fuel : Nat) (hf : m < fuel) :
    CheckResetCfg cfg hw pin fuel e = some (DefaultCfg cfg hw e, true) := by
  unfold CheckResetCfg
  generalize cfg.CFG_RESET_TIME_WAIT / cfg.CFG_RESET_LOOP_DELAY = N at *
  have hpoll : CheckResetCfg.poll N pin fuel 0 1 (pin 0) = some (N, N + 1) := by
    rcases poll_low _ pin hN hlow fuel 0 (Nat.zero_le _) with ⟨_, hle⟩ | h
    · omega
    · simpa using h
  obtain ⟨r, hr⟩ := waitRelease_some pin (m - (N + 1)) (N + 1) fuel
    (by rw [← hp]; congr 1; omega) (by omega)
  simp only [hpoll, if_true, hr]

/-- `LOW` at every sample of the window and at every later read:
`CheckResetCfg` never returns and never writes. -/
theorem CheckResetCfg_held_for_ever (cfg : Cfg) (hw : Platform) (pin : Nat → Bool)
    (e : EEPROMClass) (hN : cfg.CFG_RESET_TIME_WAIT / cfg.CFG_RESET_LOOP_DELAY < 256)
    (hlow : ∀ k, k < cfg.CFG_RESET_TIME_WAIT / cfg.CFG_RESET_LOOP_DELAY → pin k = false)
    (hlater : ∀ m, cfg.CFG_RESET_TIME_WAIT / cfg.CFG_RESET_LOOP_DELAY + 1 ≤ m → pin m = false)
    (fuel : Nat) : CheckResetCfg cfg hw pin fuel e = none := by
  rcases poll_low _ pin hN hlow fuel 0 (Nat.zero_le _) with ⟨h, _⟩ | h
  · simp only [Nat.zero_add] at h
    simp only [CheckResetCfg, h]
  · simp only [Nat.zero_add] at h
    simp only [CheckResetCfg, h, if_true, waitRelease_none pin fuel _ hlater]

/-- C11 (as stated, refuted): with the sample constants the window has 100
polls; on an input that reads `LOW` at every poll and stays `LOW`,
`CheckResetCfg` never reaches `DefaultCfg`: whatever the fuel, it has not
returned and so has not wiped the store. -/
theorem CheckResetCfg_held_input_not_wiped :
    (∀ k, k < sampleCfg.CFG_RESET_TIME_WAIT / sampleCfg.CFG_RESET_LOOP_DELAY →
      (fun _ : Nat => false) k = false) ∧
    ∀ fuel, CheckResetCfg sampleCfg samplePlatform (fun _ => false) fuel blankStore ≠
      some (DefaultCfg sampleCfg samplePlatform blankStore, true) := by
  refine ⟨fun _ _ => rfl, fun fuel => ?_⟩
  rw [CheckResetCfg_held_for_ever sampleCfg samplePlatform (fun _ => false) blankStore
    (by decide) (fun _ _ => rfl) (fun _ _ => rfl) fuel]
  exact fun h => nomatch h

/-- C11 (amended): with `N = CFG_RESET_TIME_WAIT / CFG_RESET_LOOP_DELAY` polls
(`N` below 256, the counter being a `uint8_t`): if one of the first `N` reads
is `HIGH`, `CheckResetCfg` returns with the store untouched; if they are all
`LOW` and a later read (after the unchecked read number `N`) is `HIGH`, it
applies `DefaultCfg` and restarts; if they are all `LOW` and every later read is
`LOW` too, it never returns and never writes. -/
theorem CheckResetCfg_wipes_iff (cfg : Cfg) (hw : Platform) (pin : Nat → Bool)
    (e : EEPROMClass) (hN : cfg.CFG_RESET_TIME_WAIT / cfg.CFG_RESET_LOOP_DELAY < 256) :
    ((∃ k, k < cfg.CFG_RESET_TIME_WAIT / cfg.CFG_RESET_LOOP_DELAY ∧ pin k = true) →
      ∀ fuel, cfg.CFG_RESET_TIME_WAIT / cfg.CFG_RESET_LOOP_DELAY < fuel →
        CheckResetCfg cfg hw pin fuel e = some (e, false)) ∧
    ((∀ k, k < cfg.CFG_RESET_TIME_WAIT / cfg.CFG_RESET_LOOP_DELAY → pin k = false) →
      ∀ m, cfg.CFG_RESET_TIME_WAIT / cfg.CFG_RESET_LOOP_DELAY + 1 ≤ m → pin m = true →
        ∀ fuel, m < fuel →
          CheckResetCfg cfg hw pin fuel e = some (DefaultCfg cfg hw e, true)) ∧
    ((∀ k, k < cfg.CFG_RESET_TIME_WAIT / cfg.CFG_RESET_LOOP_DELAY → pin k = false) →
      (∀ m, cfg.CFG_RESET_TIME_WAIT / cfg.CFG_RESET_LOOP_DELAY + 1 ≤ m → pin m = false) →
        ∀ fuel, CheckResetCfg cfg hw pin fuel e = none) :=
  ⟨fun ⟨k, hk, hp⟩ fuel hf => CheckResetCfg_released_early cfg hw pin e hN k hk hp fuel hf,
   fun hlow m hm hp fuel hf => CheckResetCfg_held_then_released cfg hw pin e hN hlow m hm hp fuel hf,
   fun hlow hlater fuel => CheckResetCfg_held_for_ever cfg hw pin e hN hlow hlater fuel⟩

/-- C11 (amended) at the sample constants: the input reads `LOW` for the first
103 reads and `HIGH` from then on. -/
theorem CheckResetCfg_wipes_iff_witness :
    sampleCfg.CFG_RESET_TIME_WAIT / sampleCfg.CFG_RESET_LOOP_DELAY < 256 ∧
    CheckResetCfg sampleCfg samplePlatform (fun k => decide (103 ≤ k)) 104 blankStore =
      some (DefaultCfg sampleCfg samplePlatform blankStore, true) :=
  ⟨by decide,
   (CheckResetCfg_wipes_iff sampleCfg samplePlatform (fun k => decide (103 ≤ k)) blankStore
      (by decide)).2.1
      (fun k hk => by
        have h : k < 100 := hk
        simp only [decide_eq_false_iff_not]
        omega)
      103 (by decide) (by decide) 104 (by decide)⟩

/-! ## The capture loops -/

theorem newEvents_of_append (c c' : Camera) (t : List HwEvent) (h : c'.trace = c.trace ++ t) :
    newEvents c c' = t := by
  unfold newEvents
  rw [h]
  exact List.drop_left _ _

theorem checked_len_gt (f : camera_fb_t) :
    100 < (CapturePhoto.checked f).len ↔ ControlFlag f = 0 ∧ 100 < f.len := by
  unfold CapturePhoto.checked
  by_cases h : ControlFlag f = 0
  · simp [h]
  · simp [h]

theorem checked_of_valid (f : camera_fb_t) (h : ControlFlag f = 0) :
    CapturePhoto.checked f = f := by
  simp [CapturePhoto.checked, h]

/-- One pass of the `CapturePhoto` loop when the driver has no buffer. -/
theorem CapturePhoto_loop_none (hw : FrameSupply) (fuel : Nat) (c : Camera)
    (h : hw c.requested = none) :
    CapturePhoto.loop hw (fuel + 1) c =
      some ({ c with FrameBuffer := none, requested := c.requested + 1,
                     trace := c.trace ++ [HwEvent.fbGet none, HwEvent.logNoBuffer] }, false) := by
  simp [CapturePhoto.loop, esp_camera_fb_get, Camera.emit, h]

/-- One pass of the `CapturePhoto` loop when the driver supplies a frame: the
loop goes round again unless the checked length exceeds 100. -/
theorem CapturePhoto_loop_some (hw : FrameSupply) (fuel : Nat) (c : Camera) (f : camera_fb_t)
    (h : hw c.requested = some f) :
    CapturePhoto.loop hw (fuel + 1) c =
      if ¬ (100 < (CapturePhoto.checked f).len) then
        CapturePhoto.loop hw fuel (CapturePhoto.afterPass c f)
      else some (CapturePhoto.afterPass c f, true) := by
  by_cases hflag : ControlFlag f = 0
  · simp [CapturePhoto.loop, esp_camera_fb_get, esp_camera_fb_return, Camera.emit, h,
      CapturePhoto.afterPass, CapturePhoto.passEvents, CapturePhoto.checked, hflag]
  · simp [CapturePhoto.loop, esp_camera_fb_get, esp_camera_fb_return, Camera.emit, h,
      CapturePhoto.afterPass, CapturePhoto.passEvents, CapturePhoto.checked, hflag]

@[simp] theorem afterPass_trace (c : Camera) (f : camera_fb_t) :
    (CapturePhoto.afterPass c f).trace = c.trace ++ CapturePhoto.passEvents f := rfl

@[simp] theorem afterPass_requested (c : Camera) (f : camera_fb_t) :
    (CapturePhoto.afterPass c f).requested = c.requested + 1 := rfl

@[simp] theorem afterPass_FrameBuffer (c : Camera) (f : camera_fb_t) :
    (CapturePhoto.afterPass c f).FrameBuffer = some (CapturePhoto.checked f) := rfl

/-- What the `CapturePhoto` loop has done when it ends: it only appended events;
when it returned from inside, the no-buffer error line is among them; when it
was left through its condition, the frame it holds was supplied by the driver,
has a zero control byte and a length above 100. -/
theorem CapturePhoto_loop_spec (hw : FrameSupply) :
    ∀ (fuel : Nat) (c c' : Camera) (b : Bool), CapturePhoto.loop hw fuel c = some (c', b) →
      ∃ t, c'.trace = c.trace ++ t ∧
        (b = false → HwEvent.logNoBuffer ∈ t) ∧
        (b = true → ∃ f, c'.FrameBuffer = some f ∧ ControlFlag f = 0 ∧ 100 < f.len ∧
          c.requested < c'.requested ∧ hw (c'.requested - 1) = some f) := by
  intro fuel
  induction fuel with
  | zero => intro c c' b h; simp [CapturePhoto.loop] at h
  | succ fuel ih =>
    intro c c' b h
    cases hfb : hw c.requested with
    | none =>
      rw [CapturePhoto_loop_none hw fuel c hfb] at h
      simp only [Option.some.injEq, Prod.mk.injEq] at h
      obtain ⟨hc, hb⟩ := h
      subst hc hb
      exact ⟨[HwEvent.fbGet none, HwEvent.logNoBuffer], rfl, fun _ => by simp, fun h => by simp at h⟩
    | some f =>
      rw [CapturePhoto_loop_some hw fuel c f hfb] at h
      by_cases hlen : 100 < (CapturePhoto.checked f).len
      · rw [if_neg (not_not.mpr hlen)] at h
        simp only [Option.some.injEq, Prod.mk.injEq] at h
        obtain ⟨hc, hb⟩ := h
        subst hc hb
        have hv := (checked_len_gt f).mp hlen
        refine ⟨CapturePhoto.passEvents f, rfl, fun h => by simp at h, fun _ => ?_⟩
        refine ⟨f, ?_, hv.1, hv.2, ?_, ?_⟩
        · rw [afterPass_FrameBuffer, checked_of_valid f hv.1]
        · simp
        · simpa using hfb
      · rw [if_pos hlen] at h
        obtain ⟨t, ht, hfalse, htrue⟩ := ih _ c' b h
        refine ⟨CapturePhoto.passEvents f ++ t, ?_, ?_, ?_⟩
        · rw [ht, afterPass_trace, List.append_assoc]
        · intro hb
          exact List.mem_append_right _ (hfalse hb)
        · intro hb
          obtain ⟨g, hg1, hg2, hg3, hg4, hg5⟩ := htrue hb
          refine ⟨g, hg1, hg2, hg3, ?_, hg5⟩
          rw [afterPass_requested] at hg4
          omega

/-- What a `CapturePhoto` call that entered the retry loop has done when it
returns: either the no-buffer error line is among its events, or the frame it
holds was supplied by the driver and passed both checks. -/
theorem CapturePhoto_spec (hw : FrameSupply) (fuel : Nat) (c c' : Camera)
    (hs : c.StreamOnOff = false) (h : CapturePhoto hw fuel c = some c') :
    HwEvent.logNoBuffer ∈ newEvents c c' ∨
    ∃ f, c'.FrameBuffer = some f ∧ ControlFlag f = 0 ∧ 100 < f.len ∧
      hw (c'.requested - 1) = some f := by
  unfold CapturePhoto at h
  rw [if_pos hs] at h
  cases htake : xSemaphoreTake c with
  | none => simp [htake] at h
  | some c₁ =>
    simp only [htake] at h
    have hc₁ : c₁.trace = c.trace ++ [HwEvent.semaphoreTake] := by
      unfold xSemaphoreTake at htake
      split at htake
      · simp at htake
      · simp only [Option.some.injEq] at htake
        subst htake
        rfl
    cases hloop : CapturePhoto.loop hw fuel
        (esp_camera_fb_return
          { (esp_camera_fb_get hw (if c₁.CameraFlashEnable = true then ledcWrite c₁ true
              else c₁)).1 with
            FrameBuffer := (esp_camera_fb_get hw (if c₁.CameraFlashEnable = true then
              ledcWrite c₁ true else c₁)).2 }
          (esp_camera_fb_get hw (if c₁.CameraFlashEnable = true then ledcWrite c₁ true
              else c₁)).2) with
    | none => simp [hloop] at h
    | some r =>
      obtain ⟨c₂, b⟩ := r
      obtain ⟨t, ht, hfalse, htrue⟩ := CapturePhoto_loop_spec hw fuel _ c₂ b hloop
      have hpre : ∃ t₀, c₂.trace = c.trace ++ (t₀ ++ t) := by
        by_cases hfl : c₁.CameraFlashEnable = true
        · refine ⟨[HwEvent.semaphoreTake, HwEvent.flashOn, HwEvent.fbGet (hw c₁.requested),
            HwEvent.fbReturn (hw c₁.requested)], ?_⟩
          rw [ht]
          simp [hfl, esp_camera_fb_return, esp_camera_fb_get, ledcWrite, Camera.emit, hc₁]
        · refine ⟨[HwEvent.semaphoreTake, HwEvent.fbGet (hw c₁.requested),
            HwEvent.fbReturn (hw c₁.requested)], ?_⟩
          rw [ht]
          simp [hfl, esp_camera_fb_return, esp_camera_fb_get, Camera.emit, hc₁]
      obtain ⟨t₀, hpre⟩ := hpre
      simp only [hloop] at h
      cases b with
      | false =>
        simp only [Option.some.injEq] at h
        subst h
        left
        rw [newEvents_of_append c c₂ _ hpre]
        exact List.mem_append_right _ (hfalse rfl)
      | true =>
        simp only [Option.some.injEq] at h
        subst h
        right
        obtain ⟨f, hf1, hf2, hf3, _, hf5⟩ := htrue rfl
        refine ⟨f, ?_, hf2, hf3, ?_⟩
        · by_cases hfl : c₂.CameraFlashEnable = true
          · simpa [hfl, xSemaphoreGive, ledcWrite, Camera.emit] using hf1
          · simpa [hfl, xSemaphoreGive, Camera.emit] using hf1
        · by_cases hfl : c₂.CameraFlashEnable = true
          · simpa [hfl, xSemaphoreGive, ledcWrite, Camera.emit] using hf5
          · simpa [hfl, xSemaphoreGive, Camera.emit] using hf5

/-- The `CapturePhoto` loop on a supply that first hands out the invalid frames
`invs` and then the valid frame `v`: it makes one pass per frame and ends on `v`. -/
theorem CapturePhoto_loop_retries (hw : FrameSupply) (v : camera_fb_t)
    (hv0 : ControlFlag v = 0) (hv1 : 100 < v.len) :
    ∀ (invs : List camera_fb_t) (fuel : Nat) (c : Camera),
      (∀ k, k < invs.length → hw (c.requested + k) = invs[k]?) →
      (∀ f ∈ invs, ControlFlag f ≠ 0 ∨ f.len ≤ 100) →
      hw (c.requested + invs.length) = some v → invs.length < fuel →
      CapturePhoto.loop hw fuel c =
        some ({ c with
                FrameBuffer := some v
                requested := c.requested + invs.length + 1
                trace := c.trace ++
                  (invs.flatMap CapturePhoto.passEvents ++ CapturePhoto.passEvents v) },
              true) := by
  intro invs
  induction invs with
  | nil =>
    intro fuel c _ _ hv hf
    obtain ⟨n, rfl⟩ : ∃ n, fuel = n + 1 := ⟨fuel - 1, by simp at hf; omega⟩
    simp only [List.length_nil, Nat.add_zero] at hv
    rw [CapturePhoto_loop_some hw n c v hv,
      if_neg (not_not.mpr ((checked_len_gt v).mpr ⟨hv0, hv1⟩))]
    simp [CapturePhoto.afterPass, checked_of_valid v hv0]
  | cons f rest ih =>
    intro fuel c hsup hinv hv hf
    simp only [List.length_cons] at hv hf
    obtain ⟨n, rfl⟩ : ∃ n, fuel = n + 1 := ⟨fuel - 1, by omega⟩
    have h0 : hw c.requested = some f := by
      simpa using hsup 0 (by simp)
    have hbad : ¬ (100 < (CapturePhoto.checked f).len) := by
      rw [checked_len_gt]
      rcases hinv f (List.mem_cons_self _ _) with h | h
      · exact fun hh => h hh.1
      · exact fun hh => by omega
    rw [CapturePhoto_loop_some hw n c f h0, if_pos hbad]
    rw [ih n (CapturePhoto.afterPass c f)
      (fun k hk => by
        have := hsup (k + 1) (by simpa using hk)
        simpa [Nat.add_assoc, Nat.add_comm 1 k] using this)
      (fun g hg => hinv g (List.mem_cons_of_mem _ hg))
      (by rw [afterPass_requested, ← hv]; congr 1; omega)
      (by omega)]
    simp [CapturePhoto.afterPass, Nat.add_assoc, Nat.add_comm 1 rest.length]

/-- `CapturePhoto` with streaming off and the semaphore free, on a supply that
hands out a warm-up frame, the invalid frames `invs` and then the valid frame
`v`. -/
theorem CapturePhoto_retries (hw : FrameSupply) (c : Camera) (w v : camera_fb_t)
    (invs : List camera_fb_t) (fuel : Nat)
    (hs : c.StreamOnOff = false) (hl : c.locked = false)
    (hw0 : hw c.requested = some w)
    (hsup : ∀ k, k < invs.length → hw (c.requested + 1 + k) = invs[k]?)
    (hinv : ∀ f ∈ invs, ControlFlag f ≠ 0 ∨ f.len ≤ 100)
    (hv : hw (c.requested + 1 + invs.length) = some v)
    (hv0 : ControlFlag v = 0) (hv1 : 100 < v.len) (hf : invs.length < fuel) :
    CapturePhoto hw fuel c =
      some { c with
             FrameBuffer := some v
             flash := if c.CameraFlashEnable = true then false else c.flash
             requested := c.requested + (invs.length + 2)
             trace := c.trace ++ ([HwEvent.semaphoreTake] ++
               (if c.CameraFlashEnable = true then [HwEvent.flashOn] else []) ++
               [HwEvent.fbGet (some w), HwEvent.fbReturn (some w)] ++
               invs.flatMap CapturePhoto.passEvents ++ CapturePhoto.passEvents v ++
               (if c.CameraFlashEnable = true then [HwEvent.flashOff] else []) ++
               [HwEvent.semaphoreGive]) } := by
  unfold CapturePhoto
  rw [if_pos hs]
  by_cases hfl : c.CameraFlashEnable = true
  · simp only [xSemaphoreTake, hl, Bool.false_eq_true, if_false, Camera.emit, hfl, if_true,
      ledcWrite, esp_camera_fb_get, hw0, esp_camera_fb_return]
    rw [CapturePhoto_loop_retries hw v hv0 hv1 invs fuel _ (by simpa using hsup) hinv
      (by simpa using hv) hf]
    simp [hfl, ledcWrite, xSemaphoreGive, Camera.emit, hl, Nat.add_assoc, Nat.add_comm 1]
  · simp only [xSemaphoreTake, hl, Bool.false_eq_true, if_false, Camera.emit, hfl,
      esp_camera_fb_get, hw0, esp_camera_fb_return]
    rw [CapturePhoto_loop_retries hw v hv0 hv1 invs fuel _ (by simpa using hsup) hinv
      (by simpa using hv) hf]
    simp [hfl, xSemaphoreGive, Camera.emit, hl, Nat.add_assoc, Nat.add_comm 1]

/-! ## Claims about the capture paths -/

/-- C12: a `CapturePhoto` call with streaming off that returns without the
no-buffer error line ends holding a frame that the driver supplied, whose byte
15 is zero and whose length exceeds 100; and a supplied frame with a non-zero
byte 15 or a length of at most 100 does not end the retry loop: the loop goes
on to request another frame. -/
theorem CapturePhoto_ends_on_valid_frame (hw : FrameSupply) (fuel : Nat) (c c' : Camera)
    (hs : c.StreamOnOff = false) (h : CapturePhoto hw fuel c = some c')
    (hok : HwEvent.logNoBuffer ∉ newEvents c c') :
    (∃ f, c'.FrameBuffer = some f ∧ ControlFlag f = 0 ∧ 100 < f.len ∧
      hw (c'.requested - 1) = some f) ∧
    ∀ (n : Nat) (d : Camera) (g : camera_fb_t), hw d.requested = some g →
      (ControlFlag g ≠ 0 ∨ g.len ≤ 100) →
      CapturePhoto.loop hw (n + 1) d = CapturePhoto.loop hw n (CapturePhoto.afterPass d g) := by
  constructor
  · rcases CapturePhoto_spec hw fuel c c' hs h with hbad | hgood
    · exact absurd hbad hok
    · exact hgood
  · intro n d g hg hinv
    rw [CapturePhoto_loop_some hw n d g hg, if_pos]
    rw [checked_len_gt]
    rcases hinv with h' | h'
    · exact fun hh => h' hh.1
    · exact fun hh => by omega

/-- C12 on the sample supply: warm-up, corrupt, short, good. -/
theorem CapturePhoto_ends_on_valid_frame_witness :
    (sampleCamera.StreamOnOff = false ∧ CapturePhoto photoSupply 3 sampleCamera = some photoTaken ∧
      HwEvent.logNoBuffer ∉ newEvents sampleCamera photoTaken) ∧
    ∃ f, photoTaken.FrameBuffer = some f ∧ ControlFlag f = 0 ∧ 100 < f.len ∧
      photoSupply (photoTaken.requested - 1) = some f :=
  ⟨⟨by decide, by decide, by decide⟩,
   (CapturePhoto_ends_on_valid_frame photoSupply 3 sampleCamera photoTaken (by decide)
      (by decide) (by decide)).1⟩

/-- C13 (what the code does): `CaptureStream` only tests the length.  A supplied
frame of length 2000 whose byte 15 is `0xFF` is copied to the caller's
descriptor, while `CapturePhoto` on the same kind of frame retries. -/
theorem CaptureStream_copies_corrupt_frame :
    ControlFlag corruptFrame = 255 ∧
    (CaptureStream (supplyOf [corruptFrame]) 1 sampleCamera shortFrame).map Prod.snd =
      some corruptFrame := by
  decide

/-- C14: with streaming off and the semaphore free, on a supply of one warm-up
frame, `N` invalid frames and one valid frame, `CapturePhoto` returns (any fuel
above `N` suffices), without the no-buffer error line, having requested exactly
`N + 2` frames and returned every one of them, holding the valid frame, with the
semaphore free again; its events are the take, the flash-on if enabled, the
warm-up request and return, one pass per invalid frame, the pass of the valid
frame, the flash-off if enabled, and the give. -/
theorem CapturePhoto_warmup_retries_valid (hw : FrameSupply) (c : Camera) (w v : camera_fb_t)
    (invs : List camera_fb_t) (fuel : Nat)
    (hs : c.StreamOnOff = false) (hl : c.locked = false)
    (hw0 : hw c.requested = some w)
    (hsup : ∀ k, k < invs.length → hw (c.requested + 1 + k) = invs[k]?)
    (hinv : ∀ f ∈ invs, ControlFlag f ≠ 0 ∨ f.len ≤ 100)
    (hv : hw (c.requested + 1 + invs.length) = some v)
    (hv0 : ControlFlag v = 0) (hv1 : 100 < v.len) (hf : invs.length < fuel) :
    ∃ c', CapturePhoto hw fuel c = some c' ∧
      HwEvent.logNoBuffer ∉ newEvents c c' ∧
      c'.requested = c.requested + (invs.length + 2) ∧
      c'.FrameBuffer = some v ∧
      c'.outstanding = c.outstanding ∧
      c'.locked = false ∧
      newEvents c c' = [HwEvent.semaphoreTake] ++
        (if c.CameraFlashEnable = true then [HwEvent.flashOn] else []) ++
        [HwEvent.fbGet (some w), HwEvent.fbReturn (some w)] ++
        invs.flatMap CapturePhoto.passEvents ++ CapturePhoto.passEvents v ++
        (if c.CameraFlashEnable = true then [HwEvent.flashOff] else []) ++
        [HwEvent.semaphoreGive] := by
  refine ⟨_, CapturePhoto_retries hw c w v invs fuel hs hl hw0 hsup hinv hv hv0 hv1 hf, ?_, rfl,
    rfl, rfl, hl, ?_⟩
  · rw [newEvents_of_append c _ _ rfl]
    have hpass : ∀ f, HwEvent.logNoBuffer ∉ CapturePhoto.passEvents f := by
      intro f
      unfold CapturePhoto.passEvents
      by_cases hflag : ControlFlag f = 0
      · simp [hflag]
      · simp [hflag]
    have hflat : HwEvent.logNoBuffer ∉ invs.flatMap CapturePhoto.passEvents := by
      rw [List.mem_flatMap]
      rintro ⟨f, _, hf'⟩
      exact hpass f hf'
    by_cases hfl : c.CameraFlashEnable = true
    · simp [hfl, hpass, hflat]
    · simp [hfl, hpass, hflat]
  · exact newEvents_of_append c _ _ rfl

/-- C14 on the sample supply: two invalid frames between the warm-up frame and
the good frame. -/
theorem CapturePhoto_warmup_retries_valid_witness :
    (sampleCamera.StreamOnOff = false ∧ sampleCamera.locked = false ∧
      photoSupply sampleCamera.requested = some goodFrame) ∧
    ∃ c', CapturePhoto photoSupply 3 sampleCamera = some c' ∧
      c'.requested = sampleCamera.requested + (2 + 2) ∧ c'.FrameBuffer = some goodFrame :=
  ⟨⟨by decide, by decide, by decide⟩,
   (CapturePhoto_warmup_retries_valid photoSupply sampleCamera goodFrame goodFrame
      [corruptFrame, shortFrame] 3 (by decide) (by decide) (by decide) (by decide) (by decide)
      (by decide) (by decide) (by decide) (by decide)).elim
      (fun c' h => ⟨c', h.1, h.2.2.1, h.2.2.2.1⟩)⟩

/-- C15 (what the code does): when the driver has no buffer, `CapturePhoto` and
`CaptureStream` return from inside the loop with the semaphore still taken, and
a call on a camera whose semaphore is taken never returns. -/
theorem capture_failure_keeps_semaphore :
    (CapturePhoto (supplyOf [goodFrame]) 5 sampleCamera).map (fun c => c.locked) = some true ∧
    (CaptureStream (supplyOf []) 5 sampleCamera shortFrame).map (fun r => r.1.locked) =
      some true ∧
    ∀ (hw : FrameSupply) (fuel : Nat) (c : Camera) (out : camera_fb_t), c.locked = true →
      CaptureStream hw fuel c out = none ∧
      CapturePhoto hw fuel (SetStreamStatus c false) = none := by
  refine ⟨by decide, by decide, ?_⟩
  intro hw fuel c out hl
  constructor
  · simp [CaptureStream, xSemaphoreTake, hl]
  · simp [CapturePhoto, SetStreamStatus, xSemaphoreTake, hl]

/-- C16 (what the code does): when the driver has no buffer, `CaptureStream`
leaves the caller's descriptor exactly as it was: a caller whose descriptor
held a good frame gets the same descriptor back from a failed call as from a
successful one. -/
theorem CaptureStream_failure_output_unchanged :
    (∀ (fuel : Nat) (c : Camera) (out : camera_fb_t), c.locked = false →
      (CaptureStream (supplyOf []) (fuel + 1) c out).map Prod.snd = some out) ∧
    (CaptureStream (supplyOf []) 5 sampleCamera goodFrame).map Prod.snd = some goodFrame ∧
    (CaptureStream (supplyOf [goodFrame]) 5 sampleCamera goodFrame).map Prod.snd =
      some goodFrame := by
  refine ⟨?_, by decide, by decide⟩
  intro fuel c out hl
  simp [CaptureStream, CaptureStream.loop, xSemaphoreTake, hl, esp_camera_fb_get, supplyOf,
    Camera.emit]

/-- C17 (what the code does): `CaptureStream` does not return a frame that fails
its length test: on a short frame followed by a good one it requests the second
buffer while the first is still out, and two buffers are outstanding when it
returns; followed by no buffer, the short frame is still out at the return. -/
theorem CaptureStream_keeps_rejected_buffer :
    (CaptureStream (supplyOf [shortFrame, goodFrame]) 5 sampleCamera shortFrame).map
        (fun r => (r.1.trace, r.1.outstanding)) =
      some ([HwEvent.semaphoreTake, HwEvent.fbGet (some shortFrame),
        HwEvent.fbGet (some goodFrame), HwEvent.semaphoreGive], 2) ∧
    (CaptureStream (supplyOf [shortFrame]) 5 sampleCamera shortFrame).map
        (fun r => (r.1.trace, r.1.outstanding)) =
      some ([HwEvent.semaphoreTake, HwEvent.fbGet (some shortFrame), HwEvent.fbGet none,
        HwEvent.logNoBuffer], 1) := by
  decide

/-- C18: with streaming on, `CapturePhoto` returns at once and changes nothing:
the semaphore, the frame pool, the flash, the held frame and the trace are as
before. -/
theorem CapturePhoto_streaming_noop (hw : FrameSupply) (fuel : Nat) (c : Camera) :
    CapturePhoto hw fuel (SetStreamStatus c true) = some (SetStreamStatus c true) ∧
    newEvents (SetStreamStatus c true) (SetStreamStatus c true) = [] ∧
    GetStreamStatus (SetStreamStatus c true) = true := by
  refine ⟨by simp [CapturePhoto, SetStreamStatus], by simp [newEvents], rfl⟩

/-! ## Claims about the settings and the stream statistics -/

/-- C19: after `SetPhotoQuality(q)` with `q` a `uint8_t` value, the store loads
`q` as photo quality, so `LoadCameraCfgFromEeprom` gives any camera object the
quality `q`; the driver was de-initialised and initialised with the unchanged
frame size and JPEG quality `q`; and when that initialisation succeeds the
call returns with the working copy changed only in the quality and the sensor
has received, in this order, brightness, contrast, saturation, special effect 0,
white balance, white-balance gain, white-balance mode, exposure control, AEC2,
AE level, AEC value, gain control, AGC gain, gain ceiling 0, BPC, WPC, raw
gamma, lens correction, horizontal mirror, vertical flip, DCW 1 and colour bar
0, each setting with the value of the unchanged working copy (when the
initialisation fails the device restarts instead). -/
theorem SetPhotoQuality_persists_and_reapplies (cfg : Cfg) (initOk : Bool) (e : EEPROMClass)
    (c : Camera) (q : Nat) (hq : q < 256) :
    LoadPhotoQuality cfg (SetPhotoQuality cfg initOk e c q).1 = q ∧
    (∀ c₂, (LoadCameraCfgFromEeprom cfg (SetPhotoQuality cfg initOk e c q).1 c₂).PhotoQuality = q) ∧
    (SetPhotoQuality cfg initOk e c q).2.1.PhotoQuality = q ∧
    (newEvents c (SetPhotoQuality cfg initOk e c q).2.1).take 2 =
      [HwEvent.cameraDeinit, HwEvent.cameraInit c.TFrameSize q] ∧
    (initOk = true →
      SetPhotoQuality cfg initOk e c q =
        (SavePhotoQuality cfg e q,
         { c with PhotoQuality := q
                  trace := c.trace ++ [HwEvent.cameraDeinit, HwEvent.cameraInit c.TFrameSize q,
                    HwEvent.sensorSet SensorParam.brightness c.brightness,
                    HwEvent.sensorSet SensorParam.contrast c.contrast,
                    HwEvent.sensorSet SensorParam.saturation c.saturation,
                    HwEvent.sensorSet SensorParam.special_effect 0,
                    HwEvent.sensorSet SensorParam.whitebal (if c.awb then 1 else 0),
                    HwEvent.sensorSet SensorParam.awb_gain (if c.awb_gain then 1 else 0),
                    HwEvent.sensorSet SensorParam.wb_mode c.wb_mode,
                    HwEvent.sensorSet SensorParam.exposure_ctrl
                      (if c.exposure_ctrl then 1 else 0),
                    HwEvent.sensorSet SensorParam.aec2 (if c.aec2 then 1 else 0),
                    HwEvent.sensorSet SensorParam.ae_level c.ae_level,
                    HwEvent.sensorSet SensorParam.aec_value c.aec_value,
                    HwEvent.sensorSet SensorParam.gain_ctrl (if c.gain_ctrl then 1 else 0),
                    HwEvent.sensorSet SensorParam.agc_gain c.agc_gain,
                    HwEvent.sensorSet SensorParam.gainceiling 0,
                    HwEvent.sensorSet SensorParam.bpc (if c.bpc then 1 else 0),
                    HwEvent.sensorSet SensorParam.wpc (if c.wpc then 1 else 0),
                    HwEvent.sensorSet SensorParam.raw_gma (if c.raw_gama then 1 else 0),
                    HwEvent.sensorSet SensorParam.lenc (if c.lensc then 1 else 0),
                    HwEvent.sensorSet SensorParam.hmirror (if c.hmirror then 1 else 0),
                    HwEvent.sensorSet SensorParam.vflip (if c.vflip then 1 else 0),
                    HwEvent.sensorSet SensorParam.dcw 1,
                    HwEvent.sensorSet SensorParam.colorbar 0] },
         true)) ∧
    (initOk = false →
      newEvents c (SetPhotoQuality cfg initOk e c q).2.1 =
        [HwEvent.cameraDeinit, HwEvent.cameraInit c.TFrameSize q, HwEvent.restart]) := by
  have hload : LoadPhotoQuality cfg (SavePhotoQuality cfg e q) = q := by
    simp only [LoadPhotoQuality, SavePhotoQuality, SaveUint8, commit_eq, read_write_same]
    exact u8_val_of_lt q hq
  cases initOk with
  | true =>
    refine ⟨hload, fun c₂ => hload, rfl, ?_, fun _ => ?_, fun h => by simp at h⟩
    · simp [newEvents, SetPhotoQuality, ReinitCameraModule, InitCameraModule, ApplyCameraCfg,
        Camera.emit, ApplyCameraCfg.calls]
    · simp [SetPhotoQuality, ReinitCameraModule, InitCameraModule, ApplyCameraCfg,
        Camera.emit, ApplyCameraCfg.calls, boolInt]
  | false =>
    refine ⟨hload, fun c₂ => hload, rfl, ?_, fun h => by simp at h, fun _ => ?_⟩
    · simp [newEvents, SetPhotoQuality, ReinitCameraModule, InitCameraModule, Camera.emit]
    · simp [newEvents, SetPhotoQuality, ReinitCameraModule, InitCameraModule, Camera.emit]

/-- C19 at the quality 15 of the specification. -/
theorem SetPhotoQuality_persists_and_reapplies_witness :
    (15 : Nat) < 256 ∧
    LoadPhotoQuality sampleCfg (SetPhotoQuality sampleCfg true blankStore sampleCamera 15).1 = 15 :=
  ⟨by decide,
   (SetPhotoQuality_persists_and_reapplies sampleCfg true blankStore sampleCamera 15
      (by decide)).1⟩

/-- C20: for a 16-bit average `a` and a 16-bit sample `x`, `StreamSetFrameSize`
sets the average to `(a + x) / 2` rounded down, which lies between the smaller
and the larger of the two; after `StreamClearFrameData` the average read by
`StreamGetFrameAverageSize` is 0. -/
theorem StreamSetFrameSize_average (c : Camera) (x : Nat)
    (ha : c.StreamAverageSize < 65536) (hx : x < 65536) :
    StreamGetFrameAverageSize (StreamSetFrameSize c x) = (c.StreamAverageSize + x) / 2 ∧
    min c.StreamAverageSize x ≤ StreamGetFrameAverageSize (StreamSetFrameSize c x) ∧
    StreamGetFrameAverageSize (StreamSetFrameSize c x) ≤ max c.StreamAverageSize x ∧
    StreamGetFrameAverageSize (StreamClearFrameData (StreamSetFrameSize c x)) = 0 := by
  have h : StreamGetFrameAverageSize (StreamSetFrameSize c x) = (c.StreamAverageSize + x) / 2 := by
    simp only [StreamGetFrameAverageSize, StreamSetFrameSize, u16]
    omega
  refine ⟨h, ?_, ?_, rfl⟩
  · rw [h]; omega
  · rw [h]; omega

/-- C20 at the largest average and the largest sample. -/
theorem StreamSetFrameSize_average_witness :
    (({ sampleCamera with StreamAverageSize := 65535 } : Camera).StreamAverageSize < 65536 ∧
      (65535 : Nat) < 65536) ∧
    StreamGetFrameAverageSize
      (StreamSetFrameSize { sampleCamera with StreamAverageSize := 65535 } 65535) =
      (65535 + 65535) / 2 :=
  ⟨⟨by decide, by decide⟩,
   (StreamSetFrameSize_average { sampleCamera with StreamAverageSize := 65535 } 65535
      (by decide) (by decide)).1⟩

/-! ## Frame size -/

theorem SetFrameSize_FrameSize (cfg : Cfg) (initOk : Bool) (e : EEPROMClass) (c : Camera)
    (v : Nat) :
    (SetFrameSize cfg initOk e c v).2.1.FrameSize = v ∧
    (SetFrameSize cfg initOk e c v).2.1.TFrameSize = TransformFrameSizeDataType v := by
  cases initOk <;>
    simp [SetFrameSize, ReinitCameraModule, InitCameraModule, ApplyCameraCfg, Camera.emit]

theorem frame_size_table (c : Camera) :
    (GetFrameSizeWidth c, GetFrameSizeHeight c) =
      (TransformFrameSizeDataType c.FrameSize).resolution ∧
    (6 < c.FrameSize → TransformFrameSizeDataType c.FrameSize = framesize_t.FRAMESIZE_QVGA ∧
      GetFrameSizeWidth c = 320 ∧ GetFrameSizeHeight c = 240) := by
  have h : c.FrameSize = 0 ∨ c.FrameSize = 1 ∨ c.FrameSize = 2 ∨ c.FrameSize = 3 ∨
      c.FrameSize = 4 ∨ c.FrameSize = 5 ∨ c.FrameSize = 6 ∨ ∃ n, c.FrameSize = n + 7 := by
    by_cases h7 : c.FrameSize < 7
    · omega
    · exact Or.inr (Or.inr (Or.inr (Or.inr (Or.inr (Or.inr (Or.inr
        ⟨c.FrameSize - 7, by omega⟩))))))
  unfold GetFrameSizeWidth GetFrameSizeHeight
  rcases h with h | h | h | h | h | h | h | ⟨n, h⟩ <;> rw [h] <;>
    refine ⟨rfl, fun h6 => ?_⟩ <;> first | omega | exact ⟨rfl, rfl, rfl⟩

/-- C22: for every 8-bit code `v`, after `SetFrameSize(v)` the pair
(`GetFrameSizeWidth()`, `GetFrameSizeHeight()`) is the documented resolution of
`TransformFrameSizeDataType(v)`, which is also the frame size the working copy
holds; the codes 0 to 6 give QVGA, CIF, VGA, SVGA, XGA, SXGA and UXGA with their
resolutions, and every code above 6 gives QVGA and 320 x 240 in all three
functions. -/
theorem SetFrameSize_resolution (cfg : Cfg) (initOk : Bool) (e : EEPROMClass) (c : Camera)
    (v : Nat) (hv : v < 256) :
    (GetFrameSizeWidth (SetFrameSize cfg initOk e c v).2.1,
      GetFrameSizeHeight (SetFrameSize cfg initOk e c v).2.1) =
      (TransformFrameSizeDataType v).resolution ∧
    (SetFrameSize cfg initOk e c v).2.1.TFrameSize = TransformFrameSizeDataType v ∧
    LoadFrameSize cfg (SetFrameSize cfg initOk e c v).1 = v ∧
    (6 < v → TransformFrameSizeDataType v = framesize_t.FRAMESIZE_QVGA ∧
      GetFrameSizeWidth (SetFrameSize cfg initOk e c v).2.1 = 320 ∧
      GetFrameSizeHeight (SetFrameSize cfg initOk e c v).2.1 = 240) ∧
    ((List.range 7).map TransformFrameSizeDataType =
      [framesize_t.FRAMESIZE_QVGA, framesize_t.FRAMESIZE_CIF, framesize_t.FRAMESIZE_VGA,
        framesize_t.FRAMESIZE_SVGA, framesize_t.FRAMESIZE_XGA, framesize_t.FRAMESIZE_SXGA,
        framesize_t.FRAMESIZE_UXGA] ∧
      (List.range 7).map (fun k => (TransformFrameSizeDataType k).resolution) =
        [(320, 240), (352, 288), (640, 480), (800, 600), (1024, 768), (1280, 1024),
          (1600, 1200)]) := by
  obtain ⟨hfs, htfs⟩ := SetFrameSize_FrameSize cfg initOk e c v
  have htab := frame_size_table (SetFrameSize cfg initOk e c v).2.1
  rw [hfs] at htab
  refine ⟨htab.1, htfs, ?_, htab.2, by decide, by decide⟩
  simp only [SetFrameSize, LoadFrameSize, SaveFrameSize, SaveUint8, commit_eq, read_write_same]
  exact u8_val_of_lt v hv

/-- C22 at the code 6 (UXGA). -/
theorem SetFrameSize_resolution_witness :
    (6 : Nat) < 256 ∧
    (GetFrameSizeWidth (SetFrameSize sampleCfg true blankStore sampleCamera 6).2.1,
      GetFrameSizeHeight (SetFrameSize sampleCfg true blankStore sampleCamera 6).2.1) =
      (TransformFrameSizeDataType 6).resolution :=
  ⟨by decide,
   (SetFrameSize_resolution sampleCfg true blankStore sampleCamera 6 (by decide)).1⟩

/-! ## Decoding what encoding rejects -/

/-- C24 (what the code does): `LoadString` accepts a stored length equal to the
capacity.  On a store whose bytes are all 4, `LoadString(10, 4)` returns four
characters, a string that `SaveString` with capacity 4 rejects; the fourth
character is read at address 14, the first address after the field. -/
theorem LoadString_returns_capacity_length :
    LoadString ⟨fun _ => 4, []⟩ 10 4 = [4, 4, 4, 4] ∧
    ¬ ((LoadString ⟨fun _ => 4, []⟩ 10 4).length < 4) ∧
    (SaveString ⟨fun _ => 0, []⟩ 10 4 (LoadString ⟨fun _ => 4, []⟩ 10 4)).writes = [] ∧
    LoadString ⟨fun a => if a = 14 then 9 else 4, []⟩ 10 4 = [4, 4, 4, 9] := by
  decide

/-! ## The flash on the failure path -/

/-- C26 (what the code does): with the flash enabled, when the driver supplies
the warm-up frame and then no buffer, `CapturePhoto` returns from inside the
loop after switching the flash on and never switches it off. -/
theorem CapturePhoto_failure_leaves_flash_on :
    (CapturePhoto (supplyOf [goodFrame]) 5 { sampleCamera with CameraFlashEnable := true }).map
        (fun c => (c.flash, c.trace)) =
      some (true, [HwEvent.semaphoreTake, HwEvent.flashOn, HwEvent.fbGet (some goodFrame),
        HwEvent.fbReturn (some goodFrame), HwEvent.fbGet none, HwEvent.logNoBuffer]) := by
  decide

/-! ## Frame of the primitive saves -/

/-- Inside the 16-bit address range, `SaveString` leaves every byte before the
address and after the last character as it was. -/
theorem SaveString_read_outside (e : EEPROMClass) (a m : Nat) (s : ArduinoString) (b : Nat)
    (hb : a + m ≤ 65536) (h : b < a ∨ a + s.length < b) :
    (SaveString e a m s).read b = e.read b := by
  by_cases hlt : s.length < m
  · simp only [SaveString, if_pos hlt, commit_eq]
    rw [SaveString_loop_read_other s _ _ b (by unfold u16; omega)]
    · exact read_write_other _ _ _ _ (by omega)
    · intro k hk
      unfold u16
      omega
  · simp only [SaveString, if_neg hlt]

/-- `LoadString` only depends on the bytes of the field region unless the
stored length equals the capacity. -/
theorem LoadString_congr_ne (e₁ e₂ : EEPROMClass) (addr m : Nat) (hb : addr + m ≤ 65536)
    (hne : (e₂.read addr).val ≠ m)
    (h : ∀ a, Region.mem a (addr, m) → e₁.read a = e₂.read a) :
    LoadString e₁ addr m = LoadString e₂ addr m := by
  by_cases hm : m = 0
  · subst hm
    unfold LoadString
    simp only
    rw [if_neg (by omega), if_neg (by omega)]
  · by_cases hlt : (e₂.read addr).val < m
    · exact LoadString_congr e₁ e₂ addr m hb hlt h
    · have h0 : e₁.read addr = e₂.read addr := h addr (by simp only [Region.mem]; omega)
      unfold LoadString
      simp only [h0]
      rw [if_neg (by omega), if_neg (by omega)]

/-- What a store that differs from another only inside a region loads for a
field whose region is disjoint from it. -/
theorem loads_of_agree_outside (e e' : EEPROMClass) (r : Region)
    (hout : ∀ b, ¬ Region.mem b r → e'.read b = e.read b)
    (a' m' : Nat) (hd : Region.disjoint r (a', m')) :
    (0 < m' → e'.read a' = e.read a') ∧
    (2 ≤ m' → LoadUint16 e' a' = LoadUint16 e a') ∧
    (a' + m' ≤ 65536 → (e.read a').val ≠ m' → LoadString e' a' m' = LoadString e a' m') := by
  have hin : ∀ b, Region.mem b (a', m') → e'.read b = e.read b := by
    intro b hb
    apply hout
    intro hbr
    exact not_mem_of_disjoint r (a', m') b hd hbr hb
  refine ⟨fun hm => hin a' (by simp only [Region.mem]; omega), fun hm => ?_, fun hb hne => ?_⟩
  · exact LoadUint16_congr e' e a' (hin a' (by simp only [Region.mem]; omega))
      (hin (a' + 1) (by simp only [Region.mem]; omega))
  · exact LoadString_congr_ne e' e a' m' hb hne hin

/-- C23 (as stated, refuted): the `uint16_t` cursor of `SaveString` wraps.
Saving a two-character string at address 65535 changes the byte at address 0,
which is not one of the addresses 65535 to 65537. -/
theorem SaveString_wraps_around :
    (SaveString ⟨fun _ => 0, []⟩ 65535 4 [97, 98]).read 0 ≠
      EEPROMClass.read ⟨fun _ => 0, []⟩ 0 ∧
    ¬ (65535 ≤ 0 ∧ 0 ≤ 65535 + ([97, 98] : ArduinoString).length) := by
  decide

/-- C23 (amended): `SaveUint8`, `SaveInt8` and `SaveBool` change at most the byte
at the address; `SaveUint16` at most the bytes at the address and the next one;
`SaveString` of a field that lies inside the 16-bit address range
(`address + max_length ≤ 65536`) at most the bytes from the address to the
address plus the length of the string, and none from `address + max_length` on.
Hence a store that differs from another only inside one region loads the same
value for a scalar, a `uint16_t` or a string field with a disjoint region, for
the string field provided it lies inside the 16-bit address range and its
stored length byte differs from its capacity. -/
theorem primitive_saves_frame (e : EEPROMClass) (a m : Nat) (s : ArduinoString)
    (hb : a + m ≤ 65536) :
    (∀ (x : Nat) (b : Nat), b ≠ a → (SaveUint8 e a x).read b = e.read b) ∧
    (∀ (x : Int) (b : Nat), b ≠ a → (SaveInt8 e a x).read b = e.read b) ∧
    (∀ (x : Bool) (b : Nat), b ≠ a → (SaveBool e a x).read b = e.read b) ∧
    (∀ (x : Nat) (b : Nat), b ≠ a → b ≠ a + 1 → (SaveUint16 e a x).read b = e.read b) ∧
    (∀ b, (b < a ∨ a + s.length < b) → (SaveString e a m s).read b = e.read b) ∧
    (∀ b, a + m ≤ b → (SaveString e a m s).read b = e.read b) ∧
    (∀ (e' : EEPROMClass) (r : Region), (∀ b, ¬ Region.mem b r → e'.read b = e.read b) →
      ∀ (a' m' : Nat), Region.disjoint r (a', m') →
        (0 < m' → e'.read a' = e.read a') ∧
        (2 ≤ m' → LoadUint16 e' a' = LoadUint16 e a') ∧
        (a' + m' ≤ 65536 → (e.read a').val ≠ m' →
          LoadString e' a' m' = LoadString e a' m')) := by
  refine ⟨?_, ?_, ?_, ?_, ?_, ?_, ?_⟩
  · intro x b hne
    exact read_write_other _ _ _ _ hne
  · intro x b hne
    exact read_write_other _ _ _ _ hne
  · intro x b hne
    exact read_write_other _ _ _ _ hne
  · intro x b h0 h1
    simp only [SaveUint16, commit_eq]
    rw [read_write_other _ _ _ _ h1, read_write_other _ _ _ _ h0]
  · intro b h
    exact SaveString_read_outside e a m s b hb h
  · intro b h
    by_cases hlt : s.length < m
    · exact SaveString_read_outside e a m s b hb (Or.inr (by omega))
    · simp only [SaveString, if_neg hlt]
  · intro e' r hout a' m' hd
    exact loads_of_agree_outside e e' r hout a' m' hd

/-- C23 (amended) at a field of capacity 4 at address 10. -/
theorem primitive_saves_frame_witness :
    (10 : Nat) + 4 ≤ 65536 ∧
    (SaveString ⟨fun _ => 7, []⟩ 10 4 [97, 98]).read 13 = EEPROMClass.read ⟨fun _ => 7, []⟩ 13 :=
  ⟨by decide,
   (primitive_saves_frame ⟨fun _ => 7, []⟩ 10 4 [97, 98] (by decide)).2.2.2.2.1 13
      (Or.inr (by decide))⟩

/-! ## Where the control byte is read -/

/-- C25 (as stated, refuted): the control byte is read before any length test.
On the supply warm-up, a frame of length 10 whose buffer has `0xFF` at offset
15, then a good frame, `CapturePhoto` logs the byte `0xFF` it read from the
frame of length 10. -/
theorem CapturePhoto_reads_byte15_of_tiny_frame :
    tinyFrame.len ≤ 15 ∧ ControlFlag tinyFrame = 255 ∧
    (CapturePhoto (supplyOf [goodFrame, tinyFrame, goodFrame]) 5 sampleCamera).map
        (fun c => c.trace) =
      some [HwEvent.semaphoreTake, HwEvent.fbGet (some goodFrame),
        HwEvent.fbReturn (some goodFrame), HwEvent.fbGet (some tinyFrame),
        HwEvent.logCorrupt 255, HwEvent.fbReturn (some { tinyFrame with len := 0 }),
        HwEvent.fbGet (some goodFrame), HwEvent.fbReturn (some goodFrame),
        HwEvent.semaphoreGive] := by
  decide

/-- C25 (amended): `CapturePhoto` reads byte 15 of every frame supplied to the
retry loop, whatever the frame's length (a non-zero byte is logged and the loop
goes round again); for the frame a call without the no-buffer error ends on,
index 15 is below the length, which exceeds 100. -/
theorem CapturePhoto_byte15_read (hw : FrameSupply) (fuel : Nat) (c c' : Camera)
    (hs : c.StreamOnOff = false) (h : CapturePhoto hw fuel c = some c')
    (hok : HwEvent.logNoBuffer ∉ newEvents c c') :
    (∃ f, c'.FrameBuffer = some f ∧ hw (c'.requested - 1) = some f ∧ 15 < f.len ∧
      100 < f.len) ∧
    ∀ (n : Nat) (d : Camera) (g : camera_fb_t), hw d.requested = some g →
      ControlFlag g ≠ 0 →
      CapturePhoto.loop hw (n + 1) d = CapturePhoto.loop hw n (CapturePhoto.afterPass d g) ∧
      HwEvent.logCorrupt (ControlFlag g) ∈ newEvents d (CapturePhoto.afterPass d g) := by
  constructor
  · rcases CapturePhoto_spec hw fuel c c' hs h with hbad | ⟨f, hf1, _, hf3, hf4⟩
    · exact absurd hbad hok
    · exact ⟨f, hf1, hf4, by omega, hf3⟩
  · intro n d g hg hflag
    constructor
    · rw [CapturePhoto_loop_some hw n d g hg, if_pos]
      rw [checked_len_gt]
      exact fun hh => hflag hh.1
    · rw [newEvents_of_append d _ _ (afterPass_trace d g)]
      simp [CapturePhoto.passEvents, hflag]

/-- C25 (amended) on the sample supply. -/
theorem CapturePhoto_byte15_read_witness :
    (sampleCamera.StreamOnOff = false ∧ CapturePhoto photoSupply 3 sampleCamera = some photoTaken ∧
      HwEvent.logNoBuffer ∉ newEvents sampleCamera photoTaken) ∧
    ∃ f, photoTaken.FrameBuffer = some f ∧ photoSupply (photoTaken.requested - 1) = some f ∧
      15 < f.len ∧ 100 < f.len :=
  ⟨⟨by decide, by decide, by decide⟩,
   (CapturePhoto_byte15_read photoSupply 3 sampleCamera photoTaken (by decide) (by decide)
      (by decide)).1⟩

/-! ## The fingerprint text -/

set_option maxRecDepth 200000 in
theorem decimalValue_decimalString : ∀ b : Byte, decimalValue (decimalString b) = b.val := by
  decide

theorem decimalString_injective (a b : Byte) (h : decimalString a = decimalString b) :
    a = b := by
  apply Fin.ext
  rw [← decimalValue_decimalString a, ← decimalValue_decimalString b, h]

theorem foldl_decimalString (l : List Byte) :
    ∀ init : ArduinoString,
      l.foldl (fun Id b => Id ++ decimalString b) init = init ++ l.flatMap decimalString := by
  induction l with
  | nil => intro init; simp
  | cons b l ih =>
    intro init
    simp only [List.foldl_cons, List.flatMap_cons]
    rw [ih, List.append_assoc]

theorem fingerprintId_eq_flatMap (hw : Platform) :
    fingerprintId hw = hw.UniqueID.flatMap decimalString := by
  unfold fingerprintId
  rw [foldl_decimalString]
  rfl

/-- Two byte arrays whose corresponding bytes have the same number of decimal
digits and whose concatenated decimal texts are equal are equal. -/
theorem flatMap_decimalString_inj (l₁ : List Byte) :
    ∀ l₂ : List Byte,
      l₁.map (fun a => (decimalString a).length) = l₂.map (fun b => (decimalString b).length) →
      l₁.flatMap decimalString = l₂.flatMap decimalString → l₁ = l₂ := by
  induction l₁ with
  | nil =>
    intro l₂ hlen _
    cases l₂ with
    | nil => rfl
    | cons b l₂ => simp at hlen
  | cons a l₁ ih =>
    intro l₂ hlen htext
    cases l₂ with
    | nil => simp at hlen
    | cons b l₂ =>
      simp only [List.map_cons, List.cons.injEq] at hlen
      simp only [List.flatMap_cons] at htext
      obtain ⟨h1, h2⟩ := List.append_inj htext hlen.1
      rw [decimalString_injective a b h1, ih l₂ hlen.2 h2]

/-- The fingerprint text of two platforms with the same MAC text and unique IDs
of matching digit counts determines the unique ID. -/
theorem fingerprintText_inj (hw₁ hw₂ : Platform)
    (hmac : hw₁.WiFiMacAddress = hw₂.WiFiMacAddress)
    (hdig : hw₁.UniqueID.map (fun a => (decimalString a).length) =
      hw₂.UniqueID.map (fun b => (decimalString b).length))
    (htext : fingerprintText hw₁ = fingerprintText hw₂) : hw₁.UniqueID = hw₂.UniqueID := by
  unfold fingerprintText at htext
  rw [hmac, fingerprintId_eq_flatMap, fingerprintId_eq_flatMap] at htext
  have h1 := List.append_cancel_right htext
  have h2 := List.append_cancel_right h1
  exact flatMap_decimalString_inj _ _ hdig h2

/-- C27 (as stated, refuted): the decimal renderings of the unique-ID bytes are
appended without a separator, so the two-byte IDs `1, 23` and `12, 3` with the
same MAC give the same text `123 AB:CD` and hence the same fingerprint. -/
theorem fingerprintText_collision :
    ([1, 23] : List Byte).length = ([12, 3] : List Byte).length ∧
    ([1, 23] : List Byte) ≠ [12, 3] ∧
    fingerprintText { samplePlatform with UniqueID := [1, 23] } =
      fingerprintText { samplePlatform with UniqueID := [12, 3] } ∧
    fingerprintText { samplePlatform with UniqueID := [1, 23] } =
      [49, 50, 51, 32, 65, 66, 58, 67, 68] := by
  decide

/-- C27 (amended): for two unique-ID arrays of the same size whose corresponding
bytes have the same number of decimal digits, and the same MAC text, equal texts
`Id + " " + MAC` imply equal arrays; and so do equal fingerprints under any
injective encoder. -/
theorem fingerprintText_injective_same_digits (hw₁ hw₂ : Platform)
    (hmac : hw₁.WiFiMacAddress = hw₂.WiFiMacAddress)
    (hdig : hw₁.UniqueID.map (fun a => (decimalString a).length) =
      hw₂.UniqueID.map (fun b => (decimalString b).length)) :
    hw₁.UniqueID.length = hw₂.UniqueID.length ∧
    (fingerprintText hw₁ = fingerprintText hw₂ → hw₁.UniqueID = hw₂.UniqueID) ∧
    ∀ enc : ArduinoString → ArduinoString, Function.Injective enc →
      enc (fingerprintText hw₁) = enc (fingerprintText hw₂) → hw₁.UniqueID = hw₂.UniqueID := by
  refine ⟨?_, fun htext => fingerprintText_inj hw₁ hw₂ hmac hdig htext,
    fun enc henc h => fingerprintText_inj hw₁ hw₂ hmac hdig (henc h)⟩
  have := congrArg List.length hdig
  simpa using this

/-- C27 (amended) at two four-byte IDs with digit counts 1, 2, 1, 3. -/
theorem fingerprintText_injective_same_digits_witness :
    (samplePlatform.WiFiMacAddress =
        ({ samplePlatform with UniqueID := [7, 99, 4, 250] } : Platform).WiFiMacAddress ∧
      samplePlatform.UniqueID.map (fun a => (decimalString a).length) =
        ([7, 99, 4, 250] : List Byte).map (fun b => (decimalString b).length)) ∧
    (fingerprintText samplePlatform =
        fingerprintText { samplePlatform with UniqueID := [7, 99, 4, 250] } →
      samplePlatform.UniqueID = [7, 99, 4, 250]) :=
  ⟨⟨rfl, by decide⟩,
   (fingerprintText_injective_same_digits samplePlatform
      { samplePlatform with UniqueID := [7, 99, 4, 250] } rfl (by decide)).2.1⟩

end PrusaCam
